import Mathlib

/-!
# Intersection engine of the ray tracer

A shallow embedding of `GeometryUtils` and `LightUtils` (Utils.h), of the scene queries
`Scene::GetClosestHit` / `Scene::DoesHit` and of `Scene::AddMaterial` (Scene.cpp), and of
`Renderer::RenderPixel`,
`Renderer::CycleLightingMode` and the static pixel partition of `Renderer::Render`
(Renderer.cpp).

Numbers: the source computes in `float`.  The embedding computes in an arbitrary
linearly ordered field `F` (exact arithmetic, no rounding); every definition is
executable once `F` is, e.g. for `F = ℚ`.  The slab test of a mesh divides by the
direction components of the ray, which are zero for a ray parallel to an axis: its
quotients are `ExtFloat` values, a number, an infinity or NaN, compared as `float`
values are.  The C library function `sqrtf` is a parameter
of the definitions that call it.  A by-reference `HitRecord&` parameter becomes an
argument and a component of the result.  The `int` and `uint32_t` values of the
renderer are natural numbers.
-/

namespace dae

/-! ## Data model (Math.h and DataTypes.h) -/

/-- Modelled from the spec: `Vector3` of Math.h, which is not in src/. A 3D point or
direction with scalar components `x`, `y`, `z`. -/
structure Vector3 (F : Type) where
  x : F
  y : F
  z : F
deriving DecidableEq

/-- Modelled from the spec: `Vector4` of Math.h, which is not in src/; only used as a
row of the mesh transform. -/
structure Vector4 (F : Type) where
  x : F
  y : F
  z : F
  w : F

/-- Modelled from the spec: `Matrix` of Matrix.h, which is not in src/; the
model-to-world transform of a mesh. No query of the engine reads it. -/
structure Matrix (F : Type) where
  r0 : Vector4 F
  r1 : Vector4 F
  r2 : Vector4 F
  r3 : Vector4 F

namespace Vector3

variable {F : Type} [LinearOrderedField F]

instance : Zero (Vector3 F) := ⟨⟨0, 0, 0⟩⟩

instance : Add (Vector3 F) := ⟨fun a b => ⟨a.x + b.x, a.y + b.y, a.z + b.z⟩⟩

instance : Sub (Vector3 F) := ⟨fun a b => ⟨a.x - b.x, a.y - b.y, a.z - b.z⟩⟩

instance : Neg (Vector3 F) := ⟨fun a => ⟨-a.x, -a.y, -a.z⟩⟩

/-- Modelled from the spec: `operator*(float, Vector3)` of Math.h (not in src/),
the product of a scalar and a vector. -/
def scale (k : F) (v : Vector3 F) : Vector3 F := ⟨k * v.x, k * v.y, k * v.z⟩

/-- Modelled from the spec: `Vector3::Dot` of Math.h (not in src/), the dot product. -/
def Dot (a b : Vector3 F) : F := a.x * b.x + a.y * b.y + a.z * b.z

/-- Modelled from the spec: `Vector3::Cross` of Math.h (not in src/), the cross
product. -/
def Cross (a b : Vector3 F) : Vector3 F :=
  ⟨a.y * b.z - a.z * b.y, a.z * b.x - a.x * b.z, a.x * b.y - a.y * b.x⟩

/-- Modelled from the spec: `Vector3::Magnitude` of Math.h (not in src/), the length
`sqrtf(x*x + y*y + z*z)`. -/
def Magnitude (sqrtf : F → F) (v : Vector3 F) : F := sqrtf (Dot v v)

/-- Modelled from the spec: `Vector3::Normalized` of Math.h (not in src/), the vector
divided by its length. -/
def Normalized (sqrtf : F → F) (v : Vector3 F) : Vector3 F :=
  ⟨v.x / Magnitude sqrtf v, v.y / Magnitude sqrtf v, v.z / Magnitude sqrtf v⟩

end Vector3

/-- Modelled from the spec: `Ray` of DataTypes.h (not in src/): origin, direction and
the bounds `min`, `max` of the valid parametric interval. -/
structure Ray (F : Type) where
  origin : Vector3 F
  direction : Vector3 F
  min : F
  max : F

/-- Modelled from the spec: `HitRecord` of DataTypes.h (not in src/): hit point, surface
normal, parametric distance `t`, `didHit` flag and material index. `t` ranges over the
numbers extended by `+infinity` (`⊤`), the value of a default-constructed record. -/
structure HitRecord (F : Type) where
  origin : Vector3 F
  normal : Vector3 F
  t : WithTop F
  didHit : Bool
  materialIndex : Nat

/-- Modelled from the spec: the default-constructed record `HitRecord{}`:
`didHit = false` and `t = +infinity`, the other members zero. -/
def HitRecord.fresh {F : Type} [LinearOrderedField F] : HitRecord F :=
  { origin := 0, normal := 0, t := ⊤, didHit := false, materialIndex := 0 }

/-- Modelled from the spec: `Sphere` of DataTypes.h (not in src/). -/
structure Sphere (F : Type) where
  origin : Vector3 F
  radius : F
  materialIndex : Nat

/-- Modelled from the spec: `Plane` of DataTypes.h (not in src/). -/
structure Plane (F : Type) where
  origin : Vector3 F
  normal : Vector3 F
  materialIndex : Nat

/-- Modelled from the spec: `TriangleCullMode` of DataTypes.h (not in src/). -/
inductive TriangleCullMode where
  | FrontFaceCulling
  | BackFaceCulling
  | NoCulling
deriving DecidableEq

/-- Modelled from the spec: `Triangle` of DataTypes.h (not in src/). -/
structure Triangle (F : Type) where
  v0 : Vector3 F
  v1 : Vector3 F
  v2 : Vector3 F
  normal : Vector3 F
  cullMode : TriangleCullMode
  materialIndex : Nat

/-- Modelled from the spec: `TriangleMesh` of DataTypes.h (not in src/): object-space
positions and normals, index buffer, material index, cull mode, model-to-world
transform, and the cached world-space positions, normals and bounding box. -/
structure TriangleMesh (F : Type) where
  positions : List (Vector3 F)
  normals : List (Vector3 F)
  indices : List Nat
  materialIndex : Nat
  cullMode : TriangleCullMode
  transform : Matrix F
  transformedPositions : List (Vector3 F)
  transformedNormals : List (Vector3 F)
  transformedMinAABB : Vector3 F
  transformedMaxAABB : Vector3 F

/-- Modelled from the spec: the value of `FLT_EPSILON` of `<cfloat>`, `2^-23`. -/
def FLT_EPSILON {F : Type} [LinearOrderedField F] : F := 1 / 8388608

/-- Modelled from the spec: the value of a `float` division as section 7 of the spec
relies on it (IEEE-754): a number, `+infinity`, `-infinity` or NaN. Signed zeros are not
modelled: a zero divisor counts as `+0`. -/
inductive ExtFloat (F : Type) where
  | nan
  | negInf
  | fin (x : F)
  | posInf

namespace ExtFloat

variable {F : Type} [LinearOrderedField F]

/-- The comparison `a < b` of two `float` values: false when one of them is NaN. -/
def lt : ExtFloat F → ExtFloat F → Bool
  | nan, _ => false
  | negInf, nan => false
  | negInf, negInf => false
  | negInf, fin _ => true
  | negInf, posInf => true
  | fin _, nan => false
  | fin _, negInf => false
  | fin a, fin b => decide (a < b)
  | fin _, posInf => true
  | posInf, _ => false

/-- The comparison `a <= b` of two `float` values: false when one of them is NaN. -/
def le : ExtFloat F → ExtFloat F → Bool
  | nan, _ => false
  | negInf, nan => false
  | negInf, negInf => true
  | negInf, fin _ => true
  | negInf, posInf => true
  | fin _, nan => false
  | fin _, negInf => false
  | fin a, fin b => decide (a ≤ b)
  | fin _, posInf => true
  | posInf, nan => false
  | posInf, negInf => false
  | posInf, fin _ => false
  | posInf, posInf => true

/-- The quotient `a / b` of two numbers as a `float` division gives it: by zero, a
positive `a` gives `+infinity`, a negative `a` gives `-infinity` and `0 / 0` is NaN. -/
def div (a b : F) : ExtFloat F :=
  if b = 0 then
    if 0 < a then posInf else if a < 0 then negInf else nan
  else fin (a / b)

/-- The function `std::min(a, b)`, which is `(b < a) ? b : a`. -/
def stdMin (a b : ExtFloat F) : ExtFloat F := if lt b a then b else a

/-- The function `std::max(a, b)`, which is `(a < b) ? b : a`. -/
def stdMax (a b : ExtFloat F) : ExtFloat F := if lt a b then b else a

end ExtFloat

namespace GeometryUtils

variable {F : Type} [LinearOrderedField F]

/-! ## Sphere (Utils.h 14-53) -/

/-- The coefficient `a` of `HitTest_Sphere`. -/
def sphereA (ray : Ray F) : F := Vector3.Dot ray.direction ray.direction

/-- The coefficient `b` of `HitTest_Sphere`. -/
def sphereB (sphere : Sphere F) (ray : Ray F) : F :=
  2 * Vector3.Dot ray.direction (ray.origin - sphere.origin)

/-- The coefficient `c` of `HitTest_Sphere`. -/
def sphereC (sphere : Sphere F) (ray : Ray F) : F :=
  Vector3.Dot (ray.origin - sphere.origin) (ray.origin - sphere.origin)
    - sphere.radius * sphere.radius

/-- The discriminant `d = b * b - 4 * a * c` of `HitTest_Sphere`. -/
def sphereD (sphere : Sphere F) (ray : Ray F) : F :=
  sphereB sphere ray * sphereB sphere ray - 4 * sphereA ray * sphereC sphere ray

/-- The closest-hit form `HitTest_Sphere(sphere, ray, hitRecord, ignoreHitRecord)`:
the returned boolean and the record as the call leaves it. -/
def HitTest_Sphere (sqrtf : F → F) (sphere : Sphere F) (ray : Ray F)
    (hitRecord : HitRecord F) (_ignoreHitRecord : Bool) : Bool × HitRecord F :=
  let a := sphereA ray
  let b := sphereB sphere ray
  let d := sphereD sphere ray
  if 0 < d then
    let t := (-b - sqrtf d) / 2 / a
    let t := if t < ray.min then (-b + sqrtf d) / 2 / a else t
    if ray.min ≤ t ∧ t ≤ ray.max then
      let origin := ray.origin + Vector3.scale t ray.direction
      (true,
        { hitRecord with
          t := (t : F)
          didHit := true
          origin := origin
          materialIndex := sphere.materialIndex
          normal := Vector3.Normalized sqrtf (origin - sphere.origin) })
    else (false, hitRecord)
  else (false, hitRecord)

/-- The any-hit form `HitTest_Sphere(sphere, ray)`. -/
def HitTest_Sphere_AnyHit (sqrtf : F → F) (sphere : Sphere F) (ray : Ray F) : Bool :=
  (HitTest_Sphere sqrtf sphere ray HitRecord.fresh true).1

/-! ## Plane (Utils.h 57-83) -/

/-- The closest-hit form `HitTest_Plane(plane, ray, hitRecord, ignoreHitRecord)`. -/
def HitTest_Plane (plane : Plane F) (ray : Ray F)
    (hitRecord : HitRecord F) (_ignoreHitRecord : Bool) : Bool × HitRecord F :=
  let dotProduct := Vector3.Dot ray.direction plane.normal
  if dotProduct < 0 then
    let t := Vector3.Dot (plane.origin - ray.origin) plane.normal / dotProduct
    if ray.min ≤ t ∧ t ≤ ray.max then
      (true,
        { hitRecord with
          t := (t : F)
          didHit := true
          materialIndex := plane.materialIndex
          normal := plane.normal
          origin := ray.origin + Vector3.scale t ray.direction })
    else (false, hitRecord)
  else (false, hitRecord)

/-- The any-hit form `HitTest_Plane(plane, ray)`. -/
def HitTest_Plane_AnyHit (plane : Plane F) (ray : Ray F) : Bool :=
  (HitTest_Plane plane ray HitRecord.fresh true).1

/-! ## Triangle (Utils.h 87-141) -/

/-- The local `edge1` of `HitTest_Triangle`. -/
def triEdge1 (triangle : Triangle F) : Vector3 F := triangle.v1 - triangle.v0

/-- The local `edge2` of `HitTest_Triangle`. -/
def triEdge2 (triangle : Triangle F) : Vector3 F := triangle.v2 - triangle.v0

/-- The local `h` of `HitTest_Triangle`. -/
def triH (triangle : Triangle F) (ray : Ray F) : Vector3 F :=
  Vector3.Cross ray.direction (triEdge2 triangle)

/-- The local `a` of `HitTest_Triangle`, whose sign tells the facing. -/
def triA (triangle : Triangle F) (ray : Ray F) : F :=
  Vector3.Dot (triEdge1 triangle) (triH triangle ray)

/-- The local `f = 1 / a` of `HitTest_Triangle`. -/
def triF (triangle : Triangle F) (ray : Ray F) : F := 1 / triA triangle ray

/-- The local `s` of `HitTest_Triangle`. -/
def triS (triangle : Triangle F) (ray : Ray F) : Vector3 F := ray.origin - triangle.v0

/-- The barycentric coordinate `u` of `HitTest_Triangle`. -/
def triU (triangle : Triangle F) (ray : Ray F) : F :=
  triF triangle ray * Vector3.Dot (triS triangle ray) (triH triangle ray)

/-- The local `q` of `HitTest_Triangle`. -/
def triQ (triangle : Triangle F) (ray : Ray F) : Vector3 F :=
  Vector3.Cross (triS triangle ray) (triEdge1 triangle)

/-- The barycentric coordinate `v` of `HitTest_Triangle`. -/
def triV (triangle : Triangle F) (ray : Ray F) : F :=
  triF triangle ray * Vector3.Dot ray.direction (triQ triangle ray)

/-- The parametric distance `t` of `HitTest_Triangle`. -/
def triT (triangle : Triangle F) (ray : Ray F) : F :=
  triF triangle ray * Vector3.Dot (triEdge2 triangle) (triQ triangle ray)

/-- Lines 110-134 of `HitTest_Triangle`: what the function does once the facing test
has let the ray through. -/
def HitTest_Triangle_inside (triangle : Triangle F) (ray : Ray F)
    (hitRecord : HitRecord F) (ignoreHitRecord : Bool) : Bool × HitRecord F :=
  let u := triU triangle ray
  if u < 0 ∨ u > 1 then (false, hitRecord)
  else
    let v := triV triangle ray
    if v < 0 ∨ u + v > 1 then (false, hitRecord)
    else
      let t := triT triangle ray
      if t > ray.min ∧ t < ray.max then
        if ignoreHitRecord then (true, hitRecord)
        else
          (true,
            { hitRecord with
              didHit := true
              materialIndex := triangle.materialIndex
              origin := ray.origin + Vector3.scale t ray.direction
              normal := triangle.normal
              t := (t : F) })
      else (false, hitRecord)

/-- The closest-hit form `HitTest_Triangle(triangle, ray, hitRecord, ignoreHitRecord)`. -/
def HitTest_Triangle (triangle : Triangle F) (ray : Ray F)
    (hitRecord : HitRecord F) (ignoreHitRecord : Bool) : Bool × HitRecord F :=
  let a := triA triangle ray
  if a < -FLT_EPSILON then
    if !ignoreHitRecord && triangle.cullMode == TriangleCullMode.BackFaceCulling then
      (false, hitRecord)
    else HitTest_Triangle_inside triangle ray hitRecord ignoreHitRecord
  else if a > FLT_EPSILON then
    if !ignoreHitRecord && triangle.cullMode == TriangleCullMode.FrontFaceCulling then
      (false, hitRecord)
    else HitTest_Triangle_inside triangle ray hitRecord ignoreHitRecord
  else (false, hitRecord)

/-- The any-hit form `HitTest_Triangle(triangle, ray)`. -/
def HitTest_Triangle_AnyHit (triangle : Triangle F) (ray : Ray F) : Bool :=
  (HitTest_Triangle triangle ray HitRecord.fresh true).1

/-! ## Triangle mesh (Utils.h 144-210) -/

/-- The bounding-box test `SlabTest_TriangleMesh` (lines 144-168). Its six quotients,
`std::min`, `std::max` and the two final comparisons are those of `ExtFloat`, so a zero
direction component gives an infinity or NaN as it does in `float`. -/
def SlabTest_TriangleMesh (mesh : TriangleMesh F) (ray : Ray F) : Bool :=
  let tx1 := ExtFloat.div (mesh.transformedMinAABB.x - ray.origin.x) ray.direction.x
  let tx2 := ExtFloat.div (mesh.transformedMaxAABB.x - ray.origin.x) ray.direction.x
  let tmin := ExtFloat.stdMin tx1 tx2
  let tmax := ExtFloat.stdMax tx1 tx2
  let ty1 := ExtFloat.div (mesh.transformedMinAABB.y - ray.origin.y) ray.direction.y
  let ty2 := ExtFloat.div (mesh.transformedMaxAABB.y - ray.origin.y) ray.direction.y
  let tmin := ExtFloat.stdMax tmin (ExtFloat.stdMin ty1 ty2)
  let tmax := ExtFloat.stdMin tmax (ExtFloat.stdMax ty1 ty2)
  let tz1 := ExtFloat.div (mesh.transformedMinAABB.z - ray.origin.z) ray.direction.z
  let tz2 := ExtFloat.div (mesh.transformedMaxAABB.z - ray.origin.z) ray.direction.z
  let tmin := ExtFloat.stdMax tmin (ExtFloat.stdMin tz1 tz2)
  let tmax := ExtFloat.stdMin tmax (ExtFloat.stdMax tz1 tz2)
  ExtFloat.lt (ExtFloat.fin 0) tmax && ExtFloat.le tmin tmax

/-- The value of `SlabTest_TriangleMesh` for a ray whose three direction components are
non-zero, where every quotient is a number: the same computation in the field. -/
def slabTestFinite (mesh : TriangleMesh F) (ray : Ray F) : Bool :=
  let tx1 := (mesh.transformedMinAABB.x - ray.origin.x) / ray.direction.x
  let tx2 := (mesh.transformedMaxAABB.x - ray.origin.x) / ray.direction.x
  let tmin := min tx1 tx2
  let tmax := max tx1 tx2
  let ty1 := (mesh.transformedMinAABB.y - ray.origin.y) / ray.direction.y
  let ty2 := (mesh.transformedMaxAABB.y - ray.origin.y) / ray.direction.y
  let tmin := max tmin (min ty1 ty2)
  let tmax := min tmax (max ty1 ty2)
  let tz1 := (mesh.transformedMinAABB.z - ray.origin.z) / ray.direction.z
  let tz2 := (mesh.transformedMaxAABB.z - ray.origin.z) / ray.direction.z
  let tmin := max tmin (min tz1 tz2)
  let tmax := min tmax (max tz1 tz2)
  decide (tmax > 0 ∧ tmax ≥ tmin)

/-- The triangle that the loop of `HitTest_TriangleMesh` assembles at index `i` of the
index buffer (lines 182-187). A read outside a buffer, undefined in the source, reads
index `0` or the zero vector here. -/
def meshTriangle (mesh : TriangleMesh F) (i : Nat) : Triangle F :=
  { v0 := mesh.transformedPositions.getD (mesh.indices.getD i 0) 0
    v1 := mesh.transformedPositions.getD (mesh.indices.getD (i + 1) 0) 0
    v2 := mesh.transformedPositions.getD (mesh.indices.getD (i + 2) 0) 0
    normal := mesh.transformedNormals.getD (i / 3) 0
    cullMode := mesh.cullMode
    materialIndex := mesh.materialIndex }

/-- The values `0, 3, 6, ...` below `n` that `for (i = 0; i < n; i += 3)` visits. -/
def meshSteps (n : Nat) : List Nat := (List.range ((n + 2) / 3)).map (fun k => 3 * k)

/-- The loop of `HitTest_TriangleMesh` (lines 180-203) over the remaining values of
`i`, with the `return hitRecord.didHit` that follows it. -/
def meshLoop (mesh : TriangleMesh F) (ray : Ray F) (ignoreHitRecord : Bool) :
    List Nat → HitRecord F → Bool × HitRecord F
  | [], hitRecord => (hitRecord.didHit, hitRecord)
  | i :: rest, hitRecord =>
    let r := HitTest_Triangle (meshTriangle mesh i) ray HitRecord.fresh ignoreHitRecord
    if r.1 then
      if ignoreHitRecord then (true, hitRecord)
      else if r.2.t > 0 ∧ r.2.t < hitRecord.t then
        meshLoop mesh ray ignoreHitRecord rest r.2
      else meshLoop mesh ray ignoreHitRecord rest hitRecord
    else meshLoop mesh ray ignoreHitRecord rest hitRecord

/-- The closest-hit form
`HitTest_TriangleMesh(mesh, ray, hitRecord, ignoreHitRecord)`. -/
def HitTest_TriangleMesh (mesh : TriangleMesh F) (ray : Ray F)
    (hitRecord : HitRecord F) (ignoreHitRecord : Bool) : Bool × HitRecord F :=
  if !SlabTest_TriangleMesh mesh ray then (false, hitRecord)
  else meshLoop mesh ray ignoreHitRecord (meshSteps mesh.indices.length) hitRecord

/-- The any-hit form `HitTest_TriangleMesh(mesh, ray)`. -/
def HitTest_TriangleMesh_AnyHit (mesh : TriangleMesh F) (ray : Ray F) : Bool :=
  (HitTest_TriangleMesh mesh ray HitRecord.fresh true).1

/-- The point `p` lies inside the cached box of the mesh, bounds inclusive. -/
def insideAABB (mesh : TriangleMesh F) (p : Vector3 F) : Prop :=
  mesh.transformedMinAABB.x ≤ p.x ∧ p.x ≤ mesh.transformedMaxAABB.x
  ∧ mesh.transformedMinAABB.y ≤ p.y ∧ p.y ≤ mesh.transformedMaxAABB.y
  ∧ mesh.transformedMinAABB.z ≤ p.z ∧ p.z ≤ mesh.transformedMaxAABB.z

instance (mesh : TriangleMesh F) (p : Vector3 F) : Decidable (insideAABB mesh p) := by
  unfold insideAABB
  infer_instance

end GeometryUtils

/-! ## Scene queries (Scene.cpp 29-108) -/

/-- Modelled from the spec: `ColorRGB` of Math.h (not in src/). -/
structure ColorRGB (F : Type) where
  r : F
  g : F
  b : F

/-- Modelled from the spec: `LightType` of DataTypes.h (not in src/). -/
inductive LightType where
  | Point
  | Directional
deriving DecidableEq

/-- Modelled from the spec: `Light` of DataTypes.h (not in src/). -/
structure Light (F : Type) where
  origin : Vector3 F
  direction : Vector3 F
  color : ColorRGB F
  intensity : F
  type : LightType

/-- Modelled from the spec: a `Material` of Material.h (not in src/), known to the
engine only through `Shade(hit, lightDirection, viewDirection)`. -/
structure Material (F : Type) where
  Shade : HitRecord F → Vector3 F → Vector3 F → ColorRGB F

/-- Modelled from the spec: the members of `Scene` (Scene.h, not in src/) that the
queries read: one collection per shape, the lights and the material table. -/
structure Scene (F : Type) where
  m_PlaneGeometries : List (Plane F)
  m_SphereGeometries : List (Sphere F)
  m_Triangles : List (Triangle F)
  m_TriangleMeshGeometries : List (TriangleMesh F)
  m_Lights : List (Light F)
  m_Materials : List (Material F)

namespace Scene

open GeometryUtils

variable {F : Type} [LinearOrderedField F]

/-- The body shared by the four loops of `GetClosestHit`:
`if (hitInfo.t < closestHit.t) closestHit = hitInfo;`. -/
def keepCloser (closestHit hitInfo : HitRecord F) : HitRecord F :=
  if hitInfo.t < closestHit.t then hitInfo else closestHit

/-- The query `Scene::GetClosestHit(ray, closestHit)`: the record as the call leaves
it. Each loop tests one collection, every primitive on a record of its own. -/
def GetClosestHit (sqrtf : F → F) (scene : Scene F) (ray : Ray F)
    (closestHit : HitRecord F) : HitRecord F :=
  let closestHit := scene.m_PlaneGeometries.foldl
    (fun closestHit plane =>
      keepCloser closestHit (HitTest_Plane plane ray HitRecord.fresh false).2) closestHit
  let closestHit := scene.m_SphereGeometries.foldl
    (fun closestHit sphere =>
      keepCloser closestHit (HitTest_Sphere sqrtf sphere ray HitRecord.fresh false).2)
    closestHit
  let closestHit := scene.m_Triangles.foldl
    (fun closestHit triangle =>
      keepCloser closestHit (HitTest_Triangle triangle ray HitRecord.fresh false).2)
    closestHit
  scene.m_TriangleMeshGeometries.foldl
    (fun closestHit mesh =>
      keepCloser closestHit (HitTest_TriangleMesh mesh ray HitRecord.fresh false).2)
    closestHit

/-- A range-for loop whose body is `if (test(x)) return true;`: `true` when the loop
returns, `false` when it runs to its end. -/
def returnsTrue {α : Type} (test : α → Bool) : List α → Bool
  | [] => false
  | x :: rest => if test x then true else returnsTrue test rest

/-- The query `Scene::DoesHit(ray)`. -/
def DoesHit (sqrtf : F → F) (scene : Scene F) (ray : Ray F) : Bool :=
  if returnsTrue (fun plane => HitTest_Plane_AnyHit plane ray) scene.m_PlaneGeometries
  then true
  else if returnsTrue (fun sphere => HitTest_Sphere_AnyHit sqrtf sphere ray)
    scene.m_SphereGeometries
  then true
  else if returnsTrue (fun triangle => HitTest_Triangle_AnyHit triangle ray)
    scene.m_Triangles
  then true
  else if returnsTrue (fun mesh => HitTest_TriangleMesh_AnyHit mesh ray)
    scene.m_TriangleMeshGeometries
  then true
  else false

/-- The reports of the closest-hit tests of all primitives of the scene, each started
from a fresh record, in the order planes, spheres, standalone triangles, meshes and by
index inside a collection: the returned boolean and the record the test leaves. -/
def closestReports (sqrtf : F → F) (scene : Scene F) (ray : Ray F) :
    List (Bool × HitRecord F) :=
  scene.m_PlaneGeometries.map (fun plane => HitTest_Plane plane ray HitRecord.fresh false)
  ++ scene.m_SphereGeometries.map
      (fun sphere => HitTest_Sphere sqrtf sphere ray HitRecord.fresh false)
  ++ scene.m_Triangles.map
      (fun triangle => HitTest_Triangle triangle ray HitRecord.fresh false)
  ++ scene.m_TriangleMeshGeometries.map
      (fun mesh => HitTest_TriangleMesh mesh ray HitRecord.fresh false)

end Scene

/-! ## Scene helpers (Scene.cpp 170-174) -/

namespace Scene

variable {F : Type}

/-- The method `Scene::AddMaterial(pMaterial)`: the scene as the call leaves it and the
returned `unsigned char`, the 8-bit value of `m_Materials.size() - 1` taken after the
`push_back`. -/
def AddMaterial (scene : Scene F) (pMaterial : Material F) : Scene F × Nat :=
  let m_Materials := scene.m_Materials ++ [pMaterial]
  ({ scene with m_Materials := m_Materials }, (m_Materials.length - 1) % 256)

end Scene

/-! ## Colours and lights (Math.h, Utils.h 214-252) -/

namespace Vector3

variable {F : Type} [LinearOrderedField F]

/-- Modelled from the spec: `operator*(Vector3, float)` of Math.h (not in src/), the
product of a vector and a scalar. -/
def timesScalar (v : Vector3 F) (k : F) : Vector3 F := ⟨v.x * k, v.y * k, v.z * k⟩

/-- Modelled from the spec: `Vector3::SqrMagnitude` of Math.h (not in src/), the squared
length. -/
def SqrMagnitude (v : Vector3 F) : F := Dot v v

end Vector3

namespace ColorRGB

variable {F : Type} [LinearOrderedField F]

instance : Zero (ColorRGB F) := ⟨⟨0, 0, 0⟩⟩

instance : Add (ColorRGB F) := ⟨fun a b => ⟨a.r + b.r, a.g + b.g, a.b + b.b⟩⟩

/-- Modelled from the spec: `operator*(ColorRGB, float)` of Math.h (not in src/). -/
def timesScalar (c : ColorRGB F) (k : F) : ColorRGB F := ⟨c.r * k, c.g * k, c.b * k⟩

/-- Modelled from the spec: `operator*(ColorRGB, ColorRGB)` of Math.h (not in src/), the
product channel by channel. -/
def times (c d : ColorRGB F) : ColorRGB F := ⟨c.r * d.r, c.g * d.g, c.b * d.b⟩

/-- Modelled from the spec: `ColorRGB::MaxToOne` of Math.h (not in src/): if a channel
exceeds 1, all channels are divided by the largest one. -/
def MaxToOne (c : ColorRGB F) : ColorRGB F :=
  let maxValue := max c.r (max c.g c.b)
  if maxValue > 1 then ⟨c.r / maxValue, c.g / maxValue, c.b / maxValue⟩ else c

end ColorRGB

/-- Modelled from the spec: the value of `FLT_MAX` of `<cfloat>`,
`(2 - 2^-23) * 2^127`. -/
def FLT_MAX {F : Type} [LinearOrderedField F] : F := 340282346638528859811704183484516925440

namespace LightUtils

variable {F : Type} [LinearOrderedField F]

/-- The function `LightUtils::GetDirectionToLight(light, origin)`. -/
def GetDirectionToLight (light : Light F) (origin : Vector3 F) : Vector3 F :=
  match light.type with
  | LightType.Point => light.origin - origin
  | LightType.Directional => Vector3.timesScalar (-light.direction) FLT_MAX

/-- The function `LightUtils::GetRadiance(light, target)`. -/
def GetRadiance (light : Light F) (target : Vector3 F) : ColorRGB F :=
  match light.type with
  | LightType.Point =>
    let radiantPower := light.intensity
    let sphereRadiusSquared := Vector3.SqrMagnitude (light.origin - target)
    let irradiance := radiantPower / sphereRadiusSquared
    ColorRGB.timesScalar light.color irradiance
  | LightType.Directional => ColorRGB.timesScalar light.color light.intensity

end LightUtils

/-! ## Renderer (Renderer.cpp) -/

/-- Modelled from the spec: `Renderer::LightingMode` of Renderer.h (not in src/). -/
inductive LightingMode where
  | ObservedArea
  | Radiance
  | BRDF
  | Combined
deriving DecidableEq

/-- Modelled from the spec: the members of `Renderer` (Renderer.h, not in src/) that
rendering reads: the frame size, the lighting mode and the shadow flag. The `int`
members `m_Width`, `m_Height` are natural numbers here. -/
structure Renderer where
  m_Width : Nat
  m_Height : Nat
  m_CurrentLightingMode : LightingMode
  m_ShadowsActive : Bool

/-- The members of `Camera` (Camera.h 22-27) that `RenderPixel` reads. -/
structure Camera (F : Type) where
  origin : Vector3 F
  forward : Vector3 F
  up : Vector3 F
  right : Vector3 F

namespace Renderer

open GeometryUtils LightUtils

variable {F : Type} [LinearOrderedField F]

/-- The switch of `Renderer::CycleLightingMode` (Renderer.cpp 178-192). -/
def nextLightingMode : LightingMode → LightingMode
  | LightingMode.ObservedArea => LightingMode.Radiance
  | LightingMode.Radiance => LightingMode.BRDF
  | LightingMode.BRDF => LightingMode.Combined
  | LightingMode.Combined => LightingMode.ObservedArea

/-- The method `Renderer::CycleLightingMode()`: the renderer as the call leaves it. -/
def CycleLightingMode (renderer : Renderer) : Renderer :=
  { renderer with m_CurrentLightingMode := nextLightingMode renderer.m_CurrentLightingMode }

/-- The local `px` of `RenderPixel` (line 101). -/
def pixelX (renderer : Renderer) (pixelIndex : Nat) : Nat := pixelIndex % renderer.m_Width

/-- The local `py` of `RenderPixel` (line 102). -/
def pixelY (renderer : Renderer) (pixelIndex : Nat) : Nat := pixelIndex / renderer.m_Width

/-- The buffer index `px + (py * m_Width)` that `RenderPixel` writes (line 165). -/
def pixelSlot (renderer : Renderer) (pixelIndex : Nat) : Nat :=
  pixelX renderer pixelIndex + pixelY renderer pixelIndex * renderer.m_Width

/-- The view ray of `RenderPixel` (lines 104-113). Modelled from the spec: a `Ray`
built from origin and direction alone has the default bounds `0.0001` and `FLT_MAX`
(DataTypes.h is not in src/). -/
def viewRay (sqrtf : F → F) (renderer : Renderer) (pixelIndex : Nat) (fov aspectRatio : F)
    (camera : Camera F) : Ray F :=
  let px := pixelX renderer pixelIndex
  let py := pixelY renderer pixelIndex
  let rx : F := (px : F) + 1 / 2
  let ry : F := (py : F) + 1 / 2
  let cx := (2 * rx / (renderer.m_Width : F) - 1) * aspectRatio * fov
  let cy := (1 - 2 * (ry / (renderer.m_Height : F))) * fov
  let rayDirection := Vector3.scale cx camera.right + Vector3.scale cy camera.up
    + Vector3.scale 1 camera.forward
  let normalRayDir := Vector3.Normalized sqrtf rayDirection
  { origin := camera.origin, direction := normalRayDir, min := 1 / 10000, max := FLT_MAX }

/-- The local `mag` of the light loop (line 131): the length of the vector from the hit
point to the light. -/
def distanceToLight (sqrtf : F → F) (light : Light F) (closestHit : HitRecord F) : F :=
  Vector3.Magnitude sqrtf (GetDirectionToLight light closestHit.origin)

/-- The local `directionToLight` of the light loop after `Normalize()` (lines
130-132). -/
def directionToLight (sqrtf : F → F) (light : Light F) (closestHit : HitRecord F) :
    Vector3 F :=
  Vector3.Normalized sqrtf (GetDirectionToLight light closestHit.origin)

/-- The local `observedArea` of the light loop (line 133). -/
def observedArea (sqrtf : F → F) (light : Light F) (closestHit : HitRecord F) : F :=
  Vector3.Dot closestHit.normal (directionToLight sqrtf light closestHit)

/-- The shadow ray `rayToLight` of the light loop (line 135). -/
def rayToLight (sqrtf : F → F) (light : Light F) (closestHit : HitRecord F) : Ray F :=
  { origin := closestHit.origin
    direction := directionToLight sqrtf light closestHit
    min := 1 / 10000
    max := distanceToLight sqrtf light closestHit }

/-- The colour that the switch of the light loop adds for one light (lines 139-156). -/
def lightTerm (sqrtf : F → F) (renderer : Renderer) (material : Material F)
    (viewRay : Ray F) (closestHit : HitRecord F) (light : Light F) : ColorRGB F :=
  let radiance := GetRadiance light closestHit.origin
  let BRDF := material.Shade closestHit (directionToLight sqrtf light closestHit)
    (-viewRay.direction)
  match renderer.m_CurrentLightingMode with
  | LightingMode.ObservedArea =>
    ColorRGB.timesScalar ⟨1, 1, 1⟩ (observedArea sqrtf light closestHit)
  | LightingMode.Radiance => radiance
  | LightingMode.BRDF => BRDF
  | LightingMode.Combined =>
    ColorRGB.times (ColorRGB.timesScalar radiance (observedArea sqrtf light closestHit)) BRDF

/-- One pass of the light loop of `RenderPixel` (lines 128-158): `finalColor` after the
pass for `light`. -/
def shadeLight (sqrtf : F → F) (renderer : Renderer) (scene : Scene F)
    (material : Material F) (viewRay : Ray F) (closestHit : HitRecord F)
    (finalColor : ColorRGB F) (light : Light F) : ColorRGB F :=
  if observedArea sqrtf light closestHit ≥ 0
      ∧ (!renderer.m_ShadowsActive
          || !Scene.DoesHit sqrtf scene (rayToLight sqrtf light closestHit)) = true then
    finalColor + lightTerm sqrtf renderer material viewRay closestHit light
  else finalColor

/-- The material `materials[closestHit.materialIndex]` (line 124). A read outside the
table, undefined in the source, gives a material that shades black here. -/
def materialAt (materials : List (Material F)) (index : Nat) : Material F :=
  materials.getD index ⟨fun _ _ _ => 0⟩

/-- The record `closestHit` of `RenderPixel` after the call of `GetClosestHit`
(lines 117-119). -/
def RenderPixel_closestHit (sqrtf : F → F) (renderer : Renderer) (scene : Scene F)
    (pixelIndex : Nat) (fov aspectRatio : F) (camera : Camera F) : HitRecord F :=
  Scene.GetClosestHit sqrtf scene (viewRay sqrtf renderer pixelIndex fov aspectRatio camera)
    HitRecord.fresh

/-- The value of `finalColor` when `RenderPixel` reaches line 162, before
`MaxToOne()`. -/
def RenderPixel_finalColor (sqrtf : F → F) (renderer : Renderer) (scene : Scene F)
    (pixelIndex : Nat) (fov aspectRatio : F) (camera : Camera F)
    (lights : List (Light F)) (materials : List (Material F)) : ColorRGB F :=
  let viewRay := viewRay sqrtf renderer pixelIndex fov aspectRatio camera
  let finalColor : ColorRGB F := 0
  let closestHit := RenderPixel_closestHit sqrtf renderer scene pixelIndex fov aspectRatio
    camera
  if closestHit.didHit then
    let material := materialAt materials closestHit.materialIndex
    lights.foldl (shadeLight sqrtf renderer scene material viewRay closestHit) finalColor
  else finalColor

/-- The conversion `static_cast<uint8_t>(x)` of a `float`: the fraction is dropped and
the integer is kept as an 8-bit value. It is defined in the source only for
`-1 < x < 256`; elsewhere the model reduces modulo 256. -/
def castToUInt8 [FloorRing F] (x : F) : Nat :=
  Int.toNat ((if 0 ≤ x then Int.floor x else Int.ceil x) % 256)

/-- The 8-bit value `static_cast<uint8_t>(v * 255)` that `RenderPixel` passes on for a
channel `v` (lines 166-168). -/
def channelByte [FloorRing F] (v : F) : Nat := castToUInt8 (v * 255)

/-- The method `Renderer::RenderPixel`: the buffer slot written and the three 8-bit
channel values handed to `SDL_MapRGB`. -/
def RenderPixel [FloorRing F] (sqrtf : F → F) (renderer : Renderer) (scene : Scene F)
    (pixelIndex : Nat) (fov aspectRatio : F) (camera : Camera F)
    (lights : List (Light F)) (materials : List (Material F)) : Nat × Nat × Nat × Nat :=
  let finalColor := ColorRGB.MaxToOne
    (RenderPixel_finalColor sqrtf renderer scene pixelIndex fov aspectRatio camera lights
      materials)
  (pixelSlot renderer pixelIndex, channelByte finalColor.r, channelByte finalColor.g,
    channelByte finalColor.b)

/-- The loop of the static partition of `Renderer::Render` (lines 53-73) with `cores`
passes to go: the half-open pixel range `[currPixelIndex, pixelIndexEnd)` of every task
it launches, in launch order. -/
def asyncTasks : Nat → Nat → Nat → Nat → List (Nat × Nat)
  | 0, _, _, _ => []
  | cores + 1, numPixelsPerTask, numUnassignedPixels, currPixelIndex =>
    let taskSize :=
      if numUnassignedPixels > 0 then numPixelsPerTask + 1 else numPixelsPerTask
    let numUnassignedPixels :=
      if numUnassignedPixels > 0 then numUnassignedPixels - 1 else numUnassignedPixels
    (currPixelIndex, currPixelIndex + taskSize)
      :: asyncTasks cores numPixelsPerTask numUnassignedPixels (currPixelIndex + taskSize)

/-- The static (`ASYNC`) partition of `Renderer::Render` (lines 47-73) for `numPixels`
pixels and `numCores` workers. The `uint32_t` values are natural numbers here; none
exceeds `numPixels`. -/
def Render_asyncTasks (numPixels numCores : Nat) : List (Nat × Nat) :=
  asyncTasks numCores (numPixels / numCores) (numPixels % numCores) 0

/-- The pixel indices a task renders, in order (lines 65-69):
`for (pixelIndex = currPixelIndex; pixelIndex < pixelIndexEnd; ++pixelIndex)`. -/
def taskPixels (task : Nat × Nat) : List Nat := List.range' task.1 (task.2 - task.1)

end Renderer

/-! ## Example data -/

/-- A mesh of two triangles with `NoCulling`: `(0,0,-1), (1,0,-1), (0,1,-1)` in the
plane `z = -1` and a small one at the corner `(1,1,1)` of the plane `z = 1`; its cached
box is the tight box `[0,1] x [0,1] x [-1,1]` of the six vertices. -/
def twoTriangleMesh : TriangleMesh ℚ :=
  { positions := [⟨0, 0, -1⟩, ⟨1, 0, -1⟩, ⟨0, 1, -1⟩, ⟨1, 1, 1⟩, ⟨1, 9 / 10, 1⟩, ⟨9 / 10, 1, 1⟩]
    normals := [⟨0, 0, 1⟩, ⟨0, 0, 1⟩]
    indices := [0, 1, 2, 3, 4, 5]
    materialIndex := 1
    cullMode := TriangleCullMode.NoCulling
    transform := ⟨⟨1, 0, 0, 0⟩, ⟨0, 1, 0, 0⟩, ⟨0, 0, 1, 0⟩, ⟨0, 0, 0, 1⟩⟩
    transformedPositions :=
      [⟨0, 0, -1⟩, ⟨1, 0, -1⟩, ⟨0, 1, -1⟩, ⟨1, 1, 1⟩, ⟨1, 9 / 10, 1⟩, ⟨9 / 10, 1, 1⟩]
    transformedNormals := [⟨0, 0, 1⟩, ⟨0, 0, 1⟩]
    transformedMinAABB := ⟨0, 0, -1⟩
    transformedMaxAABB := ⟨1, 1, 1⟩ }

/-- A ray that starts inside the box of `twoTriangleMesh`, at `(0.25, 0.25, 0)`, runs
along `(0.125, 0.125, 1)` and accepts `t` from `-2` to `10`: its line crosses the first
triangle behind the origin, at `t = -1`. -/
def rayWithNegativeMin : Ray ℚ :=
  { origin := ⟨1 / 4, 1 / 4, 0⟩, direction := ⟨1 / 8, 1 / 8, 1⟩, min := -2, max := 10 }

/-- A ray from `(0.25, 0.25, 0)` along `(-0.125, -0.125, -1)` with bounds `0.0001` and
`10`: it crosses the first triangle of `twoTriangleMesh` at `t = 1`. -/
def rayTowardsFirstTriangle : Ray ℚ :=
  { origin := ⟨1 / 4, 1 / 4, 0⟩, direction := ⟨-1 / 8, -1 / 8, -1⟩, min := 1 / 10000,
    max := 10 }

/-- A ray from `(0.125, 0.125, 5)` along `-Z`, with bounds `0.0001` and `10`: its
direction has two zero components, and it crosses the first triangle of
`twoTriangleMesh` at `t = 6`. -/
def rayAlongMinusZ : Ray ℚ :=
  { origin := ⟨1 / 8, 1 / 8, 5⟩, direction := ⟨0, 0, -1⟩, min := 1 / 10000, max := 10 }

/-- A hit at `(0,0,5)` on a surface whose normal `(0,0,-1)` faces the origin, found at
`t = 5`. -/
def frontHit : HitRecord ℚ :=
  { origin := ⟨0, 0, 5⟩, normal := ⟨0, 0, -1⟩, t := ((5 : ℚ) : WithTop ℚ), didHit := true,
    materialIndex := 0 }

/-- A white point light of intensity 16 at `(0,0,1)`, at distance 4 in front of
`frontHit`. -/
def lightInFront : Light ℚ :=
  { origin := ⟨0, 0, 1⟩, direction := ⟨0, 0, 0⟩, color := ⟨1, 1, 1⟩, intensity := 16,
    type := LightType.Point }

/-- A white point light of intensity 16 at `(0,0,9)`, at distance 4 behind the surface
of `frontHit`. -/
def lightBehind : Light ℚ :=
  { origin := ⟨0, 0, 9⟩, direction := ⟨0, 0, 0⟩, color := ⟨1, 1, 1⟩, intensity := 16,
    type := LightType.Point }

/-- A white point light of intensity 16 at `(4,0,5)`, in the plane of the surface of
`frontHit`. -/
def lightGrazing : Light ℚ :=
  { origin := ⟨4, 0, 5⟩, direction := ⟨0, 0, 0⟩, color := ⟨1, 1, 1⟩, intensity := 16,
    type := LightType.Point }

/-- A white point light at `(0,0,5 - 0.00005)`, at distance `0.00005` from the point of
`frontHit`. -/
def lightTooClose : Light ℚ :=
  { origin := ⟨0, 0, 5 - 1 / 20000⟩, direction := ⟨0, 0, 0⟩, color := ⟨1, 1, 1⟩,
    intensity := 16, type := LightType.Point }

/-- A scene that holds the wall `z = 5` facing the origin (material 0) and the plane
`z = 3` facing away from the origin, which lies between `frontHit` and
`lightInFront`. -/
def occludedScene : Scene ℚ :=
  { m_PlaneGeometries := [⟨⟨0, 0, 5⟩, ⟨0, 0, -1⟩, 0⟩, ⟨⟨0, 0, 3⟩, ⟨0, 0, 1⟩, 0⟩]
    m_SphereGeometries := []
    m_Triangles := []
    m_TriangleMeshGeometries := []
    m_Lights := [lightInFront]
    m_Materials := [⟨fun _ _ _ => ⟨1, 1, 1⟩⟩] }

/-- A scene that holds only the wall `z = 5` facing the origin (material 0). -/
def wallScene : Scene ℚ :=
  { m_PlaneGeometries := [⟨⟨0, 0, 5⟩, ⟨0, 0, -1⟩, 0⟩]
    m_SphereGeometries := []
    m_Triangles := []
    m_TriangleMeshGeometries := []
    m_Lights := [lightInFront]
    m_Materials := [⟨fun _ _ _ => ⟨1, 1, 1⟩⟩] }

/-- A camera at the origin that looks along `+Z`. -/
def cameraAtOrigin : Camera ℚ :=
  { origin := ⟨0, 0, 0⟩, forward := ⟨0, 0, 1⟩, up := ⟨0, 1, 0⟩, right := ⟨1, 0, 0⟩ }

/-- A scene that holds only `twoTriangleMesh` (cull mode `NoCulling`, material 1) and
two materials. -/
def meshScene : Scene ℚ :=
  { m_PlaneGeometries := []
    m_SphereGeometries := []
    m_Triangles := []
    m_TriangleMeshGeometries := [twoTriangleMesh]
    m_Lights := []
    m_Materials := [⟨fun _ _ _ => ⟨1, 0, 0⟩⟩, ⟨fun _ _ _ => ⟨1, 1, 1⟩⟩] }

/-- A scene without geometry whose material table already holds 256 entries, all of
them shading black. -/
def crowdedScene : Scene ℚ :=
  { m_PlaneGeometries := []
    m_SphereGeometries := []
    m_Triangles := []
    m_TriangleMeshGeometries := []
    m_Lights := []
    m_Materials := List.replicate 256 ⟨fun _ _ _ => ⟨0, 0, 0⟩⟩ }

/-- A material that shades white. -/
def whiteMaterial : Material ℚ := ⟨fun _ _ _ => ⟨1, 1, 1⟩⟩

/-! ## Components of vector operations -/

namespace Vector3

variable {F : Type} [LinearOrderedField F]

@[simp] theorem zero_x : (0 : Vector3 F).x = 0 := rfl
@[simp] theorem zero_y : (0 : Vector3 F).y = 0 := rfl
@[simp] theorem zero_z : (0 : Vector3 F).z = 0 := rfl
@[simp] theorem add_x (a b : Vector3 F) : (a + b).x = a.x + b.x := rfl
@[simp] theorem add_y (a b : Vector3 F) : (a + b).y = a.y + b.y := rfl
@[simp] theorem add_z (a b : Vector3 F) : (a + b).z = a.z + b.z := rfl
@[simp] theorem sub_x (a b : Vector3 F) : (a - b).x = a.x - b.x := rfl
@[simp] theorem sub_y (a b : Vector3 F) : (a - b).y = a.y - b.y := rfl
@[simp] theorem sub_z (a b : Vector3 F) : (a - b).z = a.z - b.z := rfl
@[simp] theorem neg_x (a : Vector3 F) : (-a).x = -a.x := rfl
@[simp] theorem neg_y (a : Vector3 F) : (-a).y = -a.y := rfl
@[simp] theorem neg_z (a : Vector3 F) : (-a).z = -a.z := rfl
@[simp] theorem scale_x (k : F) (a : Vector3 F) : (scale k a).x = k * a.x := rfl
@[simp] theorem scale_y (k : F) (a : Vector3 F) : (scale k a).y = k * a.y := rfl
@[simp] theorem scale_z (k : F) (a : Vector3 F) : (scale k a).z = k * a.z := rfl

@[simp] theorem mk_add_mk (a b c d e f : F) :
    (⟨a, b, c⟩ + ⟨d, e, f⟩ : Vector3 F) = ⟨a + d, b + e, c + f⟩ := rfl

@[simp] theorem mk_sub_mk (a b c d e f : F) :
    (⟨a, b, c⟩ - ⟨d, e, f⟩ : Vector3 F) = ⟨a - d, b - e, c - f⟩ := rfl

@[simp] theorem scale_mk (k a b c : F) :
    scale k (⟨a, b, c⟩ : Vector3 F) = ⟨k * a, k * b, k * c⟩ := rfl

end Vector3

/-! ## Slab test with non-zero direction components -/

namespace ExtFloat

variable {F : Type} [LinearOrderedField F]

theorem div_of_ne_zero (a b : F) (hb : b ≠ 0) : div a b = fin (a / b) := by
  simp only [div, hb, if_false]

theorem stdMin_fin (a b : F) : stdMin (fin a) (fin b) = fin (min a b) := by
  simp only [stdMin, lt, decide_eq_true_eq]
  by_cases h : b < a
  · rw [if_pos h, min_eq_right (le_of_lt h)]
  · rw [if_neg h, min_eq_left (not_lt.mp h)]

theorem stdMax_fin (a b : F) : stdMax (fin a) (fin b) = fin (max a b) := by
  simp only [stdMax, lt, decide_eq_true_eq]
  by_cases h : a < b
  · rw [if_pos h, max_eq_right (le_of_lt h)]
  · rw [if_neg h, max_eq_left (not_lt.mp h)]

theorem lt_fin (a b : F) : lt (fin a) (fin b) = decide (a < b) := rfl

theorem le_fin (a b : F) : le (fin a) (fin b) = decide (a ≤ b) := rfl

end ExtFloat

namespace GeometryUtils

variable {F : Type} [LinearOrderedField F]

/-- For a ray whose three direction components are non-zero no quotient of the slab
test is an infinity or NaN, and the test is the computation in the field. -/
theorem SlabTest_TriangleMesh_eq_finite (mesh : TriangleMesh F) (ray : Ray F)
    (hdx : ray.direction.x ≠ 0) (hdy : ray.direction.y ≠ 0) (hdz : ray.direction.z ≠ 0) :
    SlabTest_TriangleMesh mesh ray = slabTestFinite mesh ray := by
  simp only [SlabTest_TriangleMesh, slabTestFinite, ExtFloat.div_of_ne_zero _ _ hdx,
    ExtFloat.div_of_ne_zero _ _ hdy, ExtFloat.div_of_ne_zero _ _ hdz, ExtFloat.stdMin_fin,
    ExtFloat.stdMax_fin, ExtFloat.lt_fin, ExtFloat.le_fin]
  simp only [gt_iff_lt, ge_iff_le, Bool.decide_and]

end GeometryUtils

namespace GeometryUtils

variable {F : Type} [LinearOrderedField F]

/-! ## Plane -/

/-- C7: for a ray with `dot(direction, normal) >= 0` (parallel to the plane or pointing
away from its front face) both forms of `HitTest_Plane` return false, whatever the
origin and the bounds of the ray, and the closest-hit form leaves the record it was
given unchanged. -/
theorem HitTest_Plane_parallel_or_leaving (plane : Plane F) (ray : Ray F)
    (hitRecord : HitRecord F) (ignoreHitRecord : Bool)
    (h : 0 ≤ Vector3.Dot ray.direction plane.normal) :
    HitTest_Plane plane ray hitRecord ignoreHitRecord = (false, hitRecord)
      ∧ HitTest_Plane_AnyHit plane ray = false := by
  have hn : ¬ Vector3.Dot ray.direction plane.normal < 0 := not_lt.mpr h
  simp [HitTest_Plane, HitTest_Plane_AnyHit, hn]

/-- Witness of C7: a ray along `+X` over the plane `y = 0` (normal `+Y`), which it
would cross nowhere, and a record that already holds a hit. -/
theorem HitTest_Plane_parallel_or_leaving_witness :
    (0 : ℚ) ≤ Vector3.Dot (⟨1, 0, 0⟩ : Vector3 ℚ) ⟨0, 1, 0⟩
    ∧ HitTest_Plane (⟨⟨0, 0, 0⟩, ⟨0, 1, 0⟩, 1⟩ : Plane ℚ)
        ⟨⟨0, 3, 0⟩, ⟨1, 0, 0⟩, 1 / 10000, 1000⟩ ⟨⟨1, 2, 3⟩, ⟨0, 0, 1⟩, 7, true, 4⟩ false
        = (false, ⟨⟨1, 2, 3⟩, ⟨0, 0, 1⟩, 7, true, 4⟩)
    ∧ HitTest_Plane_AnyHit (⟨⟨0, 0, 0⟩, ⟨0, 1, 0⟩, 1⟩ : Plane ℚ)
        ⟨⟨0, 3, 0⟩, ⟨1, 0, 0⟩, 1 / 10000, 1000⟩ = false :=
  ⟨by norm_num [Vector3.Dot],
    HitTest_Plane_parallel_or_leaving _ _ _ _ (by norm_num [Vector3.Dot])⟩

/-! ## Triangle -/

/-- C8: on the triangle `(0,0,0), (1,0,0), (0,1,0)` with `NoCulling`, for every `z`
with `ray.min < z < ray.max`, the ray from `(0.25, 0.25, z)` along `-Z` is a hit of
both forms of `HitTest_Triangle`, with recorded `t = z` and barycentric coordinates
`u = 0.25`, `v = 0.25` (so `u >= 0`, `v >= 0`, `u + v <= 1`); the ray from
`(0.9, 0.9, z)` along `-Z` is a miss of both forms, with `u + v > 1`, and leaves the
record unchanged. -/
theorem HitTest_Triangle_unit_right_triangle (z rmin rmax : F) (hmin : rmin < z)
    (hmax : z < rmax) (normal : Vector3 F) (materialIndex : Nat)
    (hitRecord : HitRecord F) :
    (HitTest_Triangle
        ⟨⟨0, 0, 0⟩, ⟨1, 0, 0⟩, ⟨0, 1, 0⟩, normal, TriangleCullMode.NoCulling, materialIndex⟩
        ⟨⟨1 / 4, 1 / 4, z⟩, ⟨0, 0, -1⟩, rmin, rmax⟩ hitRecord false).1 = true
    ∧ (HitTest_Triangle
        ⟨⟨0, 0, 0⟩, ⟨1, 0, 0⟩, ⟨0, 1, 0⟩, normal, TriangleCullMode.NoCulling, materialIndex⟩
        ⟨⟨1 / 4, 1 / 4, z⟩, ⟨0, 0, -1⟩, rmin, rmax⟩ hitRecord false).2.t = (z : WithTop F)
    ∧ HitTest_Triangle_AnyHit
        ⟨⟨0, 0, 0⟩, ⟨1, 0, 0⟩, ⟨0, 1, 0⟩, normal, TriangleCullMode.NoCulling, materialIndex⟩
        ⟨⟨1 / 4, 1 / 4, z⟩, ⟨0, 0, -1⟩, rmin, rmax⟩ = true
    ∧ triU
        ⟨⟨0, 0, 0⟩, ⟨1, 0, 0⟩, ⟨0, 1, 0⟩, normal, TriangleCullMode.NoCulling, materialIndex⟩
        ⟨⟨1 / 4, 1 / 4, z⟩, ⟨0, 0, -1⟩, rmin, rmax⟩ = 1 / 4
    ∧ triV
        ⟨⟨0, 0, 0⟩, ⟨1, 0, 0⟩, ⟨0, 1, 0⟩, normal, TriangleCullMode.NoCulling, materialIndex⟩
        ⟨⟨1 / 4, 1 / 4, z⟩, ⟨0, 0, -1⟩, rmin, rmax⟩ = 1 / 4
    ∧ HitTest_Triangle
        ⟨⟨0, 0, 0⟩, ⟨1, 0, 0⟩, ⟨0, 1, 0⟩, normal, TriangleCullMode.NoCulling, materialIndex⟩
        ⟨⟨9 / 10, 9 / 10, z⟩, ⟨0, 0, -1⟩, rmin, rmax⟩ hitRecord false = (false, hitRecord)
    ∧ HitTest_Triangle_AnyHit
        ⟨⟨0, 0, 0⟩, ⟨1, 0, 0⟩, ⟨0, 1, 0⟩, normal, TriangleCullMode.NoCulling, materialIndex⟩
        ⟨⟨9 / 10, 9 / 10, z⟩, ⟨0, 0, -1⟩, rmin, rmax⟩ = false
    ∧ triU
        ⟨⟨0, 0, 0⟩, ⟨1, 0, 0⟩, ⟨0, 1, 0⟩, normal, TriangleCullMode.NoCulling, materialIndex⟩
        ⟨⟨9 / 10, 9 / 10, z⟩, ⟨0, 0, -1⟩, rmin, rmax⟩
      + triV
        ⟨⟨0, 0, 0⟩, ⟨1, 0, 0⟩, ⟨0, 1, 0⟩, normal, TriangleCullMode.NoCulling, materialIndex⟩
        ⟨⟨9 / 10, 9 / 10, z⟩, ⟨0, 0, -1⟩, rmin, rmax⟩ > 1 := by
  have ha : ¬ (1 : F) < -FLT_EPSILON := by norm_num [FLT_EPSILON]
  have ha2 : (FLT_EPSILON : F) < 1 := by norm_num [FLT_EPSILON]
  refine ⟨?_, ?_, ?_, ?_, ?_, ?_, ?_, ?_⟩ <;>
    simp [HitTest_Triangle, HitTest_Triangle_AnyHit, HitTest_Triangle_inside, triA, triEdge1,
      triEdge2, triH, triF, triS, triU, triQ, triV, triT, Vector3.Cross, Vector3.Dot, ha,
      ha2, hmin, hmax] <;> norm_num

/-- Witness of C8: the two rays start at height `z = 5`, with bounds `0.0001` and
`1000`. -/
theorem HitTest_Triangle_unit_right_triangle_witness :
    (HitTest_Triangle
        (⟨⟨0, 0, 0⟩, ⟨1, 0, 0⟩, ⟨0, 1, 0⟩, ⟨0, 0, 1⟩, TriangleCullMode.NoCulling, 2⟩ :
          Triangle ℚ)
        ⟨⟨1 / 4, 1 / 4, 5⟩, ⟨0, 0, -1⟩, 1 / 10000, 1000⟩ HitRecord.fresh false).2.t
      = ((5 : ℚ) : WithTop ℚ)
    ∧ HitTest_Triangle
        (⟨⟨0, 0, 0⟩, ⟨1, 0, 0⟩, ⟨0, 1, 0⟩, ⟨0, 0, 1⟩, TriangleCullMode.NoCulling, 2⟩ :
          Triangle ℚ)
        ⟨⟨9 / 10, 9 / 10, 5⟩, ⟨0, 0, -1⟩, 1 / 10000, 1000⟩ HitRecord.fresh false
      = (false, HitRecord.fresh) :=
  ⟨(HitTest_Triangle_unit_right_triangle (5 : ℚ) (1 / 10000) 1000 (by norm_num)
      (by norm_num) ⟨0, 0, 1⟩ 2 HitRecord.fresh).2.1,
    (HitTest_Triangle_unit_right_triangle (5 : ℚ) (1 / 10000) 1000 (by norm_num)
      (by norm_num) ⟨0, 0, 1⟩ 2 HitRecord.fresh).2.2.2.2.2.1⟩

/-- C9: for triangles that differ only in `cullMode`, the closest-hit result under
`NoCulling` is the logical OR of the results under `BackFaceCulling` and
`FrontFaceCulling`, and a culled variant that hits leaves the same record (`t`,
`origin`, `normal`, `materialIndex`, `didHit`) as the `NoCulling` variant. -/
theorem HitTest_Triangle_NoCulling_eq_or (v0 v1 v2 normal : Vector3 F)
    (materialIndex : Nat) (ray : Ray F) (hitRecord : HitRecord F) :
    (HitTest_Triangle ⟨v0, v1, v2, normal, TriangleCullMode.NoCulling, materialIndex⟩
        ray hitRecord false).1
      = ((HitTest_Triangle
            ⟨v0, v1, v2, normal, TriangleCullMode.BackFaceCulling, materialIndex⟩
            ray hitRecord false).1
          || (HitTest_Triangle
            ⟨v0, v1, v2, normal, TriangleCullMode.FrontFaceCulling, materialIndex⟩
            ray hitRecord false).1)
    ∧ ((HitTest_Triangle
            ⟨v0, v1, v2, normal, TriangleCullMode.BackFaceCulling, materialIndex⟩
            ray hitRecord false).1 = true →
        (HitTest_Triangle
            ⟨v0, v1, v2, normal, TriangleCullMode.BackFaceCulling, materialIndex⟩
            ray hitRecord false).2
          = (HitTest_Triangle
            ⟨v0, v1, v2, normal, TriangleCullMode.NoCulling, materialIndex⟩
            ray hitRecord false).2)
    ∧ ((HitTest_Triangle
            ⟨v0, v1, v2, normal, TriangleCullMode.FrontFaceCulling, materialIndex⟩
            ray hitRecord false).1 = true →
        (HitTest_Triangle
            ⟨v0, v1, v2, normal, TriangleCullMode.FrontFaceCulling, materialIndex⟩
            ray hitRecord false).2
          = (HitTest_Triangle
            ⟨v0, v1, v2, normal, TriangleCullMode.NoCulling, materialIndex⟩
            ray hitRecord false).2) := by
  have hB : HitTest_Triangle_inside
      ⟨v0, v1, v2, normal, TriangleCullMode.BackFaceCulling, materialIndex⟩ ray hitRecord false
      = HitTest_Triangle_inside
      ⟨v0, v1, v2, normal, TriangleCullMode.NoCulling, materialIndex⟩ ray hitRecord false :=
    rfl
  have hF : HitTest_Triangle_inside
      ⟨v0, v1, v2, normal, TriangleCullMode.FrontFaceCulling, materialIndex⟩ ray hitRecord false
      = HitTest_Triangle_inside
      ⟨v0, v1, v2, normal, TriangleCullMode.NoCulling, materialIndex⟩ ray hitRecord false :=
    rfl
  have hAB : triA ⟨v0, v1, v2, normal, TriangleCullMode.BackFaceCulling, materialIndex⟩ ray
      = triA ⟨v0, v1, v2, normal, TriangleCullMode.NoCulling, materialIndex⟩ ray := rfl
  have hAF : triA ⟨v0, v1, v2, normal, TriangleCullMode.FrontFaceCulling, materialIndex⟩ ray
      = triA ⟨v0, v1, v2, normal, TriangleCullMode.NoCulling, materialIndex⟩ ray := rfl
  simp only [HitTest_Triangle, hB, hF, hAB, hAF]
  by_cases h1 : triA ⟨v0, v1, v2, normal, TriangleCullMode.NoCulling, materialIndex⟩ ray
      < -FLT_EPSILON
  · simp [h1]
  · by_cases h2 : triA ⟨v0, v1, v2, normal, TriangleCullMode.NoCulling, materialIndex⟩ ray
        > FLT_EPSILON
    · simp [h1, h2]
    · simp [h1, h2]

/-- Witness of C9: the ray from `(0.25, 0.25, 5)` along `-Z` meets the triangle
`(0,0,0), (1,0,0), (0,1,0)` with `a = 1 > 0`: the `BackFaceCulling` variant hits and
leaves the record of the `NoCulling` variant. -/
theorem HitTest_Triangle_NoCulling_eq_or_witness :
    (HitTest_Triangle
        (⟨⟨0, 0, 0⟩, ⟨1, 0, 0⟩, ⟨0, 1, 0⟩, ⟨0, 0, 1⟩, TriangleCullMode.BackFaceCulling, 2⟩ :
          Triangle ℚ)
        ⟨⟨1 / 4, 1 / 4, 5⟩, ⟨0, 0, -1⟩, 1 / 10000, 1000⟩ HitRecord.fresh false).1 = true
    ∧ (HitTest_Triangle
        (⟨⟨0, 0, 0⟩, ⟨1, 0, 0⟩, ⟨0, 1, 0⟩, ⟨0, 0, 1⟩, TriangleCullMode.BackFaceCulling, 2⟩ :
          Triangle ℚ)
        ⟨⟨1 / 4, 1 / 4, 5⟩, ⟨0, 0, -1⟩, 1 / 10000, 1000⟩ HitRecord.fresh false).2
      = (HitTest_Triangle
        (⟨⟨0, 0, 0⟩, ⟨1, 0, 0⟩, ⟨0, 1, 0⟩, ⟨0, 0, 1⟩, TriangleCullMode.NoCulling, 2⟩ :
          Triangle ℚ)
        ⟨⟨1 / 4, 1 / 4, 5⟩, ⟨0, 0, -1⟩, 1 / 10000, 1000⟩ HitRecord.fresh false).2 := by
  have hb : (HitTest_Triangle
      (⟨⟨0, 0, 0⟩, ⟨1, 0, 0⟩, ⟨0, 1, 0⟩, ⟨0, 0, 1⟩, TriangleCullMode.BackFaceCulling, 2⟩ :
        Triangle ℚ)
      ⟨⟨1 / 4, 1 / 4, 5⟩, ⟨0, 0, -1⟩, 1 / 10000, 1000⟩ HitRecord.fresh false).1 = true := by
    simp [HitTest_Triangle, HitTest_Triangle_inside, triA, triEdge1, triEdge2, triH, triF,
      triS, triU, triQ, triV, triT, Vector3.Cross, Vector3.Dot, FLT_EPSILON]
    norm_num
  exact ⟨hb, (HitTest_Triangle_NoCulling_eq_or ⟨0, 0, 0⟩ ⟨1, 0, 0⟩ ⟨0, 1, 0⟩ ⟨0, 0, 1⟩ 2
    ⟨⟨1 / 4, 1 / 4, 5⟩, ⟨0, 0, -1⟩, 1 / 10000, 1000⟩ HitRecord.fresh).2.1 hb⟩

/-! ## Sphere -/

/-- With `0 < a`, `0 < s` and `s * s = b * b - 4 * a * c`, the numbers
`(-b - s) / 2 / a < (-b + s) / 2 / a` are exactly the roots of
`a * t * t + b * t + c = 0`. -/
theorem quadratic_roots (a b c s : F) (ha : 0 < a) (hs : 0 < s)
    (hss : s * s = b * b - 4 * a * c) :
    (-b - s) / 2 / a < (-b + s) / 2 / a
      ∧ ∀ t : F, a * t * t + b * t + c = 0
          ↔ t = (-b - s) / 2 / a ∨ t = (-b + s) / 2 / a := by
  have ha0 : a ≠ 0 := ne_of_gt ha
  constructor
  · apply div_lt_div_of_pos_right _ ha
    linarith
  · intro t
    have e1 : (t = (-b - s) / 2 / a) ↔ 2 * a * t + b + s = 0 := by
      constructor
      · intro h; rw [h]; field_simp; ring
      · intro h; field_simp; linarith
    have e2 : (t = (-b + s) / 2 / a) ↔ 2 * a * t + b - s = 0 := by
      constructor
      · intro h; rw [h]; field_simp
      · intro h; field_simp; linarith
    rw [e1, e2]
    have key : 4 * a * (a * t * t + b * t + c)
        = (2 * a * t + b + s) * (2 * a * t + b - s) := by
      have : 4 * a * c = b * b - s * s := by linarith
      ring_nf
      ring_nf at this
      linarith
    constructor
    · intro h
      have : (2 * a * t + b + s) * (2 * a * t + b - s) = 0 := by rw [← key, h, mul_zero]
      exact mul_eq_zero.mp this
    · intro h
      have : 4 * a * (a * t * t + b * t + c) = 0 := by
        rw [key]; exact mul_eq_zero.mpr h
      rcases mul_eq_zero.mp this with h4 | h4
      · exfalso; have : 4 * a = 0 := h4; linarith
      · exact h4

/-- C4: for a ray with `dot(direction, direction) > 0`, and `sqrtf` returning the
non-negative square root of the discriminant `d = b*b - 4*a*c` when it is positive:
`HitTest_Sphere` (both forms) returns true exactly when `d > 0` and one of the two roots
`r1 < r2` of `a*t*t + b*t + c = 0` lies in `[ray.min, ray.max]`; the recorded `t` is
then `r1` when `r1` lies in `[ray.min, ray.max]` and `r2` otherwise; and a tangent ray
(`d = 0`) does not hit and leaves the record unchanged. -/
theorem HitTest_Sphere_iff_root_in_range (sqrtf : F → F) (sphere : Sphere F) (ray : Ray F)
    (hitRecord : HitRecord F) (ignoreHitRecord : Bool)
    (ha : 0 < Vector3.Dot ray.direction ray.direction)
    (hsqrt : 0 < sphereD sphere ray →
      0 ≤ sqrtf (sphereD sphere ray)
        ∧ sqrtf (sphereD sphere ray) * sqrtf (sphereD sphere ray) = sphereD sphere ray) :
    (0 < sphereD sphere ray →
        (-sphereB sphere ray - sqrtf (sphereD sphere ray)) / 2 / sphereA ray
          < (-sphereB sphere ray + sqrtf (sphereD sphere ray)) / 2 / sphereA ray
        ∧ ∀ t : F,
            sphereA ray * t * t + sphereB sphere ray * t + sphereC sphere ray = 0
            ↔ t = (-sphereB sphere ray - sqrtf (sphereD sphere ray)) / 2 / sphereA ray
              ∨ t = (-sphereB sphere ray + sqrtf (sphereD sphere ray)) / 2 / sphereA ray)
    ∧ ((HitTest_Sphere sqrtf sphere ray hitRecord ignoreHitRecord).1 = true
        ↔ 0 < sphereD sphere ray
          ∧ ((ray.min ≤ (-sphereB sphere ray - sqrtf (sphereD sphere ray)) / 2 / sphereA ray
              ∧ (-sphereB sphere ray - sqrtf (sphereD sphere ray)) / 2 / sphereA ray
                  ≤ ray.max)
            ∨ (ray.min ≤ (-sphereB sphere ray + sqrtf (sphereD sphere ray)) / 2 / sphereA ray
              ∧ (-sphereB sphere ray + sqrtf (sphereD sphere ray)) / 2 / sphereA ray
                  ≤ ray.max)))
    ∧ (HitTest_Sphere_AnyHit sqrtf sphere ray
        = (HitTest_Sphere sqrtf sphere ray hitRecord ignoreHitRecord).1)
    ∧ ((HitTest_Sphere sqrtf sphere ray hitRecord ignoreHitRecord).1 = true →
        (HitTest_Sphere sqrtf sphere ray hitRecord ignoreHitRecord).2.t
          = if ray.min ≤ (-sphereB sphere ray - sqrtf (sphereD sphere ray)) / 2 / sphereA ray
              ∧ (-sphereB sphere ray - sqrtf (sphereD sphere ray)) / 2 / sphereA ray
                  ≤ ray.max
            then (((-sphereB sphere ray - sqrtf (sphereD sphere ray)) / 2 / sphereA ray : F)
              : WithTop F)
            else (((-sphereB sphere ray + sqrtf (sphereD sphere ray)) / 2 / sphereA ray : F)
              : WithTop F))
    ∧ (sphereD sphere ray = 0 →
        HitTest_Sphere sqrtf sphere ray hitRecord ignoreHitRecord = (false, hitRecord)) := by
  have haA : 0 < sphereA ray := ha
  have hroots : 0 < sphereD sphere ray →
      (-sphereB sphere ray - sqrtf (sphereD sphere ray)) / 2 / sphereA ray
          < (-sphereB sphere ray + sqrtf (sphereD sphere ray)) / 2 / sphereA ray
        ∧ ∀ t : F,
            sphereA ray * t * t + sphereB sphere ray * t + sphereC sphere ray = 0
            ↔ t = (-sphereB sphere ray - sqrtf (sphereD sphere ray)) / 2 / sphereA ray
              ∨ t = (-sphereB sphere ray + sqrtf (sphereD sphere ray)) / 2 / sphereA ray := by
    intro hd
    obtain ⟨hs0, hss⟩ := hsqrt hd
    have hspos : 0 < sqrtf (sphereD sphere ray) := by
      rcases eq_or_lt_of_le hs0 with h | h
      · rw [← h] at hss; simp at hss; rw [← hss] at hd; exact absurd hd (lt_irrefl _)
      · exact h
    exact quadratic_roots _ _ _ _ haA hspos (by rw [hss]; rfl)
  refine ⟨hroots, ?_, ?_, ?_, ?_⟩
  · by_cases hd : 0 < sphereD sphere ray
    · have hlt := (hroots hd).1
      by_cases h1 : (-sphereB sphere ray - sqrtf (sphereD sphere ray)) / 2 / sphereA ray
          < ray.min
      · have h1n : ¬ ray.min
            ≤ (-sphereB sphere ray - sqrtf (sphereD sphere ray)) / 2 / sphereA ray :=
          not_le.mpr h1
        simp [HitTest_Sphere, hd, h1, h1n]
        split_ifs with h2 <;> simp_all
      · have h1n : ray.min
            ≤ (-sphereB sphere ray - sqrtf (sphereD sphere ray)) / 2 / sphereA ray :=
          not_lt.mp h1
        simp [HitTest_Sphere, hd, h1, h1n]
        split_ifs with h2
        · simp [h2]
        · simp only [Bool.false_eq_true, false_iff, not_or, not_and, not_le]
          have h2 : ray.max
              < (-sphereB sphere ray - sqrtf (sphereD sphere ray)) / 2 / sphereA ray :=
            not_le.mp h2
          exact ⟨h2, fun _ => lt_trans h2 hlt⟩
    · simp [HitTest_Sphere, hd]
  · simp [HitTest_Sphere_AnyHit, HitTest_Sphere]
    split_ifs <;> rfl
  · by_cases hd : 0 < sphereD sphere ray
    · by_cases h1 : (-sphereB sphere ray - sqrtf (sphereD sphere ray)) / 2 / sphereA ray
          < ray.min
      · have h1n : ¬ ray.min
            ≤ (-sphereB sphere ray - sqrtf (sphereD sphere ray)) / 2 / sphereA ray :=
          not_le.mpr h1
        simp [HitTest_Sphere, hd, h1, h1n]
        split_ifs with h2 <;> simp_all
      · have h1n : ray.min
            ≤ (-sphereB sphere ray - sqrtf (sphereD sphere ray)) / 2 / sphereA ray :=
          not_lt.mp h1
        simp [HitTest_Sphere, hd, h1, h1n]
        split_ifs with h2 <;> simp_all
    · simp [HitTest_Sphere, hd]
  · intro hd
    simp [HitTest_Sphere, hd]

/-- Witness of C4: the sphere of radius 1 around `(0,0,5)` and the ray from the origin
along `+Z` with bounds `0.0001` and `1000`: `d = 4`, the roots are `4` and `6`, and the
test hits with the smaller root `t = 4`. -/
theorem HitTest_Sphere_iff_root_in_range_witness :
    (HitTest_Sphere Rat.sqrt (⟨⟨0, 0, 5⟩, 1, 2⟩ : Sphere ℚ)
        ⟨⟨0, 0, 0⟩, ⟨0, 0, 1⟩, 1 / 10000, 1000⟩ HitRecord.fresh false).1 = true
    ∧ (HitTest_Sphere Rat.sqrt (⟨⟨0, 0, 5⟩, 1, 2⟩ : Sphere ℚ)
        ⟨⟨0, 0, 0⟩, ⟨0, 0, 1⟩, 1 / 10000, 1000⟩ HitRecord.fresh false).2.t
      = ((4 : ℚ) : WithTop ℚ) := by
  have hD : sphereD (⟨⟨0, 0, 5⟩, 1, 2⟩ : Sphere ℚ)
      ⟨⟨0, 0, 0⟩, ⟨0, 0, 1⟩, 1 / 10000, 1000⟩ = 2 * 2 := by
    norm_num [sphereD, sphereA, sphereB, sphereC, Vector3.Dot]
  have hS : Rat.sqrt (sphereD (⟨⟨0, 0, 5⟩, 1, 2⟩ : Sphere ℚ)
      ⟨⟨0, 0, 0⟩, ⟨0, 0, 1⟩, 1 / 10000, 1000⟩) = 2 := by
    rw [hD, Rat.sqrt_eq]; norm_num
  have hA : sphereA (⟨⟨0, 0, 0⟩, ⟨0, 0, 1⟩, 1 / 10000, 1000⟩ : Ray ℚ) = 1 := by
    norm_num [sphereA, Vector3.Dot]
  have hB : sphereB (⟨⟨0, 0, 5⟩, 1, 2⟩ : Sphere ℚ)
      ⟨⟨0, 0, 0⟩, ⟨0, 0, 1⟩, 1 / 10000, 1000⟩ = -10 := by
    norm_num [sphereB, Vector3.Dot]
  have T := HitTest_Sphere_iff_root_in_range Rat.sqrt (⟨⟨0, 0, 5⟩, 1, 2⟩ : Sphere ℚ)
    ⟨⟨0, 0, 0⟩, ⟨0, 0, 1⟩, 1 / 10000, 1000⟩ HitRecord.fresh false
    (by norm_num [Vector3.Dot]) (fun _ => by rw [hS, hD]; norm_num)
  have hhit : (HitTest_Sphere Rat.sqrt (⟨⟨0, 0, 5⟩, 1, 2⟩ : Sphere ℚ)
      ⟨⟨0, 0, 0⟩, ⟨0, 0, 1⟩, 1 / 10000, 1000⟩ HitRecord.fresh false).1 = true := by
    rw [T.2.1, hS, hA, hB]; norm_num [hD]
  refine ⟨hhit, ?_⟩
  rw [T.2.2.2.1 hhit, hS, hA, hB]
  norm_num

/-- C5: a sphere of radius `r > 0` and a ray whose origin lies at distance `D > r` from
the center and whose unit direction points exactly at the center (the direction is
`(center - origin) / D`): when `D - r` lies in `[ray.min, ray.max]`, and `sqrtf` returns
the non-negative square root of the discriminant, both forms of `HitTest_Sphere` hit and
the recorded `t` is `D - r`. -/
theorem HitTest_Sphere_aimed_at_center (sqrtf : F → F) (sphere : Sphere F) (ray : Ray F)
    (hitRecord : HitRecord F) (ignoreHitRecord : Bool) (D : F)
    (hr : 0 < sphere.radius) (hD : sphere.radius < D)
    (hdist : D * D
      = Vector3.Dot (sphere.origin - ray.origin) (sphere.origin - ray.origin))
    (hdir : ray.direction = Vector3.scale (1 / D) (sphere.origin - ray.origin))
    (hsqrt : 0 ≤ sqrtf (sphereD sphere ray)
      ∧ sqrtf (sphereD sphere ray) * sqrtf (sphereD sphere ray) = sphereD sphere ray)
    (hmin : ray.min ≤ D - sphere.radius) (hmax : D - sphere.radius ≤ ray.max) :
    (HitTest_Sphere sqrtf sphere ray hitRecord ignoreHitRecord).1 = true
    ∧ (HitTest_Sphere sqrtf sphere ray hitRecord ignoreHitRecord).2.t
        = ((D - sphere.radius : F) : WithTop F)
    ∧ HitTest_Sphere_AnyHit sqrtf sphere ray = true := by
  have hDpos : 0 < D := lt_trans hr hD
  have hD0 : D ≠ 0 := ne_of_gt hDpos
  have hx : ray.direction.x = 1 / D * (sphere.origin.x - ray.origin.x) := by
    rw [hdir]; rfl
  have hy : ray.direction.y = 1 / D * (sphere.origin.y - ray.origin.y) := by
    rw [hdir]; rfl
  have hz : ray.direction.z = 1 / D * (sphere.origin.z - ray.origin.z) := by
    rw [hdir]; rfl
  have hdist2 : D * D = (sphere.origin.x - ray.origin.x) * (sphere.origin.x - ray.origin.x)
      + (sphere.origin.y - ray.origin.y) * (sphere.origin.y - ray.origin.y)
      + (sphere.origin.z - ray.origin.z) * (sphere.origin.z - ray.origin.z) := hdist
  have hA : sphereA ray = 1 := by
    simp only [sphereA, Vector3.Dot, hx, hy, hz]
    field_simp
    linarith
  have hB : sphereB sphere ray = -(2 * D) := by
    simp only [sphereB, Vector3.Dot, hx, hy, hz, Vector3.sub_x, Vector3.sub_y, Vector3.sub_z]
    field_simp
    linear_combination (2 : F) * hdist2
  have hC : sphereC sphere ray = D * D - sphere.radius * sphere.radius := by
    simp only [sphereC, Vector3.Dot, Vector3.sub_x, Vector3.sub_y, Vector3.sub_z]
    linear_combination (-1 : F) * hdist2
  have hDisc : sphereD sphere ray = (2 * sphere.radius) * (2 * sphere.radius) := by
    simp only [sphereD, hA, hB, hC]; ring
  have hdpos : 0 < sphereD sphere ray := by
    rw [hDisc]; positivity
  have hS : sqrtf (sphereD sphere ray) = 2 * sphere.radius := by
    obtain ⟨h0, hss⟩ := hsqrt
    have hprod : (sqrtf (sphereD sphere ray) - 2 * sphere.radius)
        * (sqrtf (sphereD sphere ray) + 2 * sphere.radius) = 0 := by
      have := hss.trans hDisc
      linear_combination this
    rcases mul_eq_zero.mp hprod with h | h
    · linarith
    · exfalso; linarith
  have ht : (-sphereB sphere ray - sqrtf (sphereD sphere ray)) / 2 / sphereA ray
      = D - sphere.radius := by
    rw [hS, hA, hB]; ring
  have hnlt : ¬ D - sphere.radius < ray.min := not_lt.mpr hmin
  refine ⟨?_, ?_, ?_⟩ <;>
    simp [HitTest_Sphere_AnyHit, HitTest_Sphere, hdpos, ht, hnlt, hmin, hmax]

/-- Witness of C5: the sphere of radius 1 around `(0,0,5)` and the ray from the origin
with direction `(0,0,5) / 5`: the distance is `D = 5` and the test records
`t = D - r = 4`. -/
theorem HitTest_Sphere_aimed_at_center_witness :
    (HitTest_Sphere Rat.sqrt (⟨⟨0, 0, 5⟩, 1, 2⟩ : Sphere ℚ)
        ⟨⟨0, 0, 0⟩, ⟨0, 0, 1⟩, 1 / 10000, 1000⟩ HitRecord.fresh false).2.t
      = ((5 - 1 : ℚ) : WithTop ℚ) := by
  have hD : sphereD (⟨⟨0, 0, 5⟩, 1, 2⟩ : Sphere ℚ)
      ⟨⟨0, 0, 0⟩, ⟨0, 0, 1⟩, 1 / 10000, 1000⟩ = 2 * 2 := by
    norm_num [sphereD, sphereA, sphereB, sphereC, Vector3.Dot]
  exact (HitTest_Sphere_aimed_at_center Rat.sqrt (⟨⟨0, 0, 5⟩, 1, 2⟩ : Sphere ℚ)
    ⟨⟨0, 0, 0⟩, ⟨0, 0, 1⟩, 1 / 10000, 1000⟩ HitRecord.fresh false 5
    (by norm_num) (by norm_num) (by norm_num [Vector3.Dot])
    (by simp [Vector3.scale])
    (by rw [hD, Rat.sqrt_eq]; norm_num) (by norm_num) (by norm_num)).2.1

/-- A vector other than the zero vector has a positive squared length. -/
theorem Dot_self_pos_of_ne_zero (v : Vector3 F) (hv : v ≠ 0) : 0 < Vector3.Dot v v := by
  by_contra hle
  have hle : Vector3.Dot v v ≤ 0 := not_lt.mp hle
  have hxx := mul_self_nonneg v.x
  have hyy := mul_self_nonneg v.y
  have hzz := mul_self_nonneg v.z
  simp only [Vector3.Dot] at hle
  have hx : v.x = 0 := mul_self_eq_zero.mp (by linarith)
  have hy : v.y = 0 := mul_self_eq_zero.mp (by linarith)
  have hz : v.z = 0 := mul_self_eq_zero.mp (by linarith)
  apply hv
  cases v
  simp only at hx hy hz
  subst hx hy hz
  rfl

/-- C6: a sphere of radius `r >= 0` and a ray with non-zero direction whose supporting
line stays farther than `r` from the center (every point `origin + t * direction`, for
every real `t`, has squared distance to the center above `r * r`, i.e. the
perpendicular distance of the line exceeds `r`): both forms of `HitTest_Sphere` return
false, whatever `ray.min` and `ray.max` are and whatever `sqrtf` returns, and the
record is left unchanged. -/
theorem HitTest_Sphere_line_beyond_radius (sqrtf : F → F) (sphere : Sphere F)
    (ray : Ray F) (hitRecord : HitRecord F) (ignoreHitRecord : Bool)
    (_hr : 0 ≤ sphere.radius) (hdir : ray.direction ≠ 0)
    (hfar : ∀ t : F, sphere.radius * sphere.radius
      < Vector3.Dot (ray.origin + Vector3.scale t ray.direction - sphere.origin)
          (ray.origin + Vector3.scale t ray.direction - sphere.origin)) :
    HitTest_Sphere sqrtf sphere ray hitRecord ignoreHitRecord = (false, hitRecord)
    ∧ HitTest_Sphere_AnyHit sqrtf sphere ray = false := by
  have ha : 0 < Vector3.Dot ray.direction ray.direction :=
    Dot_self_pos_of_ne_zero _ hdir
  have ha0 : Vector3.Dot ray.direction ray.direction ≠ 0 := ne_of_gt ha
  have h := hfar (-(Vector3.Dot ray.direction (ray.origin - sphere.origin))
    / Vector3.Dot ray.direction ray.direction)
  have hneg : sphereD sphere ray < 0 := by
    have h2 := mul_lt_mul_of_pos_left h ha
    have e : Vector3.Dot ray.direction ray.direction
        * Vector3.Dot
          (ray.origin + Vector3.scale
            (-(Vector3.Dot ray.direction (ray.origin - sphere.origin))
              / Vector3.Dot ray.direction ray.direction) ray.direction - sphere.origin)
          (ray.origin + Vector3.scale
            (-(Vector3.Dot ray.direction (ray.origin - sphere.origin))
              / Vector3.Dot ray.direction ray.direction) ray.direction - sphere.origin)
        = Vector3.Dot ray.direction ray.direction
            * Vector3.Dot (ray.origin - sphere.origin) (ray.origin - sphere.origin)
          - Vector3.Dot ray.direction (ray.origin - sphere.origin)
            * Vector3.Dot ray.direction (ray.origin - sphere.origin) := by
      generalize hk : Vector3.Dot ray.direction (ray.origin - sphere.origin) = k
      generalize hq : Vector3.Dot ray.direction ray.direction = q at ha0
      simp only [Vector3.Dot, Vector3.sub_x, Vector3.sub_y, Vector3.sub_z, Vector3.add_x,
        Vector3.add_y, Vector3.add_z, Vector3.scale_x, Vector3.scale_y, Vector3.scale_z]
        at hk hq ⊢
      field_simp
      subst hk hq
      ring
    rw [e] at h2
    simp only [sphereD, sphereA, sphereB, sphereC]
    linarith
  have hn : ¬ 0 < sphereD sphere ray := not_lt.mpr (le_of_lt hneg)
  simp [HitTest_Sphere_AnyHit, HitTest_Sphere, hn]

/-- Witness of C6: the sphere of radius 1 around `(0,0,5)` and the ray from `(0,3,0)`
along `+Z`, whose line passes the center at distance 3. -/
theorem HitTest_Sphere_line_beyond_radius_witness :
    HitTest_Sphere Rat.sqrt (⟨⟨0, 0, 5⟩, 1, 2⟩ : Sphere ℚ)
        ⟨⟨0, 3, 0⟩, ⟨0, 0, 1⟩, 1 / 10000, 1000⟩ HitRecord.fresh false
      = (false, HitRecord.fresh)
    ∧ HitTest_Sphere_AnyHit Rat.sqrt (⟨⟨0, 0, 5⟩, 1, 2⟩ : Sphere ℚ)
        ⟨⟨0, 3, 0⟩, ⟨0, 0, 1⟩, 1 / 10000, 1000⟩ = false :=
  HitTest_Sphere_line_beyond_radius Rat.sqrt (⟨⟨0, 0, 5⟩, 1, 2⟩ : Sphere ℚ)
    ⟨⟨0, 3, 0⟩, ⟨0, 0, 1⟩, 1 / 10000, 1000⟩ HitRecord.fresh false (by norm_num)
    (by intro h; have hz := congrArg Vector3.z h; norm_num at hz)
    (by intro t; norm_num [Vector3.Dot]; nlinarith [mul_self_nonneg (t - 5)])

/-! ## What a closest-hit test reports from a fresh record -/

/-- From a fresh record `HitTest_Plane` either misses and leaves the record fresh, or
hits and leaves `didHit = true` with a finite `t`. -/
theorem HitTest_Plane_fresh (plane : Plane F) (ray : Ray F) :
    ((HitTest_Plane plane ray HitRecord.fresh false).1 = false
        ∧ (HitTest_Plane plane ray HitRecord.fresh false).2 = HitRecord.fresh)
    ∨ ((HitTest_Plane plane ray HitRecord.fresh false).1 = true
        ∧ (HitTest_Plane plane ray HitRecord.fresh false).2.didHit = true
        ∧ (HitTest_Plane plane ray HitRecord.fresh false).2.t < ⊤) := by
  simp only [HitTest_Plane]
  split_ifs <;> simp [WithTop.coe_lt_top]

/-- From a fresh record `HitTest_Sphere` either misses and leaves the record fresh, or
hits and leaves `didHit = true` with a finite `t`. -/
theorem HitTest_Sphere_fresh (sqrtf : F → F) (sphere : Sphere F) (ray : Ray F) :
    ((HitTest_Sphere sqrtf sphere ray HitRecord.fresh false).1 = false
        ∧ (HitTest_Sphere sqrtf sphere ray HitRecord.fresh false).2 = HitRecord.fresh)
    ∨ ((HitTest_Sphere sqrtf sphere ray HitRecord.fresh false).1 = true
        ∧ (HitTest_Sphere sqrtf sphere ray HitRecord.fresh false).2.didHit = true
        ∧ (HitTest_Sphere sqrtf sphere ray HitRecord.fresh false).2.t < ⊤) := by
  simp only [HitTest_Sphere]
  split_ifs <;> simp [WithTop.coe_lt_top]

/-- From a fresh record the closest-hit `HitTest_Triangle` either misses and leaves the
record fresh, or hits and leaves `didHit = true` with a finite `t`. -/
theorem HitTest_Triangle_fresh (triangle : Triangle F) (ray : Ray F) :
    ((HitTest_Triangle triangle ray HitRecord.fresh false).1 = false
        ∧ (HitTest_Triangle triangle ray HitRecord.fresh false).2 = HitRecord.fresh)
    ∨ ((HitTest_Triangle triangle ray HitRecord.fresh false).1 = true
        ∧ (HitTest_Triangle triangle ray HitRecord.fresh false).2.didHit = true
        ∧ (HitTest_Triangle triangle ray HitRecord.fresh false).2.t < ⊤) := by
  simp only [HitTest_Triangle, HitTest_Triangle_inside, Bool.false_eq_true, if_false]
  split_ifs <;> simp [WithTop.coe_lt_top]

/-- The closest-hit loop of `HitTest_TriangleMesh` returns the `didHit` of the record
it leaves, and keeps a record that is fresh or holds a hit with a finite `t` that way. -/
theorem meshLoop_closest_inv (mesh : TriangleMesh F) (ray : Ray F) (steps : List Nat) :
    ∀ hitRecord : HitRecord F,
      (hitRecord = HitRecord.fresh ∨ (hitRecord.didHit = true ∧ hitRecord.t < ⊤)) →
      (meshLoop mesh ray false steps hitRecord).1
          = (meshLoop mesh ray false steps hitRecord).2.didHit
        ∧ ((meshLoop mesh ray false steps hitRecord).2 = HitRecord.fresh
          ∨ ((meshLoop mesh ray false steps hitRecord).2.didHit = true
            ∧ (meshLoop mesh ray false steps hitRecord).2.t < ⊤)) := by
  induction steps with
  | nil => intro hitRecord h; exact ⟨rfl, h⟩
  | cons i rest ih =>
    intro hitRecord h
    simp only [meshLoop]
    rcases HitTest_Triangle_fresh (meshTriangle mesh i) ray with ⟨h1, _⟩ | ⟨h1, h2, h3⟩
    · simp only [h1]
      exact ih hitRecord h
    · simp only [h1, if_true, Bool.false_eq_true, if_false]
      split_ifs
      · exact ih _ (Or.inr ⟨h2, h3⟩)
      · exact ih hitRecord h

/-- From a fresh record the closest-hit `HitTest_TriangleMesh` either misses and leaves
the record fresh, or hits and leaves `didHit = true` with a finite `t`. -/
theorem HitTest_TriangleMesh_fresh (mesh : TriangleMesh F) (ray : Ray F) :
    ((HitTest_TriangleMesh mesh ray HitRecord.fresh false).1 = false
        ∧ (HitTest_TriangleMesh mesh ray HitRecord.fresh false).2 = HitRecord.fresh)
    ∨ ((HitTest_TriangleMesh mesh ray HitRecord.fresh false).1 = true
        ∧ (HitTest_TriangleMesh mesh ray HitRecord.fresh false).2.didHit = true
        ∧ (HitTest_TriangleMesh mesh ray HitRecord.fresh false).2.t < ⊤) := by
  simp only [HitTest_TriangleMesh]
  split_ifs
  · exact Or.inl ⟨rfl, rfl⟩
  · obtain ⟨h1, h2⟩ := meshLoop_closest_inv mesh ray (meshSteps mesh.indices.length)
      HitRecord.fresh (Or.inl rfl)
    rcases h2 with h2 | ⟨h2, h3⟩
    · left
      refine ⟨?_, h2⟩
      rw [h1, h2]; rfl
    · right
      exact ⟨by rw [h1, h2], h2, h3⟩

end GeometryUtils

/-! ## Scene queries -/

namespace Scene

open GeometryUtils

variable {F : Type} [LinearOrderedField F]

/-- An early-return loop returns true exactly when its test holds for an element. -/
theorem returnsTrue_iff {α : Type} (test : α → Bool) (l : List α) :
    returnsTrue test l = true ↔ ∃ x ∈ l, test x = true := by
  induction l with
  | nil => simp [returnsTrue]
  | cons x rest ih =>
    simp only [returnsTrue, List.mem_cons, exists_eq_or_imp]
    split_ifs with h
    · simp [h]
    · simp [h, ih]

/-- C3: `Scene::DoesHit(ray)` returns true exactly when the any-hit test of at least
one plane, sphere, standalone triangle or mesh of the scene returns true for the ray;
for a scene without geometry it returns false. -/
theorem DoesHit_iff_some_primitive (sqrtf : F → F) (scene : Scene F) (ray : Ray F)
    (lights : List (Light F)) (materials : List (Material F)) :
    (DoesHit sqrtf scene ray = true
      ↔ (∃ plane ∈ scene.m_PlaneGeometries, HitTest_Plane_AnyHit plane ray = true)
        ∨ (∃ sphere ∈ scene.m_SphereGeometries,
            HitTest_Sphere_AnyHit sqrtf sphere ray = true)
        ∨ (∃ triangle ∈ scene.m_Triangles, HitTest_Triangle_AnyHit triangle ray = true)
        ∨ (∃ mesh ∈ scene.m_TriangleMeshGeometries,
            HitTest_TriangleMesh_AnyHit mesh ray = true))
    ∧ DoesHit sqrtf
        { m_PlaneGeometries := [], m_SphereGeometries := [], m_Triangles := [],
          m_TriangleMeshGeometries := [], m_Lights := lights, m_Materials := materials }
        ray = false := by
  constructor
  · simp only [DoesHit, ← returnsTrue_iff]
    split_ifs <;> simp_all
  · simp [DoesHit, returnsTrue]

/-- The four loops of `GetClosestHit` fold `keepCloser` over the records of
`closestReports`. -/
theorem GetClosestHit_eq_foldl (sqrtf : F → F) (scene : Scene F) (ray : Ray F)
    (closestHit : HitRecord F) :
    GetClosestHit sqrtf scene ray closestHit
      = ((closestReports sqrtf scene ray).map Prod.snd).foldl keepCloser closestHit := by
  simp only [GetClosestHit, closestReports, List.map_append, List.foldl_append,
    List.foldl_map]

/-- Every report of `closestReports` is a miss with a fresh record or a hit with
`didHit = true` and a finite `t`. -/
theorem closestReports_fresh (sqrtf : F → F) (scene : Scene F) (ray : Ray F)
    (r : Bool × HitRecord F) (hr : r ∈ closestReports sqrtf scene ray) :
    (r.1 = false ∧ r.2 = HitRecord.fresh)
      ∨ (r.1 = true ∧ r.2.didHit = true ∧ r.2.t < ⊤) := by
  simp only [closestReports, List.mem_append, List.mem_map] at hr
  rcases hr with ((⟨x, _, rfl⟩ | ⟨x, _, rfl⟩) | ⟨x, _, rfl⟩) | ⟨x, _, rfl⟩
  · exact HitTest_Plane_fresh x ray
  · exact HitTest_Sphere_fresh sqrtf x ray
  · exact HitTest_Triangle_fresh x ray
  · exact HitTest_TriangleMesh_fresh x ray

/-- Folding `keepCloser` over a list either keeps the start record, when no record of
the list has a smaller `t`, or ends with the record at some position `i` whose `t` is
below the start record's, strictly below that of every earlier record and not above
that of any record of the list. -/
theorem foldl_keepCloser (l : List (HitRecord F)) :
    ∀ acc : HitRecord F,
      (l.foldl keepCloser acc = acc ∧ ∀ x ∈ l, ¬ x.t < acc.t)
      ∨ ∃ i : Nat, l[i]? = some (l.foldl keepCloser acc)
          ∧ (l.foldl keepCloser acc).t < acc.t
          ∧ (∀ j x, j < i → l[j]? = some x → (l.foldl keepCloser acc).t < x.t)
          ∧ ∀ x ∈ l, (l.foldl keepCloser acc).t ≤ x.t := by
  induction l with
  | nil => intro acc; left; simp
  | cons y rest ih =>
    intro acc
    simp only [List.foldl_cons]
    by_cases hy : y.t < acc.t
    · have hk : keepCloser acc y = y := by simp [keepCloser, hy]
      rw [hk]
      right
      rcases ih y with ⟨h1, h2⟩ | ⟨i, h1, h2, h3, h4⟩
      · refine ⟨0, by simp [h1], by rw [h1]; exact hy, ?_, ?_⟩
        · intro j x hj; exact absurd hj (Nat.not_lt_zero j)
        · intro x hx
          rw [h1]
          rcases List.mem_cons.mp hx with rfl | hx
          · exact le_refl _
          · exact not_lt.mp (h2 x hx)
      · refine ⟨i + 1, by simpa using h1, lt_trans h2 hy, ?_, ?_⟩
        · intro j x hj hx
          cases j with
          | zero =>
            simp only [List.getElem?_cons_zero, Option.some.injEq] at hx
            rw [← hx]; exact h2
          | succ j =>
            simp only [List.getElem?_cons_succ] at hx
            exact h3 j x (Nat.lt_of_succ_lt_succ hj) hx
        · intro x hx
          rcases List.mem_cons.mp hx with rfl | hx
          · exact le_of_lt h2
          · exact h4 x hx
    · have hk : keepCloser acc y = acc := by simp [keepCloser, hy]
      rw [hk]
      rcases ih acc with ⟨h1, h2⟩ | ⟨i, h1, h2, h3, h4⟩
      · left
        refine ⟨h1, ?_⟩
        intro x hx
        rcases List.mem_cons.mp hx with rfl | hx
        · exact hy
        · exact h2 x hx
      · right
        have hy2 : (rest.foldl keepCloser acc).t < y.t := lt_of_lt_of_le h2 (not_lt.mp hy)
        refine ⟨i + 1, by simpa using h1, h2, ?_, ?_⟩
        · intro j x hj hx
          cases j with
          | zero =>
            simp only [List.getElem?_cons_zero, Option.some.injEq] at hx
            rw [← hx]; exact hy2
          | succ j =>
            simp only [List.getElem?_cons_succ] at hx
            exact h3 j x (Nat.lt_of_succ_lt_succ hj) hx
        · intro x hx
          rcases List.mem_cons.mp hx with rfl | hx
          · exact le_of_lt hy2
          · exact h4 x hx

/-- The reports that hit, collection by collection. -/
theorem exists_hit_closestReports (sqrtf : F → F) (scene : Scene F) (ray : Ray F) :
    (∃ r ∈ closestReports sqrtf scene ray, r.1 = true)
      ↔ (∃ plane ∈ scene.m_PlaneGeometries,
            (HitTest_Plane plane ray HitRecord.fresh false).1 = true)
        ∨ (∃ sphere ∈ scene.m_SphereGeometries,
            (HitTest_Sphere sqrtf sphere ray HitRecord.fresh false).1 = true)
        ∨ (∃ triangle ∈ scene.m_Triangles,
            (HitTest_Triangle triangle ray HitRecord.fresh false).1 = true)
        ∨ (∃ mesh ∈ scene.m_TriangleMeshGeometries,
            (HitTest_TriangleMesh mesh ray HitRecord.fresh false).1 = true) := by
  simp only [closestReports, List.mem_append, List.mem_map]
  constructor
  · rintro ⟨r, ((⟨x, hx, rfl⟩ | ⟨x, hx, rfl⟩) | ⟨x, hx, rfl⟩) | ⟨x, hx, rfl⟩, h⟩
    · exact Or.inl ⟨x, hx, h⟩
    · exact Or.inr (Or.inl ⟨x, hx, h⟩)
    · exact Or.inr (Or.inr (Or.inl ⟨x, hx, h⟩))
    · exact Or.inr (Or.inr (Or.inr ⟨x, hx, h⟩))
  · rintro (⟨x, hx, h⟩ | ⟨x, hx, h⟩ | ⟨x, hx, h⟩ | ⟨x, hx, h⟩)
    · exact ⟨_, Or.inl (Or.inl (Or.inl ⟨x, hx, rfl⟩)), h⟩
    · exact ⟨_, Or.inl (Or.inl (Or.inr ⟨x, hx, rfl⟩)), h⟩
    · exact ⟨_, Or.inl (Or.inr ⟨x, hx, rfl⟩), h⟩
    · exact ⟨_, Or.inr ⟨x, hx, rfl⟩, h⟩

/-- From a fresh record `GetClosestHit` either finds no report that hits and leaves the
record fresh, or leaves the record of the report at some position `i`, which hits, has a
`t` strictly below every earlier report's and not above any report's. -/
theorem GetClosestHit_cases (sqrtf : F → F) (scene : Scene F) (ray : Ray F) :
    (GetClosestHit sqrtf scene ray HitRecord.fresh = HitRecord.fresh
        ∧ ∀ r ∈ closestReports sqrtf scene ray, r.1 = false)
    ∨ ∃ (i : Nat) (r : Bool × HitRecord F),
        (closestReports sqrtf scene ray)[i]? = some r
        ∧ r.1 = true
        ∧ r.2 = GetClosestHit sqrtf scene ray HitRecord.fresh
        ∧ r.2.didHit = true
        ∧ (∀ j x, j < i → (closestReports sqrtf scene ray)[j]? = some x → r.2.t < x.2.t)
        ∧ ∀ x ∈ closestReports sqrtf scene ray, r.2.t ≤ x.2.t := by
  rw [GetClosestHit_eq_foldl]
  rcases foldl_keepCloser ((closestReports sqrtf scene ray).map Prod.snd) HitRecord.fresh
    with ⟨h1, h2⟩ | ⟨i, h1, h2, h3, h4⟩
  · left
    refine ⟨h1, ?_⟩
    intro r hr
    rcases closestReports_fresh sqrtf scene ray r hr with ⟨h, _⟩ | ⟨_, _, h⟩
    · exact h
    · exact absurd h (h2 r.2 (List.mem_map_of_mem Prod.snd hr))
  · right
    rw [List.getElem?_map] at h1
    obtain ⟨r, hr1, hr2⟩ := Option.map_eq_some'.mp h1
    have hmem : r ∈ closestReports sqrtf scene ray := List.getElem?_mem hr1
    have hlt : r.2.t < ⊤ := by rw [hr2]; exact h2
    have hhit : r.1 = true ∧ r.2.didHit = true := by
      rcases closestReports_fresh sqrtf scene ray r hmem with ⟨_, h⟩ | ⟨h, h', _⟩
      · rw [h] at hlt; exact absurd hlt (lt_irrefl _)
      · exact ⟨h, h'⟩
    refine ⟨i, r, hr1, hhit.1, hr2, hhit.2, ?_, ?_⟩
    · intro j x hj hx
      rw [hr2]
      exact h3 j x.2 hj (by rw [List.getElem?_map, hx]; rfl)
    · intro x hx
      rw [hr2]
      exact h4 x.2 (List.mem_map_of_mem Prod.snd hx)

/-- C1: `Scene::GetClosestHit` started from a fresh record (`didHit = false`,
`t = +infinity`) leaves `didHit = true` exactly when the closest-hit test of at least
one plane, sphere, standalone triangle or mesh of the scene hits; in that case its `t`
is not above the `t` of any primitive that hits, and the record (`t`, `origin`,
`normal`, `materialIndex`) is the one reported by a primitive that hits. -/
theorem GetClosestHit_closest (sqrtf : F → F) (scene : Scene F) (ray : Ray F) :
    ((GetClosestHit sqrtf scene ray HitRecord.fresh).didHit = true
      ↔ (∃ plane ∈ scene.m_PlaneGeometries,
            (HitTest_Plane plane ray HitRecord.fresh false).1 = true)
        ∨ (∃ sphere ∈ scene.m_SphereGeometries,
            (HitTest_Sphere sqrtf sphere ray HitRecord.fresh false).1 = true)
        ∨ (∃ triangle ∈ scene.m_Triangles,
            (HitTest_Triangle triangle ray HitRecord.fresh false).1 = true)
        ∨ (∃ mesh ∈ scene.m_TriangleMeshGeometries,
            (HitTest_TriangleMesh mesh ray HitRecord.fresh false).1 = true))
    ∧ ((GetClosestHit sqrtf scene ray HitRecord.fresh).didHit = true →
        (∀ r ∈ closestReports sqrtf scene ray, r.1 = true →
          (GetClosestHit sqrtf scene ray HitRecord.fresh).t ≤ r.2.t)
        ∧ ∃ r ∈ closestReports sqrtf scene ray,
            r.1 = true ∧ r.2 = GetClosestHit sqrtf scene ray HitRecord.fresh) := by
  rw [← exists_hit_closestReports]
  rcases GetClosestHit_cases sqrtf scene ray with ⟨h1, h2⟩ | ⟨i, r, h1, h2, h3, h4, _, h6⟩
  · have hno : ¬ ∃ r ∈ closestReports sqrtf scene ray, r.1 = true := by
      rintro ⟨r, hr, h⟩
      rw [h2 r hr] at h
      exact Bool.false_ne_true h
    have hd : (GetClosestHit sqrtf scene ray HitRecord.fresh).didHit = false := by
      rw [h1]; rfl
    constructor
    · rw [hd]; simp [hno]
    · intro h; rw [hd] at h; exact absurd h Bool.false_ne_true
  · have hmem : r ∈ closestReports sqrtf scene ray := List.getElem?_mem h1
    constructor
    · rw [← h3, h4]
      simp only [true_iff]
      exact ⟨r, hmem, h2⟩
    · intro _
      refine ⟨?_, r, hmem, h2, h3⟩
      intro x hx _
      rw [← h3]
      exact h6 x hx

/-- Witness of C1: in a scene that holds only the plane `z = 0`, the ray from
`(0.25, 0.25, 5)` along `-Z` hits the plane, so `GetClosestHit` leaves
`didHit = true`. -/
theorem GetClosestHit_closest_witness :
    (GetClosestHit Rat.sqrt
      ({ m_PlaneGeometries := [⟨⟨0, 0, 0⟩, ⟨0, 0, 1⟩, 1⟩]
         m_SphereGeometries := []
         m_Triangles := []
         m_TriangleMeshGeometries := []
         m_Lights := []
         m_Materials := [] } : Scene ℚ)
      ⟨⟨1 / 4, 1 / 4, 5⟩, ⟨0, 0, -1⟩, 1 / 10000, 1000⟩ HitRecord.fresh).didHit = true :=
  (GetClosestHit_closest Rat.sqrt
    ({ m_PlaneGeometries := [⟨⟨0, 0, 0⟩, ⟨0, 0, 1⟩, 1⟩]
       m_SphereGeometries := []
       m_Triangles := []
       m_TriangleMeshGeometries := []
       m_Lights := []
       m_Materials := [] } : Scene ℚ)
    ⟨⟨1 / 4, 1 / 4, 5⟩, ⟨0, 0, -1⟩, 1 / 10000, 1000⟩).1.mpr
    (Or.inl ⟨⟨⟨0, 0, 0⟩, ⟨0, 0, 1⟩, 1⟩, List.mem_singleton.mpr rfl, by
      simp [HitTest_Plane, Vector3.Dot]
      norm_num⟩)

/-- C2: when the report at position `i` of the visiting order (planes, then spheres,
then standalone triangles, then meshes, by index inside a collection) hits with a `t`
that no report that hits undercuts, and no earlier report hits with the same `t`, then
`GetClosestHit` started from a fresh record leaves exactly that report's record: among
primitives that report the same minimal `t` the one visited first is kept. -/
theorem GetClosestHit_tie_keeps_first (sqrtf : F → F) (scene : Scene F) (ray : Ray F)
    (i : Nat) (r : Bool × HitRecord F)
    (hi : (closestReports sqrtf scene ray)[i]? = some r) (hhit : r.1 = true)
    (hmin : ∀ x ∈ closestReports sqrtf scene ray, x.1 = true → r.2.t ≤ x.2.t)
    (hfirst : ∀ j x, j < i → (closestReports sqrtf scene ray)[j]? = some x →
      x.1 = true → x.2.t ≠ r.2.t) :
    GetClosestHit sqrtf scene ray HitRecord.fresh = r.2 := by
  have hmem : r ∈ closestReports sqrtf scene ray := List.getElem?_mem hi
  rcases GetClosestHit_cases sqrtf scene ray with ⟨_, h2⟩
    | ⟨i', r', h1, h2, h3, _, h5, h6⟩
  · rw [h2 r hmem] at hhit
    exact absurd hhit Bool.false_ne_true
  · have hmem' : r' ∈ closestReports sqrtf scene ray := List.getElem?_mem h1
    have hteq : r'.2.t = r.2.t := le_antisymm (h6 r hmem) (hmin r' hmem' h2)
    rcases Nat.lt_trichotomy i' i with hlt | heq | hgt
    · exact absurd hteq (hfirst i' r' hlt h1 h2)
    · rw [heq, hi] at h1
      rw [← h3, ← Option.some.inj h1]
    · have := h5 i r hgt hi
      rw [hteq] at this
      exact absurd this (lt_irrefl _)

/-- Witness of C2: the plane `z = 0` (material 1) and the triangle
`(0,0,0), (1,0,0), (0,1,0)` (material 2) are both hit at `t = 5` by the ray from
`(0.25, 0.25, 5)` along `-Z`; the record kept is the plane's, visited first. -/
theorem GetClosestHit_tie_keeps_first_witness :
    GetClosestHit Rat.sqrt
      ({ m_PlaneGeometries := [⟨⟨0, 0, 0⟩, ⟨0, 0, 1⟩, 1⟩]
         m_SphereGeometries := []
         m_Triangles :=
          [⟨⟨0, 0, 0⟩, ⟨1, 0, 0⟩, ⟨0, 1, 0⟩, ⟨0, 0, 1⟩, TriangleCullMode.NoCulling, 2⟩]
         m_TriangleMeshGeometries := []
         m_Lights := []
         m_Materials := [] } : Scene ℚ)
      ⟨⟨1 / 4, 1 / 4, 5⟩, ⟨0, 0, -1⟩, 1 / 10000, 1000⟩ HitRecord.fresh
    = ⟨⟨1 / 4, 1 / 4, 0⟩, ⟨0, 0, 1⟩, ((5 : ℚ) : WithTop ℚ), true, 1⟩ := by
  have hP : HitTest_Plane (⟨⟨0, 0, 0⟩, ⟨0, 0, 1⟩, 1⟩ : Plane ℚ)
      ⟨⟨1 / 4, 1 / 4, 5⟩, ⟨0, 0, -1⟩, 1 / 10000, 1000⟩ HitRecord.fresh false
      = (true, ⟨⟨1 / 4, 1 / 4, 0⟩, ⟨0, 0, 1⟩, ((5 : ℚ) : WithTop ℚ), true, 1⟩) := by
    simp [HitTest_Plane, Vector3.Dot, HitRecord.fresh]
    norm_num
  have hT : (HitTest_Triangle
      (⟨⟨0, 0, 0⟩, ⟨1, 0, 0⟩, ⟨0, 1, 0⟩, ⟨0, 0, 1⟩, TriangleCullMode.NoCulling, 2⟩ :
        Triangle ℚ)
      ⟨⟨1 / 4, 1 / 4, 5⟩, ⟨0, 0, -1⟩, 1 / 10000, 1000⟩ HitRecord.fresh false).2.t
      = ((5 : ℚ) : WithTop ℚ) := by
    simp [HitTest_Triangle, HitTest_Triangle_inside, triA, triEdge1, triEdge2, triH, triF,
      triS, triU, triQ, triV, triT, Vector3.Cross, Vector3.Dot, FLT_EPSILON]
    norm_num
  have h := GetClosestHit_tie_keeps_first Rat.sqrt
    ({ m_PlaneGeometries := [⟨⟨0, 0, 0⟩, ⟨0, 0, 1⟩, 1⟩]
       m_SphereGeometries := []
       m_Triangles :=
        [⟨⟨0, 0, 0⟩, ⟨1, 0, 0⟩, ⟨0, 1, 0⟩, ⟨0, 0, 1⟩, TriangleCullMode.NoCulling, 2⟩]
       m_TriangleMeshGeometries := []
       m_Lights := []
       m_Materials := [] } : Scene ℚ)
    ⟨⟨1 / 4, 1 / 4, 5⟩, ⟨0, 0, -1⟩, 1 / 10000, 1000⟩ 0
    (true, ⟨⟨1 / 4, 1 / 4, 0⟩, ⟨0, 0, 1⟩, ((5 : ℚ) : WithTop ℚ), true, 1⟩)
    (by simp only [closestReports, List.map_cons, List.map_nil, List.nil_append,
      List.cons_append, List.getElem?_cons_zero, hP]) rfl
    (by
      intro x hx _
      simp only [closestReports, List.map_cons, List.map_nil, List.append_nil,
        List.cons_append, List.nil_append, List.mem_cons, List.mem_singleton,
        List.not_mem_nil, or_false] at hx
      rcases hx with rfl | rfl
      · rw [hP]
      · rw [hT])
    (by intro j x hj; exact absurd hj (Nat.not_lt_zero j))
  exact h

end Scene

/-! ## Cull mode and the any-hit forms -/

namespace GeometryUtils

variable {F : Type} [LinearOrderedField F]

/-- With `ignoreHitRecord = true` the triangle test does not read the cull mode. -/
theorem HitTest_Triangle_ignore_cullMode (triangle : Triangle F) (c : TriangleCullMode)
    (ray : Ray F) (hitRecord : HitRecord F) :
    HitTest_Triangle { triangle with cullMode := c } ray hitRecord true
      = HitTest_Triangle triangle ray hitRecord true := by
  have hI : HitTest_Triangle_inside { triangle with cullMode := c } ray hitRecord true
      = HitTest_Triangle_inside triangle ray hitRecord true := rfl
  have hA : triA { triangle with cullMode := c } ray = triA triangle ray := rfl
  simp only [HitTest_Triangle, hI, hA, Bool.not_true, Bool.false_and, Bool.false_eq_true,
    if_false]

/-- The boolean of the triangle test with the record ignored is the boolean of the
closest-hit form under `NoCulling`, whatever records the two calls are given. -/
theorem HitTest_Triangle_ignore_eq_NoCulling (triangle : Triangle F) (ray : Ray F)
    (hitRecord hitRecord' : HitRecord F) :
    (HitTest_Triangle triangle ray hitRecord true).1
      = (HitTest_Triangle { triangle with cullMode := TriangleCullMode.NoCulling } ray
          hitRecord' false).1 := by
  have hA : triA { triangle with cullMode := TriangleCullMode.NoCulling } ray
      = triA triangle ray := rfl
  have hU : triU { triangle with cullMode := TriangleCullMode.NoCulling } ray
      = triU triangle ray := rfl
  have hV : triV { triangle with cullMode := TriangleCullMode.NoCulling } ray
      = triV triangle ray := rfl
  have hT : triT { triangle with cullMode := TriangleCullMode.NoCulling } ray
      = triT triangle ray := rfl
  simp only [HitTest_Triangle, HitTest_Triangle_inside, hA, hU, hV, hT]
  split_ifs <;> simp_all

/-- A hit of the closest-hit triangle test from a fresh record records a `t` above
`ray.min`. -/
theorem HitTest_Triangle_hit_gt_min (triangle : Triangle F) (ray : Ray F)
    (h : (HitTest_Triangle triangle ray HitRecord.fresh false).1 = true) :
    (ray.min : WithTop F) < (HitTest_Triangle triangle ray HitRecord.fresh false).2.t := by
  revert h
  simp only [HitTest_Triangle, HitTest_Triangle_inside, Bool.false_eq_true, if_false]
  split_ifs with h1 h2 h3 h4 h5 <;> simp_all [WithTop.coe_lt_coe]

/-- The any-hit loop of a mesh does not depend on the mesh's cull mode. -/
theorem meshLoop_ignore_cullMode (mesh : TriangleMesh F) (c : TriangleCullMode)
    (ray : Ray F) (steps : List Nat) (hitRecord : HitRecord F) :
    meshLoop { mesh with cullMode := c } ray true steps hitRecord
      = meshLoop mesh ray true steps hitRecord := by
  induction steps with
  | nil => rfl
  | cons i rest ih =>
    have hT : meshTriangle { mesh with cullMode := c } i
        = { meshTriangle mesh i with cullMode := c } := rfl
    simp only [meshLoop, hT, HitTest_Triangle_ignore_cullMode, ih, if_true]

/-- With `ray.min >= 0`, the closest-hit loop of a mesh under `NoCulling`, started from
a record that is fresh or holds a hit, returns true exactly when the record held a hit
or the any-hit loop returns true. -/
theorem meshLoop_closest_eq_any (mesh : TriangleMesh F) (ray : Ray F)
    (hmin : 0 ≤ ray.min) (steps : List Nat) :
    ∀ hitRecord : HitRecord F,
      (hitRecord = HitRecord.fresh ∨ (hitRecord.didHit = true ∧ hitRecord.t < ⊤)) →
      (meshLoop { mesh with cullMode := TriangleCullMode.NoCulling } ray false steps
          hitRecord).1
        = (hitRecord.didHit || (meshLoop mesh ray true steps HitRecord.fresh).1) := by
  induction steps with
  | nil => intro hitRecord _; simp [meshLoop, HitRecord.fresh]
  | cons i rest ih =>
    intro hitRecord h
    have hT : meshTriangle { mesh with cullMode := TriangleCullMode.NoCulling } i
        = { meshTriangle mesh i with cullMode := TriangleCullMode.NoCulling } := rfl
    have hb := HitTest_Triangle_ignore_eq_NoCulling (meshTriangle mesh i) ray
      HitRecord.fresh HitRecord.fresh
    simp only [meshLoop, hT]
    rw [hb]
    by_cases hhit : (HitTest_Triangle
        { meshTriangle mesh i with cullMode := TriangleCullMode.NoCulling } ray
        HitRecord.fresh false).1 = true
    · simp only [hhit, if_true, Bool.false_eq_true, if_false, Bool.or_true]
      have hgt := HitTest_Triangle_hit_gt_min _ ray hhit
      have hpos : (HitTest_Triangle
          { meshTriangle mesh i with cullMode := TriangleCullMode.NoCulling } ray
          HitRecord.fresh false).2.t > 0 :=
        lt_of_le_of_lt (by exact_mod_cast hmin) hgt
      rcases HitTest_Triangle_fresh
          { meshTriangle mesh i with cullMode := TriangleCullMode.NoCulling } ray
        with ⟨h1, _⟩ | ⟨_, h2, h3⟩
      · rw [h1] at hhit; exact absurd hhit Bool.false_ne_true
      · split_ifs with hc
        · rw [ih _ (Or.inr ⟨h2, h3⟩), h2]; rfl
        · rcases h with h | ⟨h, h'⟩
          · exfalso
            apply hc
            refine ⟨hpos, ?_⟩
            rw [h]; exact h3
          · rw [ih _ (Or.inr ⟨h, h'⟩), h]; rfl
    · simp only [hhit, Bool.false_eq_true, if_false]
      exact ih hitRecord h

/-- C10, as amended: the any-hit form of `HitTest_Triangle` returns the same boolean
whatever the triangle's `cullMode` is, and that boolean is the result of the closest-hit
form on the same triangle with `cullMode` set to `NoCulling`; the any-hit form of
`HitTest_TriangleMesh` returns the same boolean whatever the mesh's `cullMode` is, and,
when `ray.min >= 0`, that boolean is the result of the closest-hit form on the same mesh
with `cullMode` set to `NoCulling`, started from a fresh record. -/
theorem AnyHit_bypasses_cullMode (triangle : Triangle F) (mesh : TriangleMesh F)
    (c : TriangleCullMode) (ray : Ray F) (hitRecord : HitRecord F) :
    HitTest_Triangle_AnyHit { triangle with cullMode := c } ray
      = HitTest_Triangle_AnyHit triangle ray
    ∧ HitTest_Triangle_AnyHit triangle ray
      = (HitTest_Triangle { triangle with cullMode := TriangleCullMode.NoCulling } ray
          hitRecord false).1
    ∧ HitTest_TriangleMesh_AnyHit { mesh with cullMode := c } ray
      = HitTest_TriangleMesh_AnyHit mesh ray
    ∧ (0 ≤ ray.min →
        HitTest_TriangleMesh_AnyHit mesh ray
          = (HitTest_TriangleMesh { mesh with cullMode := TriangleCullMode.NoCulling } ray
              HitRecord.fresh false).1) := by
  refine ⟨?_, ?_, ?_, ?_⟩
  · simp only [HitTest_Triangle_AnyHit, HitTest_Triangle_ignore_cullMode]
  · exact HitTest_Triangle_ignore_eq_NoCulling triangle ray HitRecord.fresh hitRecord
  · have hS : SlabTest_TriangleMesh { mesh with cullMode := c } ray
        = SlabTest_TriangleMesh mesh ray := rfl
    simp only [HitTest_TriangleMesh_AnyHit, HitTest_TriangleMesh, hS,
      meshLoop_ignore_cullMode]
  · intro hmin
    have hS : SlabTest_TriangleMesh
        { mesh with cullMode := TriangleCullMode.NoCulling } ray
        = SlabTest_TriangleMesh mesh ray := rfl
    simp only [HitTest_TriangleMesh_AnyHit, HitTest_TriangleMesh, hS]
    split_ifs
    · rfl
    · rw [meshLoop_closest_eq_any mesh ray hmin _ HitRecord.fresh (Or.inl rfl)]
      simp [HitRecord.fresh]

/-- The first triangle of `twoTriangleMesh` is hit by `rayWithNegativeMin` at `t = -1`
when the record is ignored. -/
theorem twoTriangleMesh_first_behind :
    HitTest_Triangle (meshTriangle twoTriangleMesh 0) rayWithNegativeMin HitRecord.fresh true
      = (true, HitRecord.fresh) := by
  simp [HitTest_Triangle, HitTest_Triangle_inside, meshTriangle, twoTriangleMesh,
    rayWithNegativeMin, triA, triEdge1, triEdge2, triH, triF, triS, triU, triQ, triV, triT,
    Vector3.Cross, Vector3.Dot, FLT_EPSILON]
  norm_num

/-- The closest-hit test of the first triangle of `twoTriangleMesh` records `t = -1`
for `rayWithNegativeMin`. -/
theorem twoTriangleMesh_first_t :
    (HitTest_Triangle (meshTriangle twoTriangleMesh 0) rayWithNegativeMin HitRecord.fresh
      false).2.t = (((-1 : ℚ) : ℚ) : WithTop ℚ) := by
  simp [HitTest_Triangle, HitTest_Triangle_inside, meshTriangle, twoTriangleMesh,
    rayWithNegativeMin, triA, triEdge1, triEdge2, triH, triF, triS, triU, triQ, triV, triT,
    Vector3.Cross, Vector3.Dot, FLT_EPSILON]
  norm_num

/-- The second triangle of `twoTriangleMesh` is missed by `rayWithNegativeMin`. -/
theorem twoTriangleMesh_second_missed (ignoreHitRecord : Bool) :
    HitTest_Triangle (meshTriangle twoTriangleMesh 3) rayWithNegativeMin HitRecord.fresh
      ignoreHitRecord = (false, HitRecord.fresh) := by
  simp [HitTest_Triangle, HitTest_Triangle_inside, meshTriangle, twoTriangleMesh,
    rayWithNegativeMin, triA, triEdge1, triEdge2, triH, triF, triS, triU, triQ, triV, triT,
    Vector3.Cross, Vector3.Dot, FLT_EPSILON]
  norm_num

/-- Counterexample to C10 as stated: for `twoTriangleMesh` (cull mode `NoCulling`) and
`rayWithNegativeMin` the any-hit form of `HitTest_TriangleMesh` returns true, on the
triangle crossed at `t = -1 > ray.min`, while the closest-hit form from a fresh record
returns false, because it drops a hit whose `t` is not above `0`. -/
theorem HitTest_TriangleMesh_AnyHit_ne_closest :
    HitTest_TriangleMesh_AnyHit twoTriangleMesh rayWithNegativeMin = true
    ∧ (HitTest_TriangleMesh twoTriangleMesh rayWithNegativeMin HitRecord.fresh false).1
        = false := by
  have hS : SlabTest_TriangleMesh twoTriangleMesh rayWithNegativeMin = true := by
    rw [SlabTest_TriangleMesh_eq_finite _ _ (by norm_num [rayWithNegativeMin])
      (by norm_num [rayWithNegativeMin]) (by norm_num [rayWithNegativeMin])]
    simp [slabTestFinite, twoTriangleMesh, rayWithNegativeMin]
    norm_num
  have hsteps : meshSteps twoTriangleMesh.indices.length = [0, 3] := by decide
  constructor
  · simp only [HitTest_TriangleMesh_AnyHit, HitTest_TriangleMesh, hS, hsteps, meshLoop]
    rw [twoTriangleMesh_first_behind]
    simp
  · have hneg : ¬ ((HitTest_Triangle (meshTriangle twoTriangleMesh 0) rayWithNegativeMin
        HitRecord.fresh false).2.t > 0
        ∧ (HitTest_Triangle (meshTriangle twoTriangleMesh 0) rayWithNegativeMin
        HitRecord.fresh false).2.t < (HitRecord.fresh : HitRecord ℚ).t) := by
      rw [twoTriangleMesh_first_t]
      intro h
      have h0 : ((0 : ℚ) : WithTop ℚ) < (((-1 : ℚ) : ℚ) : WithTop ℚ) := h.1
      rw [WithTop.coe_lt_coe] at h0
      norm_num at h0
    simp only [HitTest_TriangleMesh, hS, hsteps, meshLoop, hneg]
    rw [twoTriangleMesh_second_missed]
    simp [HitRecord.fresh]

/-- Witness of C10 as amended: `rayTowardsFirstTriangle` has `ray.min = 0.0001 >= 0`
and crosses the first triangle of `twoTriangleMesh` at `t = 1`; the any-hit form and
the closest-hit form from a fresh record both return true. -/
theorem AnyHit_bypasses_cullMode_witness :
    0 ≤ rayTowardsFirstTriangle.min
    ∧ HitTest_TriangleMesh_AnyHit twoTriangleMesh rayTowardsFirstTriangle = true
    ∧ (HitTest_TriangleMesh twoTriangleMesh rayTowardsFirstTriangle HitRecord.fresh
        false).1 = true := by
  have hmin : 0 ≤ rayTowardsFirstTriangle.min := by norm_num [rayTowardsFirstTriangle]
  have hS : SlabTest_TriangleMesh twoTriangleMesh rayTowardsFirstTriangle = true := by
    rw [SlabTest_TriangleMesh_eq_finite _ _ (by norm_num [rayTowardsFirstTriangle])
      (by norm_num [rayTowardsFirstTriangle]) (by norm_num [rayTowardsFirstTriangle])]
    simp [slabTestFinite, twoTriangleMesh, rayTowardsFirstTriangle]
    norm_num
  have hsteps : meshSteps twoTriangleMesh.indices.length = [0, 3] := by decide
  have h0 : HitTest_Triangle (meshTriangle twoTriangleMesh 0) rayTowardsFirstTriangle
      HitRecord.fresh true = (true, HitRecord.fresh) := by
    simp [HitTest_Triangle, HitTest_Triangle_inside, meshTriangle, twoTriangleMesh,
      rayTowardsFirstTriangle, triA, triEdge1, triEdge2, triH, triF, triS, triU, triQ, triV,
      triT, Vector3.Cross, Vector3.Dot, FLT_EPSILON]
    norm_num
  have hany : HitTest_TriangleMesh_AnyHit twoTriangleMesh rayTowardsFirstTriangle
      = true := by
    simp only [HitTest_TriangleMesh_AnyHit, HitTest_TriangleMesh, hS, hsteps, meshLoop]
    rw [h0]
    simp
  have h := (AnyHit_bypasses_cullMode (meshTriangle twoTriangleMesh 0) twoTriangleMesh
    TriangleCullMode.NoCulling rayTowardsFirstTriangle HitRecord.fresh).2.2.2 hmin
  exact ⟨hmin, hany, by rw [← hany, h]; rfl⟩

end GeometryUtils

/-! ## Slab test and cached mesh data -/

namespace GeometryUtils

variable {F : Type} [LinearOrderedField F]

/-- On one axis with a non-zero direction component `d`, a parameter `t` whose point
`o + t * d` lies between `lo` and `hi` lies between the smaller and the larger of the
two slab parameters `(lo - o) / d` and `(hi - o) / d`. -/
theorem slab_axis (lo hi o d t : F) (hd : d ≠ 0) (h1 : lo ≤ o + t * d)
    (h2 : o + t * d ≤ hi) :
    min ((lo - o) / d) ((hi - o) / d) ≤ t ∧ t ≤ max ((lo - o) / d) ((hi - o) / d) := by
  rcases lt_or_gt_of_ne hd with hneg | hpos
  · constructor
    · apply le_trans (min_le_right _ _)
      rw [div_le_iff_of_neg hneg]; linarith
    · apply le_trans _ (le_max_left _ _)
      rw [le_div_iff_of_neg hneg]; linarith
  · constructor
    · apply le_trans (min_le_left _ _)
      rw [div_le_iff₀ hpos]; linarith
    · apply le_trans _ (le_max_right _ _)
      rw [le_div_iff₀ hpos]; linarith

/-- C11: for a ray whose three direction components are all non-zero, if some point
`ray.origin + t * ray.direction` with `t > 0` lies inside the cached box of the mesh
(bounds inclusive; the box then has `transformedMinAABB <= transformedMaxAABB` on every
axis), `SlabTest_TriangleMesh` returns true. -/
theorem SlabTest_TriangleMesh_of_point_in_box (mesh : TriangleMesh F) (ray : Ray F) (t : F)
    (hdx : ray.direction.x ≠ 0) (hdy : ray.direction.y ≠ 0) (hdz : ray.direction.z ≠ 0)
    (ht : 0 < t)
    (hx : mesh.transformedMinAABB.x ≤ (ray.origin + Vector3.scale t ray.direction).x
      ∧ (ray.origin + Vector3.scale t ray.direction).x ≤ mesh.transformedMaxAABB.x)
    (hy : mesh.transformedMinAABB.y ≤ (ray.origin + Vector3.scale t ray.direction).y
      ∧ (ray.origin + Vector3.scale t ray.direction).y ≤ mesh.transformedMaxAABB.y)
    (hz : mesh.transformedMinAABB.z ≤ (ray.origin + Vector3.scale t ray.direction).z
      ∧ (ray.origin + Vector3.scale t ray.direction).z ≤ mesh.transformedMaxAABB.z) :
    SlabTest_TriangleMesh mesh ray = true := by
  simp only [Vector3.add_x, Vector3.add_y, Vector3.add_z, Vector3.scale_x, Vector3.scale_y,
    Vector3.scale_z] at hx hy hz
  obtain ⟨ax1, ax2⟩ := slab_axis _ _ _ _ t hdx hx.1 hx.2
  obtain ⟨ay1, ay2⟩ := slab_axis _ _ _ _ t hdy hy.1 hy.2
  obtain ⟨az1, az2⟩ := slab_axis _ _ _ _ t hdz hz.1 hz.2
  rw [SlabTest_TriangleMesh_eq_finite mesh ray hdx hdy hdz]
  simp only [slabTestFinite, decide_eq_true_eq]
  have hmax : t ≤ min (min
      (max ((mesh.transformedMinAABB.x - ray.origin.x) / ray.direction.x)
        ((mesh.transformedMaxAABB.x - ray.origin.x) / ray.direction.x))
      (max ((mesh.transformedMinAABB.y - ray.origin.y) / ray.direction.y)
        ((mesh.transformedMaxAABB.y - ray.origin.y) / ray.direction.y)))
      (max ((mesh.transformedMinAABB.z - ray.origin.z) / ray.direction.z)
        ((mesh.transformedMaxAABB.z - ray.origin.z) / ray.direction.z)) :=
    le_min (le_min ax2 ay2) az2
  have hmin : max (max
      (min ((mesh.transformedMinAABB.x - ray.origin.x) / ray.direction.x)
        ((mesh.transformedMaxAABB.x - ray.origin.x) / ray.direction.x))
      (min ((mesh.transformedMinAABB.y - ray.origin.y) / ray.direction.y)
        ((mesh.transformedMaxAABB.y - ray.origin.y) / ray.direction.y)))
      (min ((mesh.transformedMinAABB.z - ray.origin.z) / ray.direction.z)
        ((mesh.transformedMaxAABB.z - ray.origin.z) / ray.direction.z)) ≤ t :=
    max_le (max_le ax1 ay1) az1
  exact ⟨lt_of_lt_of_le ht hmax, le_trans hmin hmax⟩

/-- Witness of C11: `rayTowardsFirstTriangle` reaches, at `t = 1`, the point
`(0.125, 0.125, -1)` of the box `[0,1] x [0,1] x [-1,1]` of `twoTriangleMesh`. -/
theorem SlabTest_TriangleMesh_of_point_in_box_witness :
    SlabTest_TriangleMesh twoTriangleMesh rayTowardsFirstTriangle = true :=
  SlabTest_TriangleMesh_of_point_in_box twoTriangleMesh rayTowardsFirstTriangle 1
    (by norm_num [rayTowardsFirstTriangle]) (by norm_num [rayTowardsFirstTriangle])
    (by norm_num [rayTowardsFirstTriangle]) (by norm_num)
    (by norm_num [rayTowardsFirstTriangle, twoTriangleMesh])
    (by norm_num [rayTowardsFirstTriangle, twoTriangleMesh])
    (by norm_num [rayTowardsFirstTriangle, twoTriangleMesh])

/-- The triangle assembled at index `i` only reads the cached world-space buffers, the
index buffer, the cull mode and the material index of the mesh. -/
theorem meshTriangle_congr (m1 m2 : TriangleMesh F) (i : Nat)
    (hidx : m1.indices = m2.indices)
    (hpos : m1.transformedPositions = m2.transformedPositions)
    (hnor : m1.transformedNormals = m2.transformedNormals)
    (hcull : m1.cullMode = m2.cullMode) (hmat : m1.materialIndex = m2.materialIndex) :
    meshTriangle m1 i = meshTriangle m2 i := by
  simp only [meshTriangle, hidx, hpos, hnor, hcull, hmat]

/-- The triangle loop gives the same result on two meshes that agree on the cached
world-space buffers, the index buffer, the cull mode and the material index. -/
theorem meshLoop_congr (m1 m2 : TriangleMesh F) (ray : Ray F) (ignoreHitRecord : Bool)
    (hidx : m1.indices = m2.indices)
    (hpos : m1.transformedPositions = m2.transformedPositions)
    (hnor : m1.transformedNormals = m2.transformedNormals)
    (hcull : m1.cullMode = m2.cullMode) (hmat : m1.materialIndex = m2.materialIndex)
    (steps : List Nat) :
    ∀ hitRecord : HitRecord F,
      meshLoop m1 ray ignoreHitRecord steps hitRecord
        = meshLoop m2 ray ignoreHitRecord steps hitRecord := by
  induction steps with
  | nil => intro hitRecord; rfl
  | cons i rest ih =>
    intro hitRecord
    simp only [meshLoop, meshTriangle_congr m1 m2 i hidx hpos hnor hcull hmat, ih]

/-- C19: two meshes that agree on `indices`, `transformedPositions`,
`transformedNormals`, `transformedMinAABB`, `transformedMaxAABB`, `cullMode` and
`materialIndex` give, for every ray, the same result of `SlabTest_TriangleMesh` and the
same boolean and record of both forms of `HitTest_TriangleMesh`, whatever their
object-space positions, normals and transforms are. -/
theorem HitTest_TriangleMesh_reads_cache_only (m1 m2 : TriangleMesh F) (ray : Ray F)
    (hitRecord : HitRecord F) (ignoreHitRecord : Bool)
    (hidx : m1.indices = m2.indices)
    (hpos : m1.transformedPositions = m2.transformedPositions)
    (hnor : m1.transformedNormals = m2.transformedNormals)
    (hmin : m1.transformedMinAABB = m2.transformedMinAABB)
    (hmax : m1.transformedMaxAABB = m2.transformedMaxAABB)
    (hcull : m1.cullMode = m2.cullMode) (hmat : m1.materialIndex = m2.materialIndex) :
    SlabTest_TriangleMesh m1 ray = SlabTest_TriangleMesh m2 ray
    ∧ HitTest_TriangleMesh m1 ray hitRecord ignoreHitRecord
      = HitTest_TriangleMesh m2 ray hitRecord ignoreHitRecord
    ∧ HitTest_TriangleMesh_AnyHit m1 ray = HitTest_TriangleMesh_AnyHit m2 ray := by
  have hS : SlabTest_TriangleMesh m1 ray = SlabTest_TriangleMesh m2 ray := by
    simp only [SlabTest_TriangleMesh, hmin, hmax]
  refine ⟨hS, ?_, ?_⟩
  · simp only [HitTest_TriangleMesh, hS, hidx,
      meshLoop_congr m1 m2 ray ignoreHitRecord hidx hpos hnor hcull hmat]
  · simp only [HitTest_TriangleMesh_AnyHit, HitTest_TriangleMesh, hS, hidx,
      meshLoop_congr m1 m2 ray true hidx hpos hnor hcull hmat]

/-- Witness of C19: `twoTriangleMesh` and the mesh obtained from it by editing the
transform (a translation by `(5, 0, 0)`) and emptying the object-space buffers, without
recomputing the cache, give the same closest-hit result for
`rayTowardsFirstTriangle`. -/
theorem HitTest_TriangleMesh_reads_cache_only_witness :
    HitTest_TriangleMesh
        { twoTriangleMesh with
          transform := ⟨⟨1, 0, 0, 0⟩, ⟨0, 1, 0, 0⟩, ⟨0, 0, 1, 0⟩, ⟨5, 0, 0, 1⟩⟩
          positions := []
          normals := [] }
        rayTowardsFirstTriangle HitRecord.fresh false
      = HitTest_TriangleMesh twoTriangleMesh rayTowardsFirstTriangle HitRecord.fresh false :=
  (HitTest_TriangleMesh_reads_cache_only _ twoTriangleMesh rayTowardsFirstTriangle
    HitRecord.fresh false rfl rfl rfl rfl rfl rfl rfl).2.1

end GeometryUtils

/-! ## Renderer -/

namespace Renderer

open GeometryUtils LightUtils

variable {F : Type} [LinearOrderedField F]

/-- C15: `Renderer::CycleLightingMode` maps `ObservedArea` to `Radiance`, `Radiance` to
`BRDF`, `BRDF` to `Combined` and `Combined` to `ObservedArea`, changing nothing else;
from every mode four calls restore the renderer, and one, two or three calls leave a
mode different from the starting one. -/
theorem CycleLightingMode_round_robin (renderer : Renderer) (w h : Nat) (s : Bool) :
    CycleLightingMode ⟨w, h, LightingMode.ObservedArea, s⟩ = ⟨w, h, LightingMode.Radiance, s⟩
    ∧ CycleLightingMode ⟨w, h, LightingMode.Radiance, s⟩ = ⟨w, h, LightingMode.BRDF, s⟩
    ∧ CycleLightingMode ⟨w, h, LightingMode.BRDF, s⟩ = ⟨w, h, LightingMode.Combined, s⟩
    ∧ CycleLightingMode ⟨w, h, LightingMode.Combined, s⟩
        = ⟨w, h, LightingMode.ObservedArea, s⟩
    ∧ CycleLightingMode (CycleLightingMode (CycleLightingMode (CycleLightingMode renderer)))
        = renderer
    ∧ (CycleLightingMode renderer).m_CurrentLightingMode ≠ renderer.m_CurrentLightingMode
    ∧ (CycleLightingMode (CycleLightingMode renderer)).m_CurrentLightingMode
        ≠ renderer.m_CurrentLightingMode
    ∧ (CycleLightingMode (CycleLightingMode (CycleLightingMode renderer))).m_CurrentLightingMode
        ≠ renderer.m_CurrentLightingMode := by
  obtain ⟨rw, rh, mode, rs⟩ := renderer
  refine ⟨rfl, rfl, rfl, rfl, ?_, ?_, ?_, ?_⟩ <;> cases mode <;>
    simp [CycleLightingMode, nextLightingMode]

/-- C18: for a frame of width `W > 0` and height `H > 0` and a pixel index `i < W * H`,
`RenderPixel` computes `px = i mod W` and `py = i div W` with `px < W` and `py < H`, and
writes the buffer slot `px + py * W = i`, which lies inside the `W * H` buffer; two
different pixel indices below `W * H` never write the same slot. All these numbers are
below `W * H`, so they fit the `int` and `uint32_t` of the source whenever the pixel
count does. -/
theorem RenderPixel_slot_eq_index [FloorRing F] (sqrtf : F → F) (renderer : Renderer)
    (scene : Scene F) (fov aspectRatio : F) (camera : Camera F) (lights : List (Light F))
    (materials : List (Material F)) (i : Nat)
    (hW : 0 < renderer.m_Width) (_hH : 0 < renderer.m_Height)
    (hi : i < renderer.m_Width * renderer.m_Height) :
    pixelX renderer i = i % renderer.m_Width
    ∧ pixelY renderer i = i / renderer.m_Width
    ∧ pixelX renderer i < renderer.m_Width
    ∧ pixelY renderer i < renderer.m_Height
    ∧ pixelSlot renderer i = i
    ∧ (RenderPixel sqrtf renderer scene i fov aspectRatio camera lights materials).1 = i
    ∧ pixelSlot renderer i < renderer.m_Width * renderer.m_Height
    ∧ ∀ j : Nat, j < renderer.m_Width * renderer.m_Height → j ≠ i →
        pixelSlot renderer j ≠ pixelSlot renderer i := by
  have hslot : ∀ k : Nat, pixelSlot renderer k = k := by
    intro k
    simp only [pixelSlot, pixelX, pixelY]
    rw [Nat.mul_comm]
    exact Nat.mod_add_div k renderer.m_Width
  refine ⟨rfl, rfl, Nat.mod_lt i hW, ?_, hslot i, hslot i, ?_, ?_⟩
  · simp only [pixelY]
    exact Nat.div_lt_of_lt_mul hi
  · rw [hslot i]; exact hi
  · intro j _ hne
    rw [hslot i, hslot j]; exact hne

/-- Witness of C18: in a frame of `4 x 3` pixels the pixel with index 7 has `px = 3`,
`py = 1` and is written to slot 7. -/
theorem RenderPixel_slot_eq_index_witness :
    pixelX ⟨4, 3, LightingMode.Combined, true⟩ 7 = 3
    ∧ pixelY ⟨4, 3, LightingMode.Combined, true⟩ 7 = 1
    ∧ pixelSlot ⟨4, 3, LightingMode.Combined, true⟩ 7 = 7 :=
  ⟨by decide, by decide,
    (RenderPixel_slot_eq_index Rat.sqrt ⟨4, 3, LightingMode.Combined, true⟩
      ⟨[], [], [], [], [], []⟩ (1 : ℚ) (4 / 3) ⟨⟨0, 0, 0⟩, ⟨0, 0, 1⟩, ⟨0, 1, 0⟩, ⟨1, 0, 0⟩⟩
      [] [] 7 (by decide) (by decide) (by decide)).2.2.2.2.1⟩

/-- C16, as amended: for a channel value `v` in `[0, 1]` the 8-bit value that
`RenderPixel` writes is `floor(v * 255)`, the largest integer not above `v * 255`
(the fraction is dropped, not rounded); it is at most 255. -/
theorem channelByte_eq_floor [FloorRing F] (v : F) (h0 : 0 ≤ v) (h1 : v ≤ 1) :
    (channelByte v : Int) = Int.floor (v * 255)
    ∧ channelByte v ≤ 255
    ∧ (channelByte v : F) ≤ v * 255
    ∧ v * 255 < (channelByte v : F) + 1 := by
  have hx0 : 0 ≤ v * 255 := by positivity
  have hx1 : v * 255 ≤ 255 := by linarith
  have hf0 : 0 ≤ Int.floor (v * 255) := Int.floor_nonneg.mpr hx0
  have hf1 : Int.floor (v * 255) ≤ 255 := by
    have : Int.floor (v * 255) ≤ Int.floor (255 : F) := Int.floor_mono hx1
    simpa using this
  have hmod : Int.floor (v * 255) % 256 = Int.floor (v * 255) :=
    Int.emod_eq_of_lt hf0 (by omega)
  have hcast : (channelByte v : Int) = Int.floor (v * 255) := by
    simp only [channelByte, castToUInt8, hx0, if_true, hmod]
    exact Int.toNat_of_nonneg hf0
  have hF : (channelByte v : F) = ((Int.floor (v * 255) : Int) : F) := by
    rw [← hcast]; simp
  refine ⟨hcast, by omega, ?_, ?_⟩
  · rw [hF]; exact Int.floor_le _
  · rw [hF]; exact Int.lt_floor_add_one _

/-- Witness of C16 as amended: the channel value `0.5` is written as `127`. -/
theorem channelByte_eq_floor_witness : channelByte (1 / 2 : ℚ) = 127 := by
  have h := (channelByte_eq_floor (1 / 2 : ℚ) (by norm_num) (by norm_num)).1
  have hf : Int.floor ((1 / 2 : ℚ) * 255) = 127 := by
    rw [Int.floor_eq_iff]; norm_num
  rw [hf] at h
  exact_mod_cast h

/-- Counterexample to C16 as stated: the channel value `0.01` gives `v * 255 = 2.55`;
`RenderPixel` writes `2`, while `round(v * 255)` is `3`, which is strictly nearer to
`2.55` than `2` is. -/
theorem channelByte_ne_round :
    channelByte (1 / 100 : ℚ) = 2
    ∧ round ((1 / 100 : ℚ) * 255) = 3
    ∧ |(1 / 100 : ℚ) * 255 - 3| < |(1 / 100 : ℚ) * 255 - (channelByte (1 / 100 : ℚ) : ℚ)| := by
  have hf : Int.floor ((1 / 100 : ℚ) * 255) = 2 := by
    rw [Int.floor_eq_iff]; norm_num
  have hc : channelByte (1 / 100 : ℚ) = 2 := by
    have h0 : (0 : ℚ) ≤ 1 / 100 * 255 := by norm_num
    simp only [channelByte, castToUInt8, h0, if_true, hf]
    decide
  refine ⟨hc, ?_, ?_⟩
  · rw [round_eq, Int.floor_eq_iff]; norm_num
  · rw [hc]
    rw [abs_lt]
    constructor
    · rw [abs_of_nonneg (by norm_num)]; norm_num
    · rw [abs_of_nonneg (by norm_num)]; norm_num

/-- The range of the `k`-th task launched by the partition loop: it starts after `k`
tasks of `numPixelsPerTask` pixels, `min k numUnassignedPixels` of them one pixel
larger, and is one pixel larger itself when `k < numUnassignedPixels`. -/
theorem asyncTasks_getElem? (cores : Nat) :
    ∀ numPixelsPerTask numUnassignedPixels currPixelIndex k : Nat,
      (asyncTasks cores numPixelsPerTask numUnassignedPixels currPixelIndex)[k]?
        = if k < cores then
            some (currPixelIndex + k * numPixelsPerTask + min k numUnassignedPixels,
              currPixelIndex + k * numPixelsPerTask + min k numUnassignedPixels
                + (numPixelsPerTask + if k < numUnassignedPixels then 1 else 0))
          else none := by
  induction cores with
  | zero => intro per un cur k; simp [asyncTasks]
  | succ cores ih =>
    intro per un cur k
    cases k with
    | zero =>
      simp only [asyncTasks, List.getElem?_cons_zero, Nat.zero_lt_succ, if_true,
        Nat.zero_mul, Nat.zero_min, Nat.add_zero]
      split_ifs <;> rfl
    | succ k =>
      simp only [asyncTasks, List.getElem?_cons_succ, ih, Nat.succ_lt_succ_iff,
        Nat.succ_mul]
      by_cases hk : k < cores
      · simp only [hk, if_true, Option.some.injEq, Prod.mk.injEq]
        by_cases hun : un > 0
        · simp only [hun, if_true]
          have hmin : min (k + 1) un = min k (un - 1) + 1 := by omega
          have hlt : (k < un - 1) ↔ (k + 1 < un) := by omega
          simp only [hmin, hlt]
          constructor <;> omega
        · have hun0 : un = 0 := by omega
          subst hun0
          simp
          omega
      · simp [hk]

/-- The partition loop launches one task per pass. -/
theorem asyncTasks_length (cores : Nat) :
    ∀ numPixelsPerTask numUnassignedPixels currPixelIndex : Nat,
      (asyncTasks cores numPixelsPerTask numUnassignedPixels currPixelIndex).length
        = cores := by
  induction cores with
  | zero => intro per un cur; rfl
  | succ cores ih => intro per un cur; simp only [asyncTasks, List.length_cons, ih]

/-- The pixels rendered by the tasks of the partition loop, task after task, are the
consecutive indices from `currPixelIndex` on, as many as all tasks together hold. -/
theorem asyncTasks_pixels (cores : Nat) :
    ∀ numPixelsPerTask numUnassignedPixels currPixelIndex : Nat,
      ((asyncTasks cores numPixelsPerTask numUnassignedPixels currPixelIndex).map
          taskPixels).flatten
        = List.range' currPixelIndex
            (cores * numPixelsPerTask + min cores numUnassignedPixels) := by
  induction cores with
  | zero => intro per un cur; simp [asyncTasks]
  | succ cores ih =>
    intro per un cur
    simp only [asyncTasks, List.map_cons, List.flatten_cons, ih, taskPixels,
      Nat.add_sub_cancel_left]
    rw [List.range'_append_1]
    congr 1
    rw [Nat.succ_mul]
    by_cases hun : un > 0
    · simp only [hun, if_true]; omega
    · have hun0 : un = 0 := by omega
      subst hun0
      simp

/-- C17: for `numCores >= 1` workers the static (`ASYNC`) partition of
`Renderer::Render` launches `numCores` tasks; task `k` has
`numPixels / numCores + 1` pixels when `k < numPixels % numCores` and
`numPixels / numCores` otherwise; task 0 starts at 0 and every later task starts where
the one before ended; the range of an earlier task ends no later than a later one
starts, so the ranges are pairwise disjoint; and the pixels rendered, task after task,
are exactly `0, 1, ..., numPixels - 1`, so every pixel index below `numPixels` is
rendered exactly once and no other index is rendered. -/
theorem Render_asyncTasks_partition (numPixels numCores : Nat) (hc : 1 ≤ numCores) :
    (Render_asyncTasks numPixels numCores).length = numCores
    ∧ (∀ k : Nat, k < numCores → ∃ start : Nat,
        (Render_asyncTasks numPixels numCores)[k]?
          = some (start, start
              + (numPixels / numCores + if k < numPixels % numCores then 1 else 0)))
    ∧ (∀ s e : Nat, (Render_asyncTasks numPixels numCores)[0]? = some (s, e) → s = 0)
    ∧ (∀ k s e s' e' : Nat, (Render_asyncTasks numPixels numCores)[k]? = some (s, e) →
        (Render_asyncTasks numPixels numCores)[k + 1]? = some (s', e') → s' = e)
    ∧ (∀ j k s e s' e' : Nat, j < k →
        (Render_asyncTasks numPixels numCores)[j]? = some (s, e) →
        (Render_asyncTasks numPixels numCores)[k]? = some (s', e') → e ≤ s')
    ∧ ((Render_asyncTasks numPixels numCores).map taskPixels).flatten
        = List.range numPixels
    ∧ (∀ i : Nat,
        List.count i (((Render_asyncTasks numPixels numCores).map taskPixels).flatten)
          = if i < numPixels then 1 else 0) := by
  have hget := asyncTasks_getElem? numCores (numPixels / numCores) (numPixels % numCores) 0
  have hflat : ((Render_asyncTasks numPixels numCores).map taskPixels).flatten
      = List.range numPixels := by
    have hlt : numPixels % numCores < numCores := Nat.mod_lt _ (by omega)
    have hsum : numCores * (numPixels / numCores) + min numCores (numPixels % numCores)
        = numPixels := by
      rw [Nat.min_eq_right (le_of_lt hlt)]
      exact Nat.div_add_mod numPixels numCores
    rw [Render_asyncTasks, asyncTasks_pixels, hsum, List.range_eq_range']
  have hstart : ∀ j k : Nat, j < k →
      j * (numPixels / numCores) + min j (numPixels % numCores)
        + (numPixels / numCores + if j < numPixels % numCores then 1 else 0)
      ≤ k * (numPixels / numCores) + min k (numPixels % numCores) := by
    intro j k hjk
    have hmul : (j + 1) * (numPixels / numCores) ≤ k * (numPixels / numCores) :=
      Nat.mul_le_mul_right _ hjk
    rw [Nat.succ_mul] at hmul
    split_ifs <;> omega
  refine ⟨?_, ?_, ?_, ?_, ?_, hflat, ?_⟩
  · exact asyncTasks_length numCores _ _ _
  · intro k hk
    refine ⟨0 + k * (numPixels / numCores) + min k (numPixels % numCores), ?_⟩
    rw [Render_asyncTasks, hget k, if_pos hk]
  · intro s e h
    rw [Render_asyncTasks, hget 0, if_pos (by omega)] at h
    simp only [Nat.zero_mul, Nat.zero_min, Nat.add_zero, Option.some.injEq,
      Prod.mk.injEq] at h
    exact h.1.symm
  · intro k s e s' e' h h'
    rw [Render_asyncTasks, hget k] at h
    rw [Render_asyncTasks, hget (k + 1)] at h'
    by_cases hk' : k + 1 < numCores
    · rw [if_pos hk'] at h'
      rw [if_pos (by omega)] at h
      simp only [Option.some.injEq, Prod.mk.injEq] at h h'
      obtain ⟨_, he⟩ := h
      obtain ⟨hs', _⟩ := h'
      rw [← hs', ← he, Nat.succ_mul]
      split_ifs <;> omega
    · rw [if_neg hk'] at h'
      exact absurd h' (by simp)
  · intro j k s e s' e' hjk h h'
    rw [Render_asyncTasks, hget j] at h
    rw [Render_asyncTasks, hget k] at h'
    by_cases hk : k < numCores
    · rw [if_pos hk] at h'
      rw [if_pos (by omega)] at h
      simp only [Option.some.injEq, Prod.mk.injEq] at h h'
      obtain ⟨_, he⟩ := h
      obtain ⟨hs', _⟩ := h'
      rw [← hs', ← he]
      have := hstart j k hjk
      omega
    · rw [if_neg hk] at h'
      exact absurd h' (by simp)
  · intro i
    rw [hflat]
    split_ifs with hi
    · exact List.count_eq_one_of_mem (List.nodup_range numPixels) (List.mem_range.mpr hi)
    · exact List.count_eq_zero_of_not_mem (by simpa using hi)

/-- Witness of C17: 10 pixels on 4 workers give the ranges `[0,3)`, `[3,6)`, `[6,8)`,
`[8,10)`, which together hold the indices `0..9` once each. -/
theorem Render_asyncTasks_partition_witness :
    Render_asyncTasks 10 4 = [(0, 3), (3, 6), (6, 8), (8, 10)]
    ∧ ((Render_asyncTasks 10 4).map taskPixels).flatten = List.range 10 :=
  ⟨by decide, (Render_asyncTasks_partition 10 4 (by decide)).2.2.2.2.2.1⟩

/-- The light loop of `RenderPixel` adds, in the order of the lights, the terms of the
lights that pass the test of line 137. -/
theorem foldl_shadeLight (sqrtf : F → F) (renderer : Renderer) (scene : Scene F)
    (material : Material F) (viewRay : Ray F) (closestHit : HitRecord F)
    (lights : List (Light F)) :
    ∀ finalColor : ColorRGB F,
      lights.foldl (shadeLight sqrtf renderer scene material viewRay closestHit) finalColor
        = ((lights.filter (fun light =>
              decide (0 ≤ observedArea sqrtf light closestHit)
                && !(renderer.m_ShadowsActive
                      && Scene.DoesHit sqrtf scene (rayToLight sqrtf light closestHit)))).map
            (lightTerm sqrtf renderer material viewRay closestHit)).foldl
            (fun sum term => sum + term) finalColor := by
  induction lights with
  | nil => intro finalColor; rfl
  | cons light rest ih =>
    intro finalColor
    simp only [List.foldl_cons, List.filter_cons]
    by_cases h1 : 0 ≤ observedArea sqrtf light closestHit
    · cases h2 : renderer.m_ShadowsActive
      · simp [shadeLight, h1, h2, ih]
      · cases h3 : Scene.DoesHit sqrtf scene (rayToLight sqrtf light closestHit)
        · simp [shadeLight, h1, h2, h3, ih]
        · simp [shadeLight, h1, h2, h3, ih]
    · simp [shadeLight, h1, ih]

/-- On rationals `Rat.sqrt` returns `a` for the square of a non-negative `a`. -/
theorem sqrt_of_eq_mul_self (x a : ℚ) (ha : 0 ≤ a) (hx : x = a * a) : Rat.sqrt x = a := by
  rw [hx, Rat.sqrt_eq, abs_of_nonneg ha]

/-- The light `lightInFront` lies at distance 4 from the point of `frontHit`. -/
theorem distanceToLight_lightInFront :
    distanceToLight Rat.sqrt lightInFront frontHit = 4 := by
  simp only [distanceToLight, GetDirectionToLight, lightInFront, frontHit,
    Vector3.Magnitude, Vector3.Dot, Vector3.mk_sub_mk]
  exact sqrt_of_eq_mul_self _ 4 (by norm_num) (by norm_num)

/-- The unit direction from the point of `frontHit` to `lightInFront` is `(0,0,-1)`. -/
theorem directionToLight_lightInFront :
    directionToLight Rat.sqrt lightInFront frontHit = ⟨0, 0, -1⟩ := by
  have h := distanceToLight_lightInFront
  simp only [distanceToLight] at h
  simp only [directionToLight, Vector3.Normalized, h]
  simp only [GetDirectionToLight, lightInFront, frontHit, Vector3.mk_sub_mk]
  norm_num

/-- The shadow ray from `frontHit` to `lightInFront`. -/
theorem rayToLight_lightInFront :
    rayToLight Rat.sqrt lightInFront frontHit = ⟨⟨0, 0, 5⟩, ⟨0, 0, -1⟩, 1 / 10000, 4⟩ := by
  simp only [rayToLight, directionToLight_lightInFront, distanceToLight_lightInFront]
  rfl

/-- The light `lightInFront` is seen from `frontHit` under `observedArea = 1`. -/
theorem observedArea_lightInFront :
    observedArea Rat.sqrt lightInFront frontHit = 1 := by
  simp only [observedArea, directionToLight_lightInFront]
  norm_num [frontHit, Vector3.Dot]

/-- The light `lightBehind` is seen from `frontHit` under `observedArea = -1`. -/
theorem observedArea_lightBehind :
    observedArea Rat.sqrt lightBehind frontHit = -1 := by
  have h : Vector3.Magnitude Rat.sqrt
      (GetDirectionToLight lightBehind frontHit.origin) = 4 := by
    simp only [GetDirectionToLight, lightBehind, frontHit, Vector3.Magnitude, Vector3.Dot,
      Vector3.mk_sub_mk]
    exact sqrt_of_eq_mul_self _ 4 (by norm_num) (by norm_num)
  simp only [observedArea, directionToLight, Vector3.Normalized, h]
  simp only [GetDirectionToLight, lightBehind, frontHit, Vector3.mk_sub_mk, Vector3.Dot]
  norm_num

/-- The light `lightGrazing` is seen from `frontHit` under `observedArea = 0`. -/
theorem observedArea_lightGrazing :
    observedArea Rat.sqrt lightGrazing frontHit = 0 := by
  have h : Vector3.Magnitude Rat.sqrt
      (GetDirectionToLight lightGrazing frontHit.origin) = 4 := by
    simp only [GetDirectionToLight, lightGrazing, frontHit, Vector3.Magnitude, Vector3.Dot,
      Vector3.mk_sub_mk]
    exact sqrt_of_eq_mul_self _ 4 (by norm_num) (by norm_num)
  simp only [observedArea, directionToLight, Vector3.Normalized, h]
  simp only [GetDirectionToLight, lightGrazing, frontHit, Vector3.mk_sub_mk, Vector3.Dot]
  norm_num

/-- The shadow ray from `frontHit` to `lightInFront` is blocked in `occludedScene`. -/
theorem DoesHit_occludedScene :
    Scene.DoesHit Rat.sqrt occludedScene (rayToLight Rat.sqrt lightInFront frontHit)
      = true := by
  rw [rayToLight_lightInFront]
  simp [Scene.DoesHit, Scene.returnsTrue, occludedScene, HitTest_Plane_AnyHit, HitTest_Plane,
    Vector3.Dot]
  norm_num

/-- C13: for a hit and a light whose shadow ray `Scene::DoesHit` reports occluded: with
shadows enabled the pass for that light leaves `finalColor` unchanged, in every lighting
mode; with shadows disabled and `observedArea >= 0` it adds the term of the lighting
mode, and the result is the same for every scene, so it does not depend on the
occlusion result. -/
theorem shadeLight_occluded (sqrtf : F → F) (renderer : Renderer) (scene : Scene F)
    (material : Material F) (viewRay : Ray F) (closestHit : HitRecord F)
    (finalColor : ColorRGB F) (light : Light F)
    (hocc : Scene.DoesHit sqrtf scene (rayToLight sqrtf light closestHit) = true) :
    (renderer.m_ShadowsActive = true →
      shadeLight sqrtf renderer scene material viewRay closestHit finalColor light
        = finalColor)
    ∧ (renderer.m_ShadowsActive = false → 0 ≤ observedArea sqrtf light closestHit →
      shadeLight sqrtf renderer scene material viewRay closestHit finalColor light
          = finalColor + lightTerm sqrtf renderer material viewRay closestHit light
        ∧ ∀ scene' : Scene F,
            shadeLight sqrtf renderer scene' material viewRay closestHit finalColor light
              = shadeLight sqrtf renderer scene material viewRay closestHit finalColor
                  light) := by
  constructor
  · intro hs
    simp [shadeLight, hs, hocc]
  · intro hs hoa
    constructor
    · simp [shadeLight, hs, hoa]
    · intro scene'
      simp [shadeLight, hs, hoa]

/-- Witness of C13: in `occludedScene` the plane `z = 3` blocks the shadow ray from
`frontHit` to `lightInFront`; with shadows enabled the pass for that light leaves the
colour `(0.5, 0.5, 0.5)` unchanged. -/
theorem shadeLight_occluded_witness :
    shadeLight Rat.sqrt ⟨1, 1, LightingMode.Combined, true⟩ occludedScene
      ⟨fun _ _ _ => ⟨1, 1, 1⟩⟩ ⟨⟨0, 0, 0⟩, ⟨0, 0, 1⟩, 1 / 10000, FLT_MAX⟩ frontHit
      ⟨1 / 2, 1 / 2, 1 / 2⟩ lightInFront = ⟨1 / 2, 1 / 2, 1 / 2⟩ :=
  (shadeLight_occluded Rat.sqrt ⟨1, 1, LightingMode.Combined, true⟩ occludedScene
    ⟨fun _ _ _ => ⟨1, 1, 1⟩⟩ ⟨⟨0, 0, 0⟩, ⟨0, 0, 1⟩, 1 / 10000, FLT_MAX⟩ frontHit
    ⟨1 / 2, 1 / 2, 1 / 2⟩ lightInFront DoesHit_occludedScene).1 rfl

/-- C14: a light with `observedArea < 0` leaves `finalColor` unchanged, in every
lighting mode and whether shadows are enabled or not; a light with `observedArea = 0`
is not skipped by that test: unless shadows are enabled and its shadow ray is occluded,
the term of the lighting mode is added for it. -/
theorem shadeLight_observedArea (sqrtf : F → F) (renderer : Renderer) (scene : Scene F)
    (material : Material F) (viewRay : Ray F) (closestHit : HitRecord F)
    (finalColor : ColorRGB F) (light : Light F) :
    (observedArea sqrtf light closestHit < 0 →
      shadeLight sqrtf renderer scene material viewRay closestHit finalColor light
        = finalColor)
    ∧ (observedArea sqrtf light closestHit = 0 →
      ¬ (renderer.m_ShadowsActive = true
          ∧ Scene.DoesHit sqrtf scene (rayToLight sqrtf light closestHit) = true) →
      shadeLight sqrtf renderer scene material viewRay closestHit finalColor light
        = finalColor + lightTerm sqrtf renderer material viewRay closestHit light) := by
  constructor
  · intro h
    have hn : ¬ 0 ≤ observedArea sqrtf light closestHit := not_le.mpr h
    simp [shadeLight, hn]
  · intro h hsh
    cases hs : renderer.m_ShadowsActive
    · simp [shadeLight, h, hs]
    · cases hd : Scene.DoesHit sqrtf scene (rayToLight sqrtf light closestHit)
      · simp [shadeLight, h, hs, hd]
      · exact absurd ⟨hs, hd⟩ hsh

/-- Witness of C14: `lightBehind` has `observedArea = -1` at `frontHit` and leaves the
colour `(0.5, 0.5, 0.5)` unchanged with shadows disabled; `lightGrazing` has
`observedArea = 0` and, in `Radiance` mode, its term is added. -/
theorem shadeLight_observedArea_witness :
    shadeLight Rat.sqrt ⟨1, 1, LightingMode.Radiance, false⟩ wallScene
      ⟨fun _ _ _ => ⟨1, 1, 1⟩⟩ ⟨⟨0, 0, 0⟩, ⟨0, 0, 1⟩, 1 / 10000, FLT_MAX⟩ frontHit
      ⟨1 / 2, 1 / 2, 1 / 2⟩ lightBehind = ⟨1 / 2, 1 / 2, 1 / 2⟩
    ∧ shadeLight Rat.sqrt ⟨1, 1, LightingMode.Radiance, false⟩ wallScene
      ⟨fun _ _ _ => ⟨1, 1, 1⟩⟩ ⟨⟨0, 0, 0⟩, ⟨0, 0, 1⟩, 1 / 10000, FLT_MAX⟩ frontHit
      ⟨1 / 2, 1 / 2, 1 / 2⟩ lightGrazing
      = ⟨1 / 2, 1 / 2, 1 / 2⟩ + GetRadiance lightGrazing frontHit.origin :=
  ⟨(shadeLight_observedArea Rat.sqrt ⟨1, 1, LightingMode.Radiance, false⟩ wallScene
      ⟨fun _ _ _ => ⟨1, 1, 1⟩⟩ ⟨⟨0, 0, 0⟩, ⟨0, 0, 1⟩, 1 / 10000, FLT_MAX⟩ frontHit
      ⟨1 / 2, 1 / 2, 1 / 2⟩ lightBehind).1 (by rw [observedArea_lightBehind]; norm_num),
    (shadeLight_observedArea Rat.sqrt ⟨1, 1, LightingMode.Radiance, false⟩ wallScene
      ⟨fun _ _ _ => ⟨1, 1, 1⟩⟩ ⟨⟨0, 0, 0⟩, ⟨0, 0, 1⟩, 1 / 10000, FLT_MAX⟩ frontHit
      ⟨1 / 2, 1 / 2, 1 / 2⟩ lightGrazing).2 observedArea_lightGrazing
      (by intro h; exact Bool.false_ne_true h.1)⟩

/-- C20, as amended: the shadow ray that `RenderPixel` builds for a hit and a light has
`min = 0.0001` and `max = mag`, the length of the vector from the hit point to the light
(for a point light with an exact `sqrtf`, the distance `D` between them); it satisfies
`min < max` exactly when that length is greater than `0.0001`. -/
theorem rayToLight_min_lt_max_iff (sqrtf : F → F) (light : Light F)
    (closestHit : HitRecord F) :
    (rayToLight sqrtf light closestHit).min = 1 / 10000
    ∧ (rayToLight sqrtf light closestHit).max = distanceToLight sqrtf light closestHit
    ∧ ((rayToLight sqrtf light closestHit).min < (rayToLight sqrtf light closestHit).max
        ↔ 1 / 10000 < distanceToLight sqrtf light closestHit)
    ∧ (∀ D : F, light.type = LightType.Point → 0 ≤ D →
        D * D = Vector3.Dot (light.origin - closestHit.origin)
          (light.origin - closestHit.origin) →
        (0 ≤ sqrtf (D * D) ∧ sqrtf (D * D) * sqrtf (D * D) = D * D) →
        ((rayToLight sqrtf light closestHit).min < (rayToLight sqrtf light closestHit).max
          ↔ 1 / 10000 < D)) := by
  refine ⟨rfl, rfl, Iff.rfl, ?_⟩
  intro D hP hD hDD hsq
  have hmag : distanceToLight sqrtf light closestHit = D := by
    simp only [distanceToLight, GetDirectionToLight, hP, Vector3.Magnitude, ← hDD]
    obtain ⟨h0, hss⟩ := hsq
    have hprod : (sqrtf (D * D) - D) * (sqrtf (D * D) + D) = 0 := by
      linear_combination hss
    rcases mul_eq_zero.mp hprod with h | h
    · linarith
    · have hz : D = 0 := by linarith
      have hs0 : sqrtf (D * D) = 0 := by linarith
      rw [hs0, hz]
  show (1 / 10000 : F) < distanceToLight sqrtf light closestHit ↔ 1 / 10000 < D
  rw [hmag]

/-- Witness of C20 as amended: `lightInFront` lies at distance 4 from the point of
`frontHit`, and the shadow ray has `min = 0.0001 < 4 = max`. -/
theorem rayToLight_min_lt_max_iff_witness :
    (rayToLight Rat.sqrt lightInFront frontHit).min
      < (rayToLight Rat.sqrt lightInFront frontHit).max :=
  ((rayToLight_min_lt_max_iff Rat.sqrt lightInFront frontHit).2.2.2 4 rfl (by norm_num)
    (by norm_num [lightInFront, frontHit, Vector3.Dot])
    (by rw [Rat.sqrt_eq]; norm_num)).mpr (by norm_num)

/-- Counterexample to C20 as stated: `lightTooClose` lies at distance `0.00005` from
the point of `frontHit`; the shadow ray built for it has
`max = 0.00005 < 0.0001 = min`. -/
theorem rayToLight_min_not_lt_max :
    (rayToLight Rat.sqrt lightTooClose frontHit).min = 1 / 10000
    ∧ (rayToLight Rat.sqrt lightTooClose frontHit).max = 1 / 20000
    ∧ ¬ ((rayToLight Rat.sqrt lightTooClose frontHit).min
          < (rayToLight Rat.sqrt lightTooClose frontHit).max) := by
  have hmax : (rayToLight Rat.sqrt lightTooClose frontHit).max = 1 / 20000 := by
    simp only [rayToLight, distanceToLight, GetDirectionToLight, lightTooClose, frontHit,
      Vector3.Magnitude, Vector3.Dot, Vector3.mk_sub_mk]
    exact sqrt_of_eq_mul_self _ (1 / 20000) (by norm_num) (by norm_num)
  have hmin : (rayToLight Rat.sqrt lightTooClose frontHit).min = 1 / 10000 := rfl
  refine ⟨hmin, hmax, ?_⟩
  rw [hmin, hmax]
  norm_num

/-- C12: when the closest hit of the pixel exists, the colour that `RenderPixel`
accumulates before clamping is the sum, in the order of the lights and starting from
`(0,0,0)`, over exactly the lights with `observedArea >= 0` that the shadow test does
not skip (shadows enabled and shadow ray occluded), of the term of the lighting mode:
`(observedArea, observedArea, observedArea)` in `ObservedArea` mode, the light's
radiance in `Radiance` mode, the material's
`Shade(hit, directionToLight, -viewRay.direction)` in `BRDF` mode and
`radiance * observedArea * BRDF` in `Combined` mode; when there is no closest hit the
accumulated colour is `(0,0,0)`. -/
theorem RenderPixel_finalColor_eq_sum (sqrtf : F → F) (renderer : Renderer)
    (scene : Scene F) (pixelIndex : Nat) (fov aspectRatio : F) (camera : Camera F)
    (lights : List (Light F)) (materials : List (Material F)) :
    ((RenderPixel_closestHit sqrtf renderer scene pixelIndex fov aspectRatio
        camera).didHit = true →
      RenderPixel_finalColor sqrtf renderer scene pixelIndex fov aspectRatio camera lights
          materials
        = ((lights.filter (fun light =>
              decide (0 ≤ observedArea sqrtf light
                (RenderPixel_closestHit sqrtf renderer scene pixelIndex fov aspectRatio
                  camera))
              && !(renderer.m_ShadowsActive
                    && Scene.DoesHit sqrtf scene (rayToLight sqrtf light
                        (RenderPixel_closestHit sqrtf renderer scene pixelIndex fov
                          aspectRatio camera))))).map
            (fun light =>
              match renderer.m_CurrentLightingMode with
              | LightingMode.ObservedArea =>
                (⟨observedArea sqrtf light
                    (RenderPixel_closestHit sqrtf renderer scene pixelIndex fov aspectRatio
                      camera),
                  observedArea sqrtf light
                    (RenderPixel_closestHit sqrtf renderer scene pixelIndex fov aspectRatio
                      camera),
                  observedArea sqrtf light
                    (RenderPixel_closestHit sqrtf renderer scene pixelIndex fov aspectRatio
                      camera)⟩ : ColorRGB F)
              | LightingMode.Radiance =>
                GetRadiance light
                  (RenderPixel_closestHit sqrtf renderer scene pixelIndex fov aspectRatio
                    camera).origin
              | LightingMode.BRDF =>
                (materialAt materials
                  (RenderPixel_closestHit sqrtf renderer scene pixelIndex fov aspectRatio
                    camera).materialIndex).Shade
                  (RenderPixel_closestHit sqrtf renderer scene pixelIndex fov aspectRatio
                    camera)
                  (directionToLight sqrtf light
                    (RenderPixel_closestHit sqrtf renderer scene pixelIndex fov aspectRatio
                      camera))
                  (-(viewRay sqrtf renderer pixelIndex fov aspectRatio camera).direction)
              | LightingMode.Combined =>
                ColorRGB.times
                  (ColorRGB.timesScalar
                    (GetRadiance light
                      (RenderPixel_closestHit sqrtf renderer scene pixelIndex fov
                        aspectRatio camera).origin)
                    (observedArea sqrtf light
                      (RenderPixel_closestHit sqrtf renderer scene pixelIndex fov
                        aspectRatio camera)))
                  ((materialAt materials
                    (RenderPixel_closestHit sqrtf renderer scene pixelIndex fov aspectRatio
                      camera).materialIndex).Shade
                    (RenderPixel_closestHit sqrtf renderer scene pixelIndex fov aspectRatio
                      camera)
                    (directionToLight sqrtf light
                      (RenderPixel_closestHit sqrtf renderer scene pixelIndex fov
                        aspectRatio camera))
                    (-(viewRay sqrtf renderer pixelIndex fov aspectRatio
                        camera).direction)))).foldl
            (fun sum term => sum + term) ⟨0, 0, 0⟩)
    ∧ ((RenderPixel_closestHit sqrtf renderer scene pixelIndex fov aspectRatio
        camera).didHit = false →
      RenderPixel_finalColor sqrtf renderer scene pixelIndex fov aspectRatio camera lights
          materials = ⟨0, 0, 0⟩) := by
  constructor
  · intro hhit
    simp only [RenderPixel_finalColor, hhit, if_true]
    rw [foldl_shadeLight]
    have hzero : (0 : ColorRGB F) = ⟨0, 0, 0⟩ := rfl
    rw [hzero]
    congr 2
    funext light
    cases hm : renderer.m_CurrentLightingMode <;>
      simp only [lightTerm, hm, ColorRGB.timesScalar, one_mul]
  · intro hmiss
    simp only [RenderPixel_finalColor, hmiss]
    rfl

/-- The sum of two colours given by their channels. -/
theorem ColorRGB_mk_add_mk (a b c d e f : F) :
    (⟨a, b, c⟩ + ⟨d, e, f⟩ : ColorRGB F) = ⟨a + d, b + e, c + f⟩ := rfl

/-- The view ray of the only pixel of a `1 x 1` frame, for `cameraAtOrigin`, runs from
the origin along `+Z`. -/
theorem viewRay_single_pixel :
    viewRay Rat.sqrt ⟨1, 1, LightingMode.Radiance, false⟩ 0 1 1 cameraAtOrigin
      = ⟨⟨0, 0, 0⟩, ⟨0, 0, 1⟩, 1 / 10000, FLT_MAX⟩ := by
  have h1 : Rat.sqrt 1 = 1 := by simp
  simp only [viewRay, pixelX, pixelY, cameraAtOrigin, Vector3.scale_mk, Vector3.mk_add_mk,
    Vector3.Normalized, Vector3.Magnitude, Vector3.Dot]
  norm_num [h1]

/-- The closest hit of that pixel in `wallScene` is `frontHit`. -/
theorem RenderPixel_closestHit_wallScene :
    RenderPixel_closestHit Rat.sqrt ⟨1, 1, LightingMode.Radiance, false⟩ wallScene 0 1 1
      cameraAtOrigin = frontHit := by
  simp only [RenderPixel_closestHit, viewRay_single_pixel]
  simp [Scene.GetClosestHit, wallScene, Scene.keepCloser, HitTest_Plane, Vector3.Dot,
    HitRecord.fresh, frontHit, FLT_MAX]
  norm_num

/-- Witness of C12: the only pixel of a `1 x 1` frame sees `frontHit` on the wall of
`wallScene`; in `Radiance` mode with shadows disabled the light `lightInFront`, at
distance 4 with intensity 16, contributes its radiance `(1, 1, 1)`, which is the
accumulated colour. -/
theorem RenderPixel_finalColor_eq_sum_witness :
    RenderPixel_finalColor Rat.sqrt ⟨1, 1, LightingMode.Radiance, false⟩ wallScene 0 1 1
      cameraAtOrigin [lightInFront] wallScene.m_Materials = ⟨1, 1, 1⟩ := by
  have h := (RenderPixel_finalColor_eq_sum Rat.sqrt ⟨1, 1, LightingMode.Radiance, false⟩
    wallScene 0 1 1 cameraAtOrigin [lightInFront] wallScene.m_Materials).1
    (by rw [RenderPixel_closestHit_wallScene]; rfl)
  rw [h, RenderPixel_closestHit_wallScene]
  simp only [List.filter_cons, List.filter_nil, observedArea_lightInFront]
  norm_num [GetRadiance, lightInFront, frontHit, Vector3.SqrMagnitude, Vector3.Dot,
    ColorRGB.timesScalar, ColorRGB_mk_add_mk]

end Renderer

/-! ## Hit points of the primitives -/

namespace GeometryUtils

variable {F : Type} [LinearOrderedField F]

/-- C22: `HitTest_Plane` (closest-hit form) returns true exactly when
`dot(direction, normal) < 0` and
`t = dot(plane.origin - ray.origin, normal) / dot(direction, normal)` satisfies
`ray.min <= t <= ray.max`; on a hit the record holds that `t`, the plane's normal and
`materialIndex`, `didHit = true` and the hit point `p = ray.origin + t * direction`,
which lies on the plane: `dot(p - plane.origin, normal) = 0`. -/
theorem HitTest_Plane_iff_and_on_plane (plane : Plane F) (ray : Ray F)
    (hitRecord : HitRecord F) (ignoreHitRecord : Bool) :
    ((HitTest_Plane plane ray hitRecord ignoreHitRecord).1 = true
      ↔ Vector3.Dot ray.direction plane.normal < 0
        ∧ ray.min ≤ Vector3.Dot (plane.origin - ray.origin) plane.normal
            / Vector3.Dot ray.direction plane.normal
        ∧ Vector3.Dot (plane.origin - ray.origin) plane.normal
            / Vector3.Dot ray.direction plane.normal ≤ ray.max)
    ∧ ((HitTest_Plane plane ray hitRecord ignoreHitRecord).1 = true →
        (HitTest_Plane plane ray hitRecord ignoreHitRecord).2.t
          = ((Vector3.Dot (plane.origin - ray.origin) plane.normal
              / Vector3.Dot ray.direction plane.normal : F) : WithTop F)
        ∧ (HitTest_Plane plane ray hitRecord ignoreHitRecord).2.normal = plane.normal
        ∧ (HitTest_Plane plane ray hitRecord ignoreHitRecord).2.materialIndex
            = plane.materialIndex
        ∧ (HitTest_Plane plane ray hitRecord ignoreHitRecord).2.didHit = true
        ∧ (HitTest_Plane plane ray hitRecord ignoreHitRecord).2.origin
            = ray.origin + Vector3.scale
                (Vector3.Dot (plane.origin - ray.origin) plane.normal
                  / Vector3.Dot ray.direction plane.normal) ray.direction
        ∧ Vector3.Dot
            ((HitTest_Plane plane ray hitRecord ignoreHitRecord).2.origin - plane.origin)
            plane.normal = 0) := by
  by_cases hd : Vector3.Dot ray.direction plane.normal < 0
  · by_cases ht : ray.min ≤ Vector3.Dot (plane.origin - ray.origin) plane.normal
        / Vector3.Dot ray.direction plane.normal
      ∧ Vector3.Dot (plane.origin - ray.origin) plane.normal
        / Vector3.Dot ray.direction plane.normal ≤ ray.max
    · have hne : Vector3.Dot ray.direction plane.normal ≠ 0 := ne_of_lt hd
      simp only [HitTest_Plane, hd, ht, and_self, if_true, true_iff, true_and,
        forall_true_left]
      simp only [Vector3.Dot, Vector3.sub_x, Vector3.sub_y, Vector3.sub_z, Vector3.add_x,
        Vector3.add_y, Vector3.add_z, Vector3.scale_x, Vector3.scale_y, Vector3.scale_z]
        at hne ⊢
      field_simp
      ring
    · simp [HitTest_Plane, hd, ht]
  · simp [HitTest_Plane, hd]

/-- Witness of C22: the ray from `(0.25, 0.25, 5)` along `-Z` hits the plane `z = 0`
(normal `+Z`, material 1) at `t = 5`, in the point `(0.25, 0.25, 0)` of the plane. -/
theorem HitTest_Plane_iff_and_on_plane_witness :
    (HitTest_Plane (⟨⟨0, 0, 0⟩, ⟨0, 0, 1⟩, 1⟩ : Plane ℚ)
        ⟨⟨1 / 4, 1 / 4, 5⟩, ⟨0, 0, -1⟩, 1 / 10000, 1000⟩ HitRecord.fresh false).1 = true
    ∧ Vector3.Dot
        ((HitTest_Plane (⟨⟨0, 0, 0⟩, ⟨0, 0, 1⟩, 1⟩ : Plane ℚ)
          ⟨⟨1 / 4, 1 / 4, 5⟩, ⟨0, 0, -1⟩, 1 / 10000, 1000⟩ HitRecord.fresh false).2.origin
          - ⟨0, 0, 0⟩)
        ⟨0, 0, 1⟩ = 0 := by
  have T := HitTest_Plane_iff_and_on_plane (⟨⟨0, 0, 0⟩, ⟨0, 0, 1⟩, 1⟩ : Plane ℚ)
    ⟨⟨1 / 4, 1 / 4, 5⟩, ⟨0, 0, -1⟩, 1 / 10000, 1000⟩ HitRecord.fresh false
  have hhit : (HitTest_Plane (⟨⟨0, 0, 0⟩, ⟨0, 0, 1⟩, 1⟩ : Plane ℚ)
      ⟨⟨1 / 4, 1 / 4, 5⟩, ⟨0, 0, -1⟩, 1 / 10000, 1000⟩ HitRecord.fresh false).1 = true := by
    rw [T.1]; norm_num [Vector3.Dot]
  exact ⟨hhit, (T.2 hhit).2.2.2.2.2⟩

/-- When `HitTest_Triangle` returns true, the facing value `a` is not zero, the
barycentric coordinates satisfy `0 <= u <= 1`, `0 <= v`, `u + v <= 1`, and
`ray.min < t < ray.max`. -/
theorem HitTest_Triangle_true_facts (triangle : Triangle F) (ray : Ray F)
    (hitRecord : HitRecord F) (ignoreHitRecord : Bool)
    (h : (HitTest_Triangle triangle ray hitRecord ignoreHitRecord).1 = true) :
    triA triangle ray ≠ 0
    ∧ 0 ≤ triU triangle ray ∧ triU triangle ray ≤ 1
    ∧ 0 ≤ triV triangle ray ∧ triU triangle ray + triV triangle ray ≤ 1
    ∧ ray.min < triT triangle ray ∧ triT triangle ray < ray.max := by
  have heps : (0 : F) < FLT_EPSILON := by norm_num [FLT_EPSILON]
  have hin : (HitTest_Triangle_inside triangle ray hitRecord ignoreHitRecord).1 = true
      ∧ triA triangle ray ≠ 0 := by
    revert h
    simp only [HitTest_Triangle]
    split_ifs with h1 h2 h3 h4
    · intro h; exact h.elim
    · intro h; exact ⟨h, ne_of_lt (by linarith)⟩
    · intro h; exact h.elim
    · intro h; exact ⟨h, ne_of_gt (by linarith)⟩
    · intro h; exact h.elim
  obtain ⟨hin, ha⟩ := hin
  revert hin
  simp only [HitTest_Triangle_inside]
  split_ifs with h1 h2 h3 h4
  · intro h; exact h.elim
  · intro h; exact h.elim
  · intro _
    rw [not_or, not_lt, not_lt] at h1 h2
    exact ⟨ha, h1.1, h1.2, h2.1, h2.2, h3.1, h3.2⟩
  · intro _
    rw [not_or, not_lt, not_lt] at h1 h2
    exact ⟨ha, h1.1, h1.2, h2.1, h2.2, h3.1, h3.2⟩
  · intro h; exact h.elim

/-- The identity behind the triangle test: when the facing value `a` is not zero, the
point `ray.origin + t * ray.direction` is the point of the triangle's plane with
barycentric coordinates `u`, `v`: `(1 - u - v) * v0 + u * v1 + v * v2`. -/
theorem triangle_point_eq_barycentric (triangle : Triangle F) (ray : Ray F)
    (ha : triA triangle ray ≠ 0) :
    ray.origin + Vector3.scale (triT triangle ray) ray.direction
      = Vector3.scale (1 - triU triangle ray - triV triangle ray) triangle.v0
        + Vector3.scale (triU triangle ray) triangle.v1
        + Vector3.scale (triV triangle ray) triangle.v2 := by
  obtain ⟨⟨ox, oy, oz⟩, ⟨dx, dy, dz⟩, rmin, rmax⟩ := ray
  obtain ⟨⟨ax, ay, az⟩, ⟨bx, b_y, bz⟩, ⟨cx, cy, cz⟩, n, cull, mat⟩ := triangle
  simp only [triA, triEdge1, triEdge2, triH, triF, triS, triU, triQ, triV, triT,
    Vector3.Cross, Vector3.Dot, Vector3.mk_sub_mk, Vector3.mk_add_mk, Vector3.scale_mk,
    Vector3.mk.injEq] at ha ⊢
  refine ⟨?_, ?_, ?_⟩ <;> field_simp <;> ring

/-- C25: whenever `HitTest_Triangle` reports a hit (any cull mode, any ray direction,
either form), the values `u`, `v`, `t` it computed satisfy
`ray.origin + t * ray.direction = (1 - u - v) * v0 + u * v1 + v * v2` with `u >= 0`,
`v >= 0`, `u + v <= 1` and `ray.min < t < ray.max`; the closest-hit form records that
`t` and that point, which so lies on the ray and inside the triangle, edges
included. -/
theorem HitTest_Triangle_hit_inside_triangle (triangle : Triangle F) (ray : Ray F)
    (hitRecord : HitRecord F) (ignoreHitRecord : Bool)
    (h : (HitTest_Triangle triangle ray hitRecord ignoreHitRecord).1 = true) :
    ray.origin + Vector3.scale (triT triangle ray) ray.direction
      = Vector3.scale (1 - triU triangle ray - triV triangle ray) triangle.v0
        + Vector3.scale (triU triangle ray) triangle.v1
        + Vector3.scale (triV triangle ray) triangle.v2
    ∧ 0 ≤ triU triangle ray ∧ 0 ≤ triV triangle ray
    ∧ triU triangle ray + triV triangle ray ≤ 1
    ∧ ray.min < triT triangle ray ∧ triT triangle ray < ray.max
    ∧ (ignoreHitRecord = false →
        (HitTest_Triangle triangle ray hitRecord ignoreHitRecord).2.t
          = ((triT triangle ray : F) : WithTop F)
        ∧ (HitTest_Triangle triangle ray hitRecord ignoreHitRecord).2.origin
          = Vector3.scale (1 - triU triangle ray - triV triangle ray) triangle.v0
            + Vector3.scale (triU triangle ray) triangle.v1
            + Vector3.scale (triV triangle ray) triangle.v2) := by
  obtain ⟨ha, hu0, _, hv0, huv, ht1, ht2⟩ :=
    HitTest_Triangle_true_facts triangle ray hitRecord ignoreHitRecord h
  have hp := triangle_point_eq_barycentric triangle ray ha
  refine ⟨hp, hu0, hv0, huv, ht1, ht2, ?_⟩
  intro hig
  subst hig
  rw [← hp]
  revert h
  simp only [HitTest_Triangle, HitTest_Triangle_inside, Bool.false_eq_true, if_false]
  split_ifs <;> simp

/-- Witness of C25: the ray from `(0.25, 0.25, 5)` along `-Z` hits the triangle
`(0,0,0), (1,0,0), (0,1,0)`; the recorded point is
`0.5 * v0 + 0.25 * v1 + 0.25 * v2`. -/
theorem HitTest_Triangle_hit_inside_triangle_witness :
    (HitTest_Triangle
        (⟨⟨0, 0, 0⟩, ⟨1, 0, 0⟩, ⟨0, 1, 0⟩, ⟨0, 0, 1⟩, TriangleCullMode.NoCulling, 2⟩ :
          Triangle ℚ)
        ⟨⟨1 / 4, 1 / 4, 5⟩, ⟨0, 0, -1⟩, 1 / 10000, 1000⟩ HitRecord.fresh false).1 = true
    ∧ (⟨1 / 4, 1 / 4, 5⟩ : Vector3 ℚ)
        + Vector3.scale
          (triT
            (⟨⟨0, 0, 0⟩, ⟨1, 0, 0⟩, ⟨0, 1, 0⟩, ⟨0, 0, 1⟩, TriangleCullMode.NoCulling, 2⟩ :
              Triangle ℚ)
            ⟨⟨1 / 4, 1 / 4, 5⟩, ⟨0, 0, -1⟩, 1 / 10000, 1000⟩)
          ⟨0, 0, -1⟩
      = Vector3.scale
          (1 - triU
              (⟨⟨0, 0, 0⟩, ⟨1, 0, 0⟩, ⟨0, 1, 0⟩, ⟨0, 0, 1⟩, TriangleCullMode.NoCulling, 2⟩ :
                Triangle ℚ)
              ⟨⟨1 / 4, 1 / 4, 5⟩, ⟨0, 0, -1⟩, 1 / 10000, 1000⟩
            - triV
              (⟨⟨0, 0, 0⟩, ⟨1, 0, 0⟩, ⟨0, 1, 0⟩, ⟨0, 0, 1⟩, TriangleCullMode.NoCulling, 2⟩ :
                Triangle ℚ)
              ⟨⟨1 / 4, 1 / 4, 5⟩, ⟨0, 0, -1⟩, 1 / 10000, 1000⟩)
          ⟨0, 0, 0⟩
        + Vector3.scale
          (triU
            (⟨⟨0, 0, 0⟩, ⟨1, 0, 0⟩, ⟨0, 1, 0⟩, ⟨0, 0, 1⟩, TriangleCullMode.NoCulling, 2⟩ :
              Triangle ℚ)
            ⟨⟨1 / 4, 1 / 4, 5⟩, ⟨0, 0, -1⟩, 1 / 10000, 1000⟩)
          ⟨1, 0, 0⟩
        + Vector3.scale
          (triV
            (⟨⟨0, 0, 0⟩, ⟨1, 0, 0⟩, ⟨0, 1, 0⟩, ⟨0, 0, 1⟩, TriangleCullMode.NoCulling, 2⟩ :
              Triangle ℚ)
            ⟨⟨1 / 4, 1 / 4, 5⟩, ⟨0, 0, -1⟩, 1 / 10000, 1000⟩)
          ⟨0, 1, 0⟩ := by
  have hhit : (HitTest_Triangle
      (⟨⟨0, 0, 0⟩, ⟨1, 0, 0⟩, ⟨0, 1, 0⟩, ⟨0, 0, 1⟩, TriangleCullMode.NoCulling, 2⟩ :
        Triangle ℚ)
      ⟨⟨1 / 4, 1 / 4, 5⟩, ⟨0, 0, -1⟩, 1 / 10000, 1000⟩ HitRecord.fresh false).1 = true := by
    simp [HitTest_Triangle, HitTest_Triangle_inside, triA, triEdge1, triEdge2, triH, triF,
      triS, triU, triQ, triV, triT, Vector3.Cross, Vector3.Dot, FLT_EPSILON]
    norm_num
  exact ⟨hhit, (HitTest_Triangle_hit_inside_triangle _ _ HitRecord.fresh false hhit).1⟩

/-- C26: for a ray with `dot(direction, direction) > 0`, and `sqrtf` returning the
non-negative square root of the discriminant when it is positive: whenever
`HitTest_Sphere` reports a hit, the recorded `t` satisfies `ray.min <= t <= ray.max`,
the recorded point is `p = ray.origin + t * ray.direction` and lies on the surface of
the sphere, `dot(p - center, p - center) = radius * radius`, and the recorded
`materialIndex` is the sphere's. -/
theorem HitTest_Sphere_hit_on_surface (sqrtf : F → F) (sphere : Sphere F) (ray : Ray F)
    (hitRecord : HitRecord F) (ignoreHitRecord : Bool)
    (ha : 0 < Vector3.Dot ray.direction ray.direction)
    (hsqrt : 0 < sphereD sphere ray →
      0 ≤ sqrtf (sphereD sphere ray)
        ∧ sqrtf (sphereD sphere ray) * sqrtf (sphereD sphere ray) = sphereD sphere ray)
    (h : (HitTest_Sphere sqrtf sphere ray hitRecord ignoreHitRecord).1 = true) :
    ∃ t : F,
      (HitTest_Sphere sqrtf sphere ray hitRecord ignoreHitRecord).2.t = (t : WithTop F)
      ∧ ray.min ≤ t ∧ t ≤ ray.max
      ∧ (HitTest_Sphere sqrtf sphere ray hitRecord ignoreHitRecord).2.origin
          = ray.origin + Vector3.scale t ray.direction
      ∧ Vector3.Dot
          ((HitTest_Sphere sqrtf sphere ray hitRecord ignoreHitRecord).2.origin
            - sphere.origin)
          ((HitTest_Sphere sqrtf sphere ray hitRecord ignoreHitRecord).2.origin
            - sphere.origin)
          = sphere.radius * sphere.radius
      ∧ (HitTest_Sphere sqrtf sphere ray hitRecord ignoreHitRecord).2.materialIndex
          = sphere.materialIndex := by
  have hsurf : ∀ t : F,
      sphereA ray * t * t + sphereB sphere ray * t + sphereC sphere ray = 0 →
      Vector3.Dot (ray.origin + Vector3.scale t ray.direction - sphere.origin)
        (ray.origin + Vector3.scale t ray.direction - sphere.origin)
        = sphere.radius * sphere.radius := by
    intro t ht
    simp only [sphereA, sphereB, sphereC, Vector3.Dot, Vector3.sub_x, Vector3.sub_y,
      Vector3.sub_z, Vector3.add_x, Vector3.add_y, Vector3.add_z, Vector3.scale_x,
      Vector3.scale_y, Vector3.scale_z] at ht ⊢
    linear_combination ht
  by_cases hd : 0 < sphereD sphere ray
  · obtain ⟨hs0, hss⟩ := hsqrt hd
    have hspos : 0 < sqrtf (sphereD sphere ray) := by
      rcases eq_or_lt_of_le hs0 with h0 | h0
      · rw [← h0] at hss; simp at hss; rw [← hss] at hd; exact absurd hd (lt_irrefl _)
      · exact h0
    have hroots := (quadratic_roots (sphereA ray) (sphereB sphere ray) (sphereC sphere ray)
      (sqrtf (sphereD sphere ray)) ha hspos (by rw [hss]; rfl)).2
    revert h
    simp only [HitTest_Sphere, hd, if_true]
    split_ifs with h1 h2 h3
    · intro _
      refine ⟨_, rfl, h2.1, h2.2, rfl, ?_, rfl⟩
      exact hsurf _ ((hroots _).mpr (Or.inr rfl))
    · intro h; exact h.elim
    · intro _
      refine ⟨_, rfl, h3.1, h3.2, rfl, ?_, rfl⟩
      exact hsurf _ ((hroots _).mpr (Or.inl rfl))
    · intro h; exact h.elim
  · revert h
    simp [HitTest_Sphere, hd]

/-- Witness of C26: the ray from the origin along `+Z` hits the sphere of radius 1
around `(0,0,5)`; the recorded point has squared distance `1 * 1` from the center. -/
theorem HitTest_Sphere_hit_on_surface_witness :
    Vector3.Dot
      ((HitTest_Sphere Rat.sqrt (⟨⟨0, 0, 5⟩, 1, 2⟩ : Sphere ℚ)
          ⟨⟨0, 0, 0⟩, ⟨0, 0, 1⟩, 1 / 10000, 1000⟩ HitRecord.fresh false).2.origin
        - ⟨0, 0, 5⟩)
      ((HitTest_Sphere Rat.sqrt (⟨⟨0, 0, 5⟩, 1, 2⟩ : Sphere ℚ)
          ⟨⟨0, 0, 0⟩, ⟨0, 0, 1⟩, 1 / 10000, 1000⟩ HitRecord.fresh false).2.origin
        - ⟨0, 0, 5⟩)
      = 1 * 1 := by
  have hD : sphereD (⟨⟨0, 0, 5⟩, 1, 2⟩ : Sphere ℚ)
      ⟨⟨0, 0, 0⟩, ⟨0, 0, 1⟩, 1 / 10000, 1000⟩ = 2 * 2 := by
    norm_num [sphereD, sphereA, sphereB, sphereC, Vector3.Dot]
  have hA : sphereA (⟨⟨0, 0, 0⟩, ⟨0, 0, 1⟩, 1 / 10000, 1000⟩ : Ray ℚ) = 1 := by
    norm_num [sphereA, Vector3.Dot]
  have hB : sphereB (⟨⟨0, 0, 5⟩, 1, 2⟩ : Sphere ℚ)
      ⟨⟨0, 0, 0⟩, ⟨0, 0, 1⟩, 1 / 10000, 1000⟩ = -10 := by
    norm_num [sphereB, Vector3.Dot]
  have hhit : (HitTest_Sphere Rat.sqrt (⟨⟨0, 0, 5⟩, 1, 2⟩ : Sphere ℚ)
      ⟨⟨0, 0, 0⟩, ⟨0, 0, 1⟩, 1 / 10000, 1000⟩ HitRecord.fresh false).1 = true := by
    simp only [HitTest_Sphere, hD, hA, hB, Rat.sqrt_eq]
    norm_num
  obtain ⟨t, _, _, _, _, h, _⟩ := HitTest_Sphere_hit_on_surface Rat.sqrt
    (⟨⟨0, 0, 5⟩, 1, 2⟩ : Sphere ℚ) ⟨⟨0, 0, 0⟩, ⟨0, 0, 1⟩, 1 / 10000, 1000⟩ HitRecord.fresh
    false (by norm_num [Vector3.Dot]) (fun _ => by rw [hD, Rat.sqrt_eq]; norm_num) hhit
  exact h

/-- A hit of `HitTest_Plane` records the plane's material index. -/
theorem HitTest_Plane_materialIndex (plane : Plane F) (ray : Ray F)
    (hitRecord : HitRecord F) (ignoreHitRecord : Bool)
    (h : (HitTest_Plane plane ray hitRecord ignoreHitRecord).1 = true) :
    (HitTest_Plane plane ray hitRecord ignoreHitRecord).2.materialIndex
      = plane.materialIndex := by
  revert h
  simp only [HitTest_Plane]
  split_ifs <;> simp

/-- A hit of `HitTest_Sphere` records the sphere's material index. -/
theorem HitTest_Sphere_materialIndex (sqrtf : F → F) (sphere : Sphere F) (ray : Ray F)
    (hitRecord : HitRecord F) (ignoreHitRecord : Bool)
    (h : (HitTest_Sphere sqrtf sphere ray hitRecord ignoreHitRecord).1 = true) :
    (HitTest_Sphere sqrtf sphere ray hitRecord ignoreHitRecord).2.materialIndex
      = sphere.materialIndex := by
  revert h
  simp only [HitTest_Sphere]
  split_ifs <;> simp

/-- A hit of the closest-hit `HitTest_Triangle` records the triangle's material
index. -/
theorem HitTest_Triangle_materialIndex (triangle : Triangle F) (ray : Ray F)
    (hitRecord : HitRecord F)
    (h : (HitTest_Triangle triangle ray hitRecord false).1 = true) :
    (HitTest_Triangle triangle ray hitRecord false).2.materialIndex
      = triangle.materialIndex := by
  revert h
  simp only [HitTest_Triangle, HitTest_Triangle_inside, Bool.false_eq_true, if_false]
  split_ifs <;> simp

/-- The closest-hit loop of a mesh keeps a record that is fresh or holds the mesh's
material index that way. -/
theorem meshLoop_materialIndex (mesh : TriangleMesh F) (ray : Ray F) (steps : List Nat) :
    ∀ hitRecord : HitRecord F,
      (hitRecord = HitRecord.fresh ∨ hitRecord.materialIndex = mesh.materialIndex) →
      (meshLoop mesh ray false steps hitRecord).2 = HitRecord.fresh
        ∨ (meshLoop mesh ray false steps hitRecord).2.materialIndex
            = mesh.materialIndex := by
  induction steps with
  | nil => intro hitRecord h; exact h
  | cons i rest ih =>
    intro hitRecord h
    simp only [meshLoop, Bool.false_eq_true, if_false]
    split_ifs with h1 h2
    · exact ih _ (Or.inr (HitTest_Triangle_materialIndex _ ray HitRecord.fresh h1))
    · exact ih hitRecord h
    · exact ih hitRecord h

/-- A hit of the closest-hit `HitTest_TriangleMesh` from a fresh record records the
mesh's material index. -/
theorem HitTest_TriangleMesh_materialIndex (mesh : TriangleMesh F) (ray : Ray F)
    (h : (HitTest_TriangleMesh mesh ray HitRecord.fresh false).1 = true) :
    (HitTest_TriangleMesh mesh ray HitRecord.fresh false).2.materialIndex
      = mesh.materialIndex := by
  rcases HitTest_TriangleMesh_fresh mesh ray with ⟨h1, _⟩ | ⟨_, h2, _⟩
  · rw [h1] at h; exact absurd h Bool.false_ne_true
  · have hne : (HitTest_TriangleMesh mesh ray HitRecord.fresh false).2 ≠ HitRecord.fresh := by
      intro he
      rw [he] at h2
      exact Bool.false_ne_true h2
    revert hne h2
    simp only [HitTest_TriangleMesh]
    split_ifs
    · intro _ hne; exact absurd rfl hne
    · intro _ hne
      rcases meshLoop_materialIndex mesh ray (meshSteps mesh.indices.length)
        HitRecord.fresh (Or.inl rfl) with h3 | h3
      · exact absurd h3 hne
      · exact h3

end GeometryUtils

/-! ## Material indices and agreement of the two scene queries -/

namespace Scene

open GeometryUtils

variable {F : Type} [LinearOrderedField F]

/-- A report of `closestReports` that hits carries the material index of a primitive
of the scene. -/
theorem closestReports_materialIndex (sqrtf : F → F) (scene : Scene F) (ray : Ray F)
    (r : Bool × HitRecord F) (hr : r ∈ closestReports sqrtf scene ray) (hhit : r.1 = true) :
    (∃ plane ∈ scene.m_PlaneGeometries, r.2.materialIndex = plane.materialIndex)
    ∨ (∃ sphere ∈ scene.m_SphereGeometries, r.2.materialIndex = sphere.materialIndex)
    ∨ (∃ triangle ∈ scene.m_Triangles, r.2.materialIndex = triangle.materialIndex)
    ∨ (∃ mesh ∈ scene.m_TriangleMeshGeometries,
        r.2.materialIndex = mesh.materialIndex) := by
  simp only [closestReports, List.mem_append, List.mem_map] at hr
  rcases hr with ((⟨x, hx, rfl⟩ | ⟨x, hx, rfl⟩) | ⟨x, hx, rfl⟩) | ⟨x, hx, rfl⟩
  · exact Or.inl ⟨x, hx, HitTest_Plane_materialIndex x ray _ _ hhit⟩
  · exact Or.inr (Or.inl ⟨x, hx, HitTest_Sphere_materialIndex sqrtf x ray _ _ hhit⟩)
  · exact Or.inr (Or.inr (Or.inl ⟨x, hx, HitTest_Triangle_materialIndex x ray _ hhit⟩))
  · exact Or.inr (Or.inr (Or.inr ⟨x, hx, HitTest_TriangleMesh_materialIndex x ray hhit⟩))

/-- C21: if every plane, sphere, standalone triangle and mesh of a scene stores a
`materialIndex` below the size of the scene's material table, then for every ray for
which `GetClosestHit` from a fresh record reports `didHit = true`, the resulting
`materialIndex` is the `materialIndex` of a primitive of the scene, lies below the size
of the table, and the lookup `materials[closestHit.materialIndex]` of `RenderPixel`
reads an entry of the table. -/
theorem GetClosestHit_materialIndex_in_bounds (sqrtf : F → F) (scene : Scene F)
    (ray : Ray F)
    (hP : ∀ plane ∈ scene.m_PlaneGeometries,
      plane.materialIndex < scene.m_Materials.length)
    (hS : ∀ sphere ∈ scene.m_SphereGeometries,
      sphere.materialIndex < scene.m_Materials.length)
    (hT : ∀ triangle ∈ scene.m_Triangles,
      triangle.materialIndex < scene.m_Materials.length)
    (hM : ∀ mesh ∈ scene.m_TriangleMeshGeometries,
      mesh.materialIndex < scene.m_Materials.length)
    (hhit : (GetClosestHit sqrtf scene ray HitRecord.fresh).didHit = true) :
    ((∃ plane ∈ scene.m_PlaneGeometries,
        (GetClosestHit sqrtf scene ray HitRecord.fresh).materialIndex = plane.materialIndex)
      ∨ (∃ sphere ∈ scene.m_SphereGeometries,
        (GetClosestHit sqrtf scene ray HitRecord.fresh).materialIndex
          = sphere.materialIndex)
      ∨ (∃ triangle ∈ scene.m_Triangles,
        (GetClosestHit sqrtf scene ray HitRecord.fresh).materialIndex
          = triangle.materialIndex)
      ∨ (∃ mesh ∈ scene.m_TriangleMeshGeometries,
        (GetClosestHit sqrtf scene ray HitRecord.fresh).materialIndex
          = mesh.materialIndex))
    ∧ (GetClosestHit sqrtf scene ray HitRecord.fresh).materialIndex
        < scene.m_Materials.length
    ∧ ∃ material : Material F,
        scene.m_Materials[(GetClosestHit sqrtf scene ray HitRecord.fresh).materialIndex]?
          = some material
        ∧ Renderer.materialAt scene.m_Materials
            (GetClosestHit sqrtf scene ray HitRecord.fresh).materialIndex = material := by
  have hprim : (∃ plane ∈ scene.m_PlaneGeometries,
        (GetClosestHit sqrtf scene ray HitRecord.fresh).materialIndex = plane.materialIndex)
      ∨ (∃ sphere ∈ scene.m_SphereGeometries,
        (GetClosestHit sqrtf scene ray HitRecord.fresh).materialIndex
          = sphere.materialIndex)
      ∨ (∃ triangle ∈ scene.m_Triangles,
        (GetClosestHit sqrtf scene ray HitRecord.fresh).materialIndex
          = triangle.materialIndex)
      ∨ (∃ mesh ∈ scene.m_TriangleMeshGeometries,
        (GetClosestHit sqrtf scene ray HitRecord.fresh).materialIndex
          = mesh.materialIndex) := by
    rcases GetClosestHit_cases sqrtf scene ray with ⟨h1, _⟩ | ⟨i, r, h1, h2, h3, _, _, _⟩
    · rw [h1] at hhit; exact absurd hhit Bool.false_ne_true
    · rw [← h3]
      exact closestReports_materialIndex sqrtf scene ray r (List.getElem?_mem h1) h2
  have hlt : (GetClosestHit sqrtf scene ray HitRecord.fresh).materialIndex
      < scene.m_Materials.length := by
    rcases hprim with ⟨x, hx, h⟩ | ⟨x, hx, h⟩ | ⟨x, hx, h⟩ | ⟨x, hx, h⟩
    · rw [h]; exact hP x hx
    · rw [h]; exact hS x hx
    · rw [h]; exact hT x hx
    · rw [h]; exact hM x hx
  refine ⟨hprim, hlt, scene.m_Materials[(GetClosestHit sqrtf scene ray
    HitRecord.fresh).materialIndex], List.getElem?_eq_getElem hlt, ?_⟩
  simp only [Renderer.materialAt, List.getD_eq_getElem?_getD, List.getElem?_eq_getElem hlt,
    Option.getD_some]

/-- From a fresh record `GetClosestHit` ends with `didHit = true` exactly when a report
of `closestReports` hits. -/
theorem GetClosestHit_didHit_iff (sqrtf : F → F) (scene : Scene F) (ray : Ray F) :
    (GetClosestHit sqrtf scene ray HitRecord.fresh).didHit = true
      ↔ ∃ r ∈ closestReports sqrtf scene ray, r.1 = true := by
  rcases GetClosestHit_cases sqrtf scene ray with ⟨h1, h2⟩ | ⟨i, r, h1, h2, h3, h4, _, _⟩
  · constructor
    · intro h; rw [h1] at h; exact absurd h Bool.false_ne_true
    · rintro ⟨r, hr, h⟩
      rw [h2 r hr] at h
      exact absurd h Bool.false_ne_true
  · constructor
    · intro _; exact ⟨r, List.getElem?_mem h1, h2⟩
    · intro _; rw [← h3]; exact h4

/-- The query `DoesHit` returns true exactly when an any-hit test of a primitive of the
scene does. -/
theorem DoesHit_iff_exists (sqrtf : F → F) (scene : Scene F) (ray : Ray F) :
    DoesHit sqrtf scene ray = true
      ↔ (∃ plane ∈ scene.m_PlaneGeometries, HitTest_Plane_AnyHit plane ray = true)
        ∨ (∃ sphere ∈ scene.m_SphereGeometries,
            HitTest_Sphere_AnyHit sqrtf sphere ray = true)
        ∨ (∃ triangle ∈ scene.m_Triangles, HitTest_Triangle_AnyHit triangle ray = true)
        ∨ (∃ mesh ∈ scene.m_TriangleMeshGeometries,
            HitTest_TriangleMesh_AnyHit mesh ray = true) := by
  simp only [DoesHit, ← returnsTrue_iff]
  split_ifs <;> simp_all

/-- For a mesh with cull mode `NoCulling` and a ray with `ray.min >= 0`, the any-hit
form of `HitTest_TriangleMesh` returns what the closest-hit form returns from a fresh
record. -/
theorem HitTest_TriangleMesh_AnyHit_eq_closest (mesh : TriangleMesh F) (ray : Ray F)
    (hcull : mesh.cullMode = TriangleCullMode.NoCulling) (hmin : 0 ≤ ray.min) :
    HitTest_TriangleMesh_AnyHit mesh ray
      = (HitTest_TriangleMesh mesh ray HitRecord.fresh false).1 := by
  have hm : ({ mesh with cullMode := TriangleCullMode.NoCulling } : TriangleMesh F)
      = mesh := by
    cases mesh
    simp only at hcull
    subst hcull
    rfl
  have h := meshLoop_closest_eq_any mesh ray hmin (meshSteps mesh.indices.length)
    HitRecord.fresh (Or.inl rfl)
  rw [hm] at h
  simp only [HitTest_TriangleMesh_AnyHit, HitTest_TriangleMesh]
  split_ifs
  · rfl
  · rw [h]; simp [HitRecord.fresh]

/-- For a triangle with cull mode `NoCulling` the any-hit form of `HitTest_Triangle`
returns what the closest-hit form returns. -/
theorem HitTest_Triangle_AnyHit_eq_closest (triangle : Triangle F) (ray : Ray F)
    (hcull : triangle.cullMode = TriangleCullMode.NoCulling) :
    HitTest_Triangle_AnyHit triangle ray
      = (HitTest_Triangle triangle ray HitRecord.fresh false).1 := by
  have ht : ({ triangle with cullMode := TriangleCullMode.NoCulling } : Triangle F)
      = triangle := by
    cases triangle
    simp only at hcull
    subst hcull
    rfl
  have h := HitTest_Triangle_ignore_eq_NoCulling triangle ray HitRecord.fresh
    HitRecord.fresh
  rw [ht] at h
  exact h

/-- C27: in a scene in which every standalone triangle and every mesh uses cull mode
`NoCulling`, for every ray with `ray.min >= 0`, `Scene::DoesHit(ray)` returns true
exactly when `Scene::GetClosestHit` from a fresh record ends with `didHit = true`. The
fresh record's `t` is `+infinity`, so every `ray.max` is not larger than it. -/
theorem DoesHit_iff_GetClosestHit_didHit (sqrtf : F → F) (scene : Scene F) (ray : Ray F)
    (hT : ∀ triangle ∈ scene.m_Triangles,
      triangle.cullMode = TriangleCullMode.NoCulling)
    (hM : ∀ mesh ∈ scene.m_TriangleMeshGeometries,
      mesh.cullMode = TriangleCullMode.NoCulling)
    (hmin : 0 ≤ ray.min)
    (_hmax : (ray.max : WithTop F) ≤ (HitRecord.fresh : HitRecord F).t) :
    DoesHit sqrtf scene ray = true
      ↔ (GetClosestHit sqrtf scene ray HitRecord.fresh).didHit = true := by
  rw [DoesHit_iff_exists, GetClosestHit_didHit_iff, exists_hit_closestReports]
  have hPl : ∀ plane : Plane F, HitTest_Plane_AnyHit plane ray
      = (HitTest_Plane plane ray HitRecord.fresh false).1 := fun _ => rfl
  have hSp : ∀ sphere : Sphere F, HitTest_Sphere_AnyHit sqrtf sphere ray
      = (HitTest_Sphere sqrtf sphere ray HitRecord.fresh false).1 := fun _ => rfl
  constructor
  · rintro (⟨x, hx, h⟩ | ⟨x, hx, h⟩ | ⟨x, hx, h⟩ | ⟨x, hx, h⟩)
    · exact Or.inl ⟨x, hx, by rw [← hPl]; exact h⟩
    · exact Or.inr (Or.inl ⟨x, hx, by rw [← hSp]; exact h⟩)
    · exact Or.inr (Or.inr (Or.inl ⟨x, hx, by
        rw [← HitTest_Triangle_AnyHit_eq_closest x ray (hT x hx)]; exact h⟩))
    · exact Or.inr (Or.inr (Or.inr ⟨x, hx, by
        rw [← HitTest_TriangleMesh_AnyHit_eq_closest x ray (hM x hx) hmin]; exact h⟩))
  · rintro (⟨x, hx, h⟩ | ⟨x, hx, h⟩ | ⟨x, hx, h⟩ | ⟨x, hx, h⟩)
    · exact Or.inl ⟨x, hx, by rw [hPl]; exact h⟩
    · exact Or.inr (Or.inl ⟨x, hx, by rw [hSp]; exact h⟩)
    · exact Or.inr (Or.inr (Or.inl ⟨x, hx, by
        rw [HitTest_Triangle_AnyHit_eq_closest x ray (hT x hx)]; exact h⟩))
    · exact Or.inr (Or.inr (Or.inr ⟨x, hx, by
        rw [HitTest_TriangleMesh_AnyHit_eq_closest x ray (hM x hx) hmin]; exact h⟩))

/-- The any-hit test of `twoTriangleMesh` returns true for
`rayTowardsFirstTriangle`. -/
theorem twoTriangleMesh_AnyHit_front :
    HitTest_TriangleMesh_AnyHit twoTriangleMesh rayTowardsFirstTriangle = true := by
  have hS : SlabTest_TriangleMesh twoTriangleMesh rayTowardsFirstTriangle = true := by
    rw [SlabTest_TriangleMesh_eq_finite _ _ (by norm_num [rayTowardsFirstTriangle])
      (by norm_num [rayTowardsFirstTriangle]) (by norm_num [rayTowardsFirstTriangle])]
    simp [slabTestFinite, twoTriangleMesh, rayTowardsFirstTriangle]
    norm_num
  have hsteps : meshSteps twoTriangleMesh.indices.length = [0, 3] := by decide
  have h0 : HitTest_Triangle (meshTriangle twoTriangleMesh 0) rayTowardsFirstTriangle
      HitRecord.fresh true = (true, HitRecord.fresh) := by
    simp [HitTest_Triangle, HitTest_Triangle_inside, meshTriangle, twoTriangleMesh,
      rayTowardsFirstTriangle, triA, triEdge1, triEdge2, triH, triF, triS, triU, triQ, triV,
      triT, Vector3.Cross, Vector3.Dot, FLT_EPSILON]
    norm_num
  simp only [HitTest_TriangleMesh_AnyHit, HitTest_TriangleMesh, hS, hsteps, meshLoop]
  rw [h0]
  simp

/-- The closest-hit test of `twoTriangleMesh` from a fresh record returns true for
`rayTowardsFirstTriangle`. -/
theorem twoTriangleMesh_closest_front :
    (HitTest_TriangleMesh twoTriangleMesh rayTowardsFirstTriangle HitRecord.fresh false).1
      = true := by
  rw [← HitTest_TriangleMesh_AnyHit_eq_closest twoTriangleMesh rayTowardsFirstTriangle rfl
    (by norm_num [rayTowardsFirstTriangle])]
  exact twoTriangleMesh_AnyHit_front

/-- Witness of C21: in `meshScene`, whose mesh stores material index 1 and whose table
has 2 entries, `rayTowardsFirstTriangle` has a closest hit, and its material index is
below 2. -/
theorem GetClosestHit_materialIndex_in_bounds_witness :
    (GetClosestHit Rat.sqrt meshScene rayTowardsFirstTriangle HitRecord.fresh).materialIndex
      < meshScene.m_Materials.length :=
  (GetClosestHit_materialIndex_in_bounds Rat.sqrt meshScene rayTowardsFirstTriangle
    (by intro x hx; simp [meshScene] at hx)
    (by intro x hx; simp [meshScene] at hx)
    (by intro x hx; simp [meshScene] at hx)
    (by
      intro x hx
      simp only [meshScene, List.mem_singleton] at hx
      subst hx
      decide)
    ((GetClosestHit_didHit_iff Rat.sqrt meshScene rayTowardsFirstTriangle).mpr
      ⟨HitTest_TriangleMesh twoTriangleMesh rayTowardsFirstTriangle HitRecord.fresh false,
        by simp [closestReports, meshScene], twoTriangleMesh_closest_front⟩)).2.1

/-- Witness of C27: in `meshScene` the ray `rayTowardsFirstTriangle`, with
`ray.min = 0.0001`, is blocked for `DoesHit` and has a closest hit. -/
theorem DoesHit_iff_GetClosestHit_didHit_witness :
    DoesHit Rat.sqrt meshScene rayTowardsFirstTriangle = true
    ∧ (GetClosestHit Rat.sqrt meshScene rayTowardsFirstTriangle HitRecord.fresh).didHit
        = true := by
  have hD : DoesHit Rat.sqrt meshScene rayTowardsFirstTriangle = true :=
    (DoesHit_iff_exists Rat.sqrt meshScene rayTowardsFirstTriangle).mpr
      (Or.inr (Or.inr (Or.inr ⟨twoTriangleMesh, by simp [meshScene],
        twoTriangleMesh_AnyHit_front⟩)))
  exact ⟨hD, (DoesHit_iff_GetClosestHit_didHit Rat.sqrt meshScene rayTowardsFirstTriangle
    (by intro x hx; simp [meshScene] at hx)
    (by
      intro x hx
      simp only [meshScene, List.mem_singleton] at hx
      subst hx
      rfl)
    (by norm_num [rayTowardsFirstTriangle]) le_top).mp hD⟩

/-- C28, as amended: `Scene::AddMaterial(m)` appends `m` to the material table, leaves
all earlier entries and the rest of the scene unchanged, and returns the 8-bit value
`(table size - 1) mod 256` of the new size; when the table held fewer than 256 entries
before the call, the returned index is the index of the entry just added and the
table's entry at that index is `m`. -/
theorem AddMaterial_appends_and_returns_index {G : Type} (scene : Scene G)
    (m : Material G) :
    (AddMaterial scene m).1.m_Materials = scene.m_Materials ++ [m]
    ∧ (∀ j : Nat, j < scene.m_Materials.length →
        (AddMaterial scene m).1.m_Materials[j]? = scene.m_Materials[j]?)
    ∧ (AddMaterial scene m).1.m_PlaneGeometries = scene.m_PlaneGeometries
    ∧ (AddMaterial scene m).1.m_SphereGeometries = scene.m_SphereGeometries
    ∧ (AddMaterial scene m).1.m_Triangles = scene.m_Triangles
    ∧ (AddMaterial scene m).1.m_TriangleMeshGeometries = scene.m_TriangleMeshGeometries
    ∧ (AddMaterial scene m).1.m_Lights = scene.m_Lights
    ∧ (AddMaterial scene m).2 = ((AddMaterial scene m).1.m_Materials.length - 1) % 256
    ∧ (AddMaterial scene m).2 < 256
    ∧ (scene.m_Materials.length < 256 →
        (AddMaterial scene m).2 = scene.m_Materials.length
        ∧ (AddMaterial scene m).1.m_Materials[(AddMaterial scene m).2]? = some m) := by
  refine ⟨rfl, ?_, rfl, rfl, rfl, rfl, rfl, rfl, ?_, ?_⟩
  · intro j hj
    simp only [AddMaterial]
    exact List.getElem?_append_left hj
  · simp only [AddMaterial]
    exact Nat.mod_lt _ (by decide)
  · intro hlt
    have hidx : (AddMaterial scene m).2 = scene.m_Materials.length := by
      simp only [AddMaterial, List.length_append, List.length_singleton,
        Nat.add_sub_cancel]
      exact Nat.mod_eq_of_lt hlt
    refine ⟨hidx, ?_⟩
    rw [hidx]
    simp [AddMaterial]

/-- Witness of C28 as amended: adding `whiteMaterial` to `wallScene`, whose table holds
one entry, returns index 1, and entry 1 of the new table is `whiteMaterial`. -/
theorem AddMaterial_appends_and_returns_index_witness :
    (AddMaterial wallScene whiteMaterial).2 = 1
    ∧ (AddMaterial wallScene whiteMaterial).1.m_Materials[1]? = some whiteMaterial := by
  have h := (AddMaterial_appends_and_returns_index wallScene whiteMaterial).2.2.2.2.2.2.2.2.2
    (by decide)
  have h1 : (AddMaterial wallScene whiteMaterial).2 = 1 := h.1
  refine ⟨h1, ?_⟩
  rw [← h1]
  exact h.2

/-- Counterexample to C28 as stated: adding `whiteMaterial` to `crowdedScene`, whose
table already holds 256 entries, returns index `256 mod 256 = 0`, and entry 0 of the
table is still the black material, not the material just added (which is entry 256). -/
theorem AddMaterial_index_wraps :
    (AddMaterial crowdedScene whiteMaterial).2 = 0
    ∧ (AddMaterial crowdedScene whiteMaterial).1.m_Materials[256]? = some whiteMaterial
    ∧ (AddMaterial crowdedScene whiteMaterial).1.m_Materials[
        (AddMaterial crowdedScene whiteMaterial).2]? ≠ some whiteMaterial := by
  have h0 : (AddMaterial crowdedScene whiteMaterial).2 = 0 := by
    simp only [AddMaterial, crowdedScene, List.length_append, List.length_replicate,
      List.length_singleton, Nat.add_sub_cancel, Nat.mod_self]
  refine ⟨h0, ?_, ?_⟩
  · simp only [AddMaterial, crowdedScene]
    rw [List.getElem?_append_right (by simp only [List.length_replicate]; exact le_refl _)]
    simp only [List.length_replicate, Nat.sub_self, List.getElem?_cons_zero]
  · rw [h0]
    simp only [AddMaterial, crowdedScene]
    rw [List.getElem?_append_left (by simp only [List.length_replicate]; decide),
      List.getElem?_replicate, if_pos (by decide)]
    intro h
    have h2 := congrArg (fun mat : Material ℚ =>
      (mat.Shade HitRecord.fresh ⟨0, 0, 0⟩ ⟨0, 0, 0⟩).r) (Option.some.inj h)
    simp [whiteMaterial] at h2

end Scene

/-! ## The triangle loop of a mesh -/

namespace GeometryUtils

variable {F : Type} [LinearOrderedField F]

/-- For a ray whose direction components are all non-zero, a point of the ray with
`t > 0` inside the cached box makes `SlabTest_TriangleMesh` return true. -/
theorem SlabTest_true_of_insideAABB (mesh : TriangleMesh F) (ray : Ray F) (t : F)
    (hdx : ray.direction.x ≠ 0) (hdy : ray.direction.y ≠ 0) (hdz : ray.direction.z ≠ 0)
    (ht : 0 < t) (hin : insideAABB mesh (ray.origin + Vector3.scale t ray.direction)) :
    SlabTest_TriangleMesh mesh ray = true := by
  simp only [insideAABB, Vector3.add_x, Vector3.add_y, Vector3.add_z, Vector3.scale_x,
    Vector3.scale_y, Vector3.scale_z] at hin
  obtain ⟨hx1, hx2, hy1, hy2, hz1, hz2⟩ := hin
  obtain ⟨ax1, ax2⟩ := slab_axis _ _ _ _ t hdx hx1 hx2
  obtain ⟨ay1, ay2⟩ := slab_axis _ _ _ _ t hdy hy1 hy2
  obtain ⟨az1, az2⟩ := slab_axis _ _ _ _ t hdz hz1 hz2
  rw [SlabTest_TriangleMesh_eq_finite mesh ray hdx hdy hdz]
  simp only [slabTestFinite, decide_eq_true_eq]
  exact ⟨lt_of_lt_of_le ht (le_min (le_min ax2 ay2) az2),
    le_trans (max_le (max_le ax1 ay1) az1) (le_min (le_min ax2 ay2) az2)⟩

/-- A combination of three numbers between `lo` and `hi` with non-negative weights
`1 - u - v`, `u`, `v` lies between `lo` and `hi`. -/
theorem convex_combination_between (lo hi a b c u v : F) (hu : 0 ≤ u) (hv : 0 ≤ v)
    (huv : u + v ≤ 1) (ha : lo ≤ a ∧ a ≤ hi) (hb : lo ≤ b ∧ b ≤ hi)
    (hc : lo ≤ c ∧ c ≤ hi) :
    lo ≤ (1 - u - v) * a + u * b + v * c ∧ (1 - u - v) * a + u * b + v * c ≤ hi := by
  have hw : 0 ≤ 1 - u - v := by linarith
  constructor
  · nlinarith [mul_nonneg hw (sub_nonneg.mpr ha.1), mul_nonneg hu (sub_nonneg.mpr hb.1),
      mul_nonneg hv (sub_nonneg.mpr hc.1)]
  · nlinarith [mul_nonneg hw (sub_nonneg.mpr ha.2), mul_nonneg hu (sub_nonneg.mpr hb.2),
      mul_nonneg hv (sub_nonneg.mpr hc.2)]

/-- A triangle whose three vertices lie inside the cached box of a mesh and that a ray
with `ray.min >= 0` and non-zero direction components hits lets the slab test of the
mesh pass. -/
theorem SlabTest_true_of_triangle_hit (mesh : TriangleMesh F) (triangle : Triangle F)
    (ray : Ray F) (hitRecord : HitRecord F) (ignoreHitRecord : Bool)
    (h0 : insideAABB mesh triangle.v0) (h1 : insideAABB mesh triangle.v1)
    (h2 : insideAABB mesh triangle.v2) (hmin : 0 ≤ ray.min)
    (hdx : ray.direction.x ≠ 0) (hdy : ray.direction.y ≠ 0) (hdz : ray.direction.z ≠ 0)
    (h : (HitTest_Triangle triangle ray hitRecord ignoreHitRecord).1 = true) :
    SlabTest_TriangleMesh mesh ray = true := by
  obtain ⟨ha, hu0, _, hv0, huv, ht1, _⟩ :=
    HitTest_Triangle_true_facts triangle ray hitRecord ignoreHitRecord h
  have hp := triangle_point_eq_barycentric triangle ray ha
  apply SlabTest_true_of_insideAABB mesh ray (triT triangle ray) hdx hdy hdz
    (lt_of_le_of_lt hmin ht1)
  rw [hp]
  simp only [insideAABB] at h0 h1 h2 ⊢
  simp only [Vector3.add_x, Vector3.add_y, Vector3.add_z, Vector3.scale_x, Vector3.scale_y,
    Vector3.scale_z]
  obtain ⟨a1, a2, a3, a4, a5, a6⟩ := h0
  obtain ⟨b1, b2, b3, b4, b5, b6⟩ := h1
  obtain ⟨c1, c2, c3, c4, c5, c6⟩ := h2
  have hx := convex_combination_between _ _ _ _ _ _ _ hu0 hv0 huv ⟨a1, a2⟩ ⟨b1, b2⟩ ⟨c1, c2⟩
  have hy := convex_combination_between _ _ _ _ _ _ _ hu0 hv0 huv ⟨a3, a4⟩ ⟨b3, b4⟩ ⟨c3, c4⟩
  have hz := convex_combination_between _ _ _ _ _ _ _ hu0 hv0 huv ⟨a5, a6⟩ ⟨b5, b6⟩ ⟨c5, c6⟩
  exact ⟨hx.1, hx.2, hy.1, hy.2, hz.1, hz.2⟩

/-- The any-hit loop of a mesh, started from a fresh record, returns true exactly when
the any-hit test of one of the triangles it assembles does. -/
theorem meshLoop_any_iff (mesh : TriangleMesh F) (ray : Ray F) (steps : List Nat) :
    (meshLoop mesh ray true steps HitRecord.fresh).1 = true
      ↔ ∃ i ∈ steps, HitTest_Triangle_AnyHit (meshTriangle mesh i) ray = true := by
  induction steps with
  | nil => simp [meshLoop, HitRecord.fresh]
  | cons i rest ih =>
    simp only [meshLoop, if_true, List.mem_cons, exists_eq_or_imp, HitTest_Triangle_AnyHit]
    by_cases h : (HitTest_Triangle (meshTriangle mesh i) ray HitRecord.fresh true).1 = true
    · simp [h]
    · simp only [h, Bool.false_eq_true, if_false, false_or]
      exact ih

/-- C24: for a mesh whose cached box contains the three vertices of every triangle that
the loop assembles from the index buffer, and a ray with `ray.min >= 0` whose three
direction components are non-zero, the any-hit form of `HitTest_TriangleMesh` returns
what the triangle loop alone returns, without the slab test: it returns true exactly
when the any-hit test of some triangle of the mesh does, and if some triangle is hit
the slab test passes. -/
theorem HitTest_TriangleMesh_AnyHit_slab_neutral (mesh : TriangleMesh F) (ray : Ray F)
    (hbox : ∀ i ∈ meshSteps mesh.indices.length,
      insideAABB mesh (meshTriangle mesh i).v0 ∧ insideAABB mesh (meshTriangle mesh i).v1
        ∧ insideAABB mesh (meshTriangle mesh i).v2)
    (hmin : 0 ≤ ray.min)
    (hdx : ray.direction.x ≠ 0) (hdy : ray.direction.y ≠ 0) (hdz : ray.direction.z ≠ 0) :
    HitTest_TriangleMesh_AnyHit mesh ray
      = (meshLoop mesh ray true (meshSteps mesh.indices.length) HitRecord.fresh).1
    ∧ (HitTest_TriangleMesh_AnyHit mesh ray = true
        ↔ ∃ i ∈ meshSteps mesh.indices.length,
            HitTest_Triangle_AnyHit (meshTriangle mesh i) ray = true)
    ∧ ((∃ i ∈ meshSteps mesh.indices.length,
          HitTest_Triangle_AnyHit (meshTriangle mesh i) ray = true) →
        SlabTest_TriangleMesh mesh ray = true) := by
  have hslab : (∃ i ∈ meshSteps mesh.indices.length,
      HitTest_Triangle_AnyHit (meshTriangle mesh i) ray = true) →
      SlabTest_TriangleMesh mesh ray = true := by
    rintro ⟨i, hi, h⟩
    obtain ⟨b0, b1, b2⟩ := hbox i hi
    exact SlabTest_true_of_triangle_hit mesh (meshTriangle mesh i) ray HitRecord.fresh true
      b0 b1 b2 hmin hdx hdy hdz h
  have heq : HitTest_TriangleMesh_AnyHit mesh ray
      = (meshLoop mesh ray true (meshSteps mesh.indices.length) HitRecord.fresh).1 := by
    simp only [HitTest_TriangleMesh_AnyHit, HitTest_TriangleMesh]
    cases hs : SlabTest_TriangleMesh mesh ray
    · simp only [Bool.not_false, if_true]
      cases hl : (meshLoop mesh ray true (meshSteps mesh.indices.length) HitRecord.fresh).1
      · rfl
      · have := hslab ((meshLoop_any_iff mesh ray _).mp hl)
        rw [hs] at this
        exact absurd this Bool.false_ne_true
    · simp
  refine ⟨heq, ?_, hslab⟩
  rw [heq]
  exact meshLoop_any_iff mesh ray _

/-- Witness of C24: the box of `twoTriangleMesh` holds its six vertices, and
`rayTowardsFirstTriangle` has `ray.min = 0.0001` and the direction
`(-0.125, -0.125, -1)`: the any-hit form returns what the triangle loop returns. -/
theorem HitTest_TriangleMesh_AnyHit_slab_neutral_witness :
    HitTest_TriangleMesh_AnyHit twoTriangleMesh rayTowardsFirstTriangle
      = (meshLoop twoTriangleMesh rayTowardsFirstTriangle true
          (meshSteps twoTriangleMesh.indices.length) HitRecord.fresh).1 :=
  (HitTest_TriangleMesh_AnyHit_slab_neutral twoTriangleMesh rayTowardsFirstTriangle
    (by
      have hsteps : meshSteps twoTriangleMesh.indices.length = [0, 3] := by decide
      intro i hi
      rw [hsteps] at hi
      simp only [List.mem_cons, List.mem_singleton, List.not_mem_nil, or_false] at hi
      rcases hi with rfl | rfl <;>
        norm_num [insideAABB, meshTriangle, twoTriangleMesh])
    (by norm_num [rayTowardsFirstTriangle]) (by norm_num [rayTowardsFirstTriangle])
    (by norm_num [rayTowardsFirstTriangle]) (by norm_num [rayTowardsFirstTriangle])).1

/-- The closest-hit loop of a mesh either keeps the record it was given, when no
triangle hits with a `t` above 0 and below the record's, or ends with the record of the
triangle test at some position `n` of the visiting order, which hits with `t > 0`, a `t`
below the given record's, strictly below that of every earlier triangle hit with
`t > 0`, and not above that of any triangle hit with `t > 0`. -/
theorem meshLoop_closest_cases (mesh : TriangleMesh F) (ray : Ray F) (steps : List Nat) :
    ∀ hitRecord : HitRecord F,
      ((meshLoop mesh ray false steps hitRecord).2 = hitRecord
        ∧ ∀ i ∈ steps,
            (HitTest_Triangle (meshTriangle mesh i) ray HitRecord.fresh false).1 = true →
            0 < (HitTest_Triangle (meshTriangle mesh i) ray HitRecord.fresh false).2.t →
            ¬ (HitTest_Triangle (meshTriangle mesh i) ray HitRecord.fresh false).2.t
                < hitRecord.t)
      ∨ ∃ n i : Nat, steps[n]? = some i
          ∧ (HitTest_Triangle (meshTriangle mesh i) ray HitRecord.fresh false).1 = true
          ∧ 0 < (HitTest_Triangle (meshTriangle mesh i) ray HitRecord.fresh false).2.t
          ∧ (meshLoop mesh ray false steps hitRecord).2
              = (HitTest_Triangle (meshTriangle mesh i) ray HitRecord.fresh false).2
          ∧ (HitTest_Triangle (meshTriangle mesh i) ray HitRecord.fresh false).2.t
              < hitRecord.t
          ∧ (∀ m j : Nat, m < n → steps[m]? = some j →
              (HitTest_Triangle (meshTriangle mesh j) ray HitRecord.fresh false).1 = true →
              0 < (HitTest_Triangle (meshTriangle mesh j) ray HitRecord.fresh false).2.t →
              (HitTest_Triangle (meshTriangle mesh i) ray HitRecord.fresh false).2.t
                < (HitTest_Triangle (meshTriangle mesh j) ray HitRecord.fresh false).2.t)
          ∧ ∀ j ∈ steps,
              (HitTest_Triangle (meshTriangle mesh j) ray HitRecord.fresh false).1 = true →
              0 < (HitTest_Triangle (meshTriangle mesh j) ray HitRecord.fresh false).2.t →
              (HitTest_Triangle (meshTriangle mesh i) ray HitRecord.fresh false).2.t
                ≤ (HitTest_Triangle (meshTriangle mesh j) ray HitRecord.fresh false).2.t := by
  induction steps with
  | nil => intro hitRecord; left; simp [meshLoop]
  | cons x rest ih =>
    intro hitRecord
    by_cases hc : (HitTest_Triangle (meshTriangle mesh x) ray HitRecord.fresh false).1 = true
        ∧ (HitTest_Triangle (meshTriangle mesh x) ray HitRecord.fresh false).2.t > 0
        ∧ (HitTest_Triangle (meshTriangle mesh x) ray HitRecord.fresh false).2.t
            < hitRecord.t
    · have hstep : meshLoop mesh ray false (x :: rest) hitRecord
          = meshLoop mesh ray false rest
              (HitTest_Triangle (meshTriangle mesh x) ray HitRecord.fresh false).2 := by
        simp only [meshLoop, hc.1, if_true, Bool.false_eq_true, if_false, hc.2.1, hc.2.2,
          and_self]
      rw [hstep]
      right
      rcases ih (HitTest_Triangle (meshTriangle mesh x) ray HitRecord.fresh false).2
        with ⟨h1, h2⟩ | ⟨n, i, h1, h2, h3, h4, h5, h6, h7⟩
      · refine ⟨0, x, by simp, hc.1, hc.2.1, h1, hc.2.2, ?_, ?_⟩
        · intro m j hm; exact absurd hm (Nat.not_lt_zero m)
        · intro j hj hj1 hj2
          rcases List.mem_cons.mp hj with rfl | hj
          · exact le_refl _
          · exact not_lt.mp (h2 j hj hj1 hj2)
      · refine ⟨n + 1, i, by simpa using h1, h2, h3, h4, lt_trans h5 hc.2.2, ?_, ?_⟩
        · intro m j hm hj hj1 hj2
          cases m with
          | zero =>
            simp only [List.getElem?_cons_zero, Option.some.injEq] at hj
            rw [← hj]; exact h5
          | succ m =>
            simp only [List.getElem?_cons_succ] at hj
            exact h6 m j (Nat.lt_of_succ_lt_succ hm) hj hj1 hj2
        · intro j hj hj1 hj2
          rcases List.mem_cons.mp hj with rfl | hj
          · exact le_of_lt h5
          · exact h7 j hj hj1 hj2
    · have hstep : meshLoop mesh ray false (x :: rest) hitRecord
          = meshLoop mesh ray false rest hitRecord := by
        simp only [meshLoop, Bool.false_eq_true, if_false]
        split_ifs with h1 h2
        · exact absurd ⟨h1, h2.1, h2.2⟩ hc
        · rfl
        · rfl
      rw [hstep]
      have hx : (HitTest_Triangle (meshTriangle mesh x) ray HitRecord.fresh false).1 = true →
          0 < (HitTest_Triangle (meshTriangle mesh x) ray HitRecord.fresh false).2.t →
          ¬ (HitTest_Triangle (meshTriangle mesh x) ray HitRecord.fresh false).2.t
              < hitRecord.t := fun a b c => hc ⟨a, b, c⟩
      rcases ih hitRecord with ⟨h1, h2⟩ | ⟨n, i, h1, h2, h3, h4, h5, h6, h7⟩
      · left
        refine ⟨h1, ?_⟩
        intro j hj
        rcases List.mem_cons.mp hj with rfl | hj
        · exact hx
        · exact h2 j hj
      · right
        refine ⟨n + 1, i, by simpa using h1, h2, h3, h4, h5, ?_, ?_⟩
        · intro m j hm hj hj1 hj2
          cases m with
          | zero =>
            simp only [List.getElem?_cons_zero, Option.some.injEq] at hj
            rw [← hj] at hj1 hj2 ⊢
            exact lt_of_lt_of_le h5 (not_lt.mp (hx hj1 hj2))
          | succ m =>
            simp only [List.getElem?_cons_succ] at hj
            exact h6 m j (Nat.lt_of_succ_lt_succ hm) hj hj1 hj2
        · intro j hj hj1 hj2
          rcases List.mem_cons.mp hj with rfl | hj
          · exact le_of_lt (lt_of_lt_of_le h5 (not_lt.mp (hx hj1 hj2)))
          · exact h7 j hj hj1 hj2

/-- For an index buffer whose length is a multiple of 3 the loop visits the indices
`3 * k` for `k` below a third of the length, in increasing order. -/
theorem meshSteps_getElem? (n k : Nat) (h3 : 3 ∣ n) :
    (meshSteps n)[k]? = if k < n / 3 then some (3 * k) else none := by
  have hdiv : (n + 2) / 3 = n / 3 := by omega
  simp only [meshSteps, hdiv, List.getElem?_map, List.getElem?_range]
  by_cases hk : k < n / 3
  · simp [hk, List.getElem?_range]
  · simp [hk, List.getElem?_eq_none]
    omega

/-- A read of a list at a position inside it returns the entry at that position. -/
theorem getElem?_eq_some_getD {α : Type} (l : List α) (i : Nat) (d : α)
    (h : i < l.length) : l[i]? = some (l.getD i d) := by
  simp [List.getD_eq_getElem?_getD, List.getElem?_eq_getElem h]

/-- C23: for a mesh that passes the slab test, with an index buffer whose length is a
multiple of 3 and whose entries are valid positions of `transformedPositions`, the
closest-hit `HitTest_TriangleMesh` from a fresh record returns true exactly when the
triangle test hits with `t > 0` for at least one triangle `k` of the mesh; the record
is then the one produced by such a triangle whose `t` is not above that of any triangle
hit with `t > 0` and strictly below that of every earlier one (the first in index order
on a tie); triangle `k` has the vertices
`transformedPositions[indices[3k]]`, `[indices[3k+1]]`, `[indices[3k+2]]`, the normal
`transformedNormals[k]` and the mesh's `cullMode` and `materialIndex`. -/
theorem HitTest_TriangleMesh_closest_first_min (mesh : TriangleMesh F) (ray : Ray F)
    (hslab : SlabTest_TriangleMesh mesh ray = true)
    (h3 : 3 ∣ mesh.indices.length)
    (hvalid : ∀ j i : Nat, mesh.indices[j]? = some i →
      i < mesh.transformedPositions.length) :
    ((HitTest_TriangleMesh mesh ray HitRecord.fresh false).1 = true
      ↔ ∃ k : Nat, k < mesh.indices.length / 3
          ∧ (HitTest_Triangle (meshTriangle mesh (3 * k)) ray HitRecord.fresh false).1 = true
          ∧ 0 < (HitTest_Triangle (meshTriangle mesh (3 * k)) ray HitRecord.fresh
                  false).2.t)
    ∧ ((HitTest_TriangleMesh mesh ray HitRecord.fresh false).1 = true →
        ∃ k : Nat, k < mesh.indices.length / 3
          ∧ (HitTest_Triangle (meshTriangle mesh (3 * k)) ray HitRecord.fresh false).1 = true
          ∧ 0 < (HitTest_Triangle (meshTriangle mesh (3 * k)) ray HitRecord.fresh
                  false).2.t
          ∧ (HitTest_TriangleMesh mesh ray HitRecord.fresh false).2
              = (HitTest_Triangle (meshTriangle mesh (3 * k)) ray HitRecord.fresh false).2
          ∧ (∀ k' : Nat, k' < mesh.indices.length / 3 →
              (HitTest_Triangle (meshTriangle mesh (3 * k')) ray HitRecord.fresh false).1
                = true →
              0 < (HitTest_Triangle (meshTriangle mesh (3 * k')) ray HitRecord.fresh
                    false).2.t →
              (HitTest_Triangle (meshTriangle mesh (3 * k)) ray HitRecord.fresh false).2.t
                ≤ (HitTest_Triangle (meshTriangle mesh (3 * k')) ray HitRecord.fresh
                    false).2.t)
          ∧ (∀ k' : Nat, k' < k →
              (HitTest_Triangle (meshTriangle mesh (3 * k')) ray HitRecord.fresh false).1
                = true →
              0 < (HitTest_Triangle (meshTriangle mesh (3 * k')) ray HitRecord.fresh
                    false).2.t →
              (HitTest_Triangle (meshTriangle mesh (3 * k)) ray HitRecord.fresh false).2.t
                < (HitTest_Triangle (meshTriangle mesh (3 * k')) ray HitRecord.fresh
                    false).2.t))
    ∧ (∀ k : Nat, k < mesh.indices.length / 3 →
        (∃ i0 i1 i2 : Nat, mesh.indices[3 * k]? = some i0
          ∧ mesh.indices[3 * k + 1]? = some i1 ∧ mesh.indices[3 * k + 2]? = some i2
          ∧ mesh.transformedPositions[i0]? = some (meshTriangle mesh (3 * k)).v0
          ∧ mesh.transformedPositions[i1]? = some (meshTriangle mesh (3 * k)).v1
          ∧ mesh.transformedPositions[i2]? = some (meshTriangle mesh (3 * k)).v2)
        ∧ (meshTriangle mesh (3 * k)).normal = mesh.transformedNormals.getD k 0
        ∧ (meshTriangle mesh (3 * k)).cullMode = mesh.cullMode
        ∧ (meshTriangle mesh (3 * k)).materialIndex = mesh.materialIndex) := by
  have hrun : HitTest_TriangleMesh mesh ray HitRecord.fresh false
      = meshLoop mesh ray false (meshSteps mesh.indices.length) HitRecord.fresh := by
    simp [HitTest_TriangleMesh, hslab]
  have hget := fun k => meshSteps_getElem? mesh.indices.length k h3
  have hmem : ∀ k : Nat, k < mesh.indices.length / 3 →
      3 * k ∈ meshSteps mesh.indices.length := by
    intro k hk
    apply List.getElem?_mem (n := k)
    rw [hget k, if_pos hk]
  have hinv := (meshLoop_closest_inv mesh ray (meshSteps mesh.indices.length)
    HitRecord.fresh (Or.inl rfl)).1
  have hcases : ((HitTest_TriangleMesh mesh ray HitRecord.fresh false).1 = false
        ∧ ¬ ∃ k : Nat, k < mesh.indices.length / 3
          ∧ (HitTest_Triangle (meshTriangle mesh (3 * k)) ray HitRecord.fresh false).1 = true
          ∧ 0 < (HitTest_Triangle (meshTriangle mesh (3 * k)) ray HitRecord.fresh
                  false).2.t)
      ∨ ((HitTest_TriangleMesh mesh ray HitRecord.fresh false).1 = true
        ∧ ∃ k : Nat, k < mesh.indices.length / 3
          ∧ (HitTest_Triangle (meshTriangle mesh (3 * k)) ray HitRecord.fresh false).1 = true
          ∧ 0 < (HitTest_Triangle (meshTriangle mesh (3 * k)) ray HitRecord.fresh
                  false).2.t
          ∧ (HitTest_TriangleMesh mesh ray HitRecord.fresh false).2
              = (HitTest_Triangle (meshTriangle mesh (3 * k)) ray HitRecord.fresh false).2
          ∧ (∀ k' : Nat, k' < mesh.indices.length / 3 →
              (HitTest_Triangle (meshTriangle mesh (3 * k')) ray HitRecord.fresh false).1
                = true →
              0 < (HitTest_Triangle (meshTriangle mesh (3 * k')) ray HitRecord.fresh
                    false).2.t →
              (HitTest_Triangle (meshTriangle mesh (3 * k)) ray HitRecord.fresh false).2.t
                ≤ (HitTest_Triangle (meshTriangle mesh (3 * k')) ray HitRecord.fresh
                    false).2.t)
          ∧ (∀ k' : Nat, k' < k →
              (HitTest_Triangle (meshTriangle mesh (3 * k')) ray HitRecord.fresh false).1
                = true →
              0 < (HitTest_Triangle (meshTriangle mesh (3 * k')) ray HitRecord.fresh
                    false).2.t →
              (HitTest_Triangle (meshTriangle mesh (3 * k)) ray HitRecord.fresh false).2.t
                < (HitTest_Triangle (meshTriangle mesh (3 * k')) ray HitRecord.fresh
                    false).2.t)) := by
    rw [hrun]
    rcases meshLoop_closest_cases mesh ray (meshSteps mesh.indices.length) HitRecord.fresh
      with ⟨h1, h2⟩ | ⟨n, i, h1, h2, h3', h4, _, h6, h7⟩
    · left
      constructor
      · rw [hinv, h1]; rfl
      · rintro ⟨k, hk, hk1, hk2⟩
        apply h2 (3 * k) (hmem k hk) hk1 hk2
        rcases HitTest_Triangle_fresh (meshTriangle mesh (3 * k)) ray
          with ⟨hf, _⟩ | ⟨_, _, hlt⟩
        · rw [hf] at hk1; exact absurd hk1 Bool.false_ne_true
        · exact hlt
    · right
      have hn := hget n
      rw [h1] at hn
      by_cases hnlt : n < mesh.indices.length / 3
      · rw [if_pos hnlt] at hn
        have hi : i = 3 * n := Option.some.inj hn
        subst hi
        have hdid : (HitTest_Triangle (meshTriangle mesh (3 * n)) ray HitRecord.fresh
            false).2.didHit = true := by
          rcases HitTest_Triangle_fresh (meshTriangle mesh (3 * n)) ray
            with ⟨hf, _⟩ | ⟨_, hd, _⟩
          · rw [hf] at h2; exact absurd h2 Bool.false_ne_true
          · exact hd
        refine ⟨by rw [hinv, h4]; exact hdid, n, hnlt, h2, h3', h4, ?_, ?_⟩
        · intro k' hk' hk1 hk2
          exact h7 (3 * k') (hmem k' hk') hk1 hk2
        · intro k' hk' hk1 hk2
          exact h6 k' (3 * k') hk' (by rw [hget k', if_pos (lt_trans hk' hnlt)]) hk1 hk2
      · rw [if_neg hnlt] at hn
        exact absurd hn (by simp)
  refine ⟨?_, ?_, ?_⟩
  · rcases hcases with ⟨h1, h2⟩ | ⟨h1, k, hk, hk1, hk2, _⟩
    · rw [h1]; simp only [Bool.false_eq_true, false_iff]; exact h2
    · rw [h1]; simp only [true_iff]; exact ⟨k, hk, hk1, hk2⟩
  · intro h
    rcases hcases with ⟨h1, _⟩ | ⟨_, h2⟩
    · rw [h1] at h; exact absurd h Bool.false_ne_true
    · exact h2
  · intro k hk
    obtain ⟨q, hq⟩ := h3
    have hkq : k < q := by
      rw [hq, Nat.mul_div_cancel_left q (by decide)] at hk
      exact hk
    have hlen0 : 3 * k < mesh.indices.length := by omega
    have hlen1 : 3 * k + 1 < mesh.indices.length := by omega
    have hlen2 : 3 * k + 2 < mesh.indices.length := by omega
    have e0 := getElem?_eq_some_getD mesh.indices (3 * k) 0 hlen0
    have e1 := getElem?_eq_some_getD mesh.indices (3 * k + 1) 0 hlen1
    have e2 := getElem?_eq_some_getD mesh.indices (3 * k + 2) 0 hlen2
    refine ⟨⟨_, _, _, e0, e1, e2,
      getElem?_eq_some_getD _ _ 0 (hvalid _ _ e0),
      getElem?_eq_some_getD _ _ 0 (hvalid _ _ e1),
      getElem?_eq_some_getD _ _ 0 (hvalid _ _ e2)⟩, ?_, rfl, rfl⟩
    simp only [meshTriangle, Nat.mul_div_cancel_left k (by decide : 0 < 3)]

/-- The slab test of `twoTriangleMesh` passes for `rayAlongMinusZ`: on the axes `x`
and `y`, where the direction is zero and the origin lies between the bounds of the box,
the quotients are `-infinity` and `+infinity`, and on the axis `z` they are 6 and 4. -/
theorem SlabTest_twoTriangleMesh_rayAlongMinusZ :
    SlabTest_TriangleMesh twoTriangleMesh rayAlongMinusZ = true := by
  have hx1 : ExtFloat.div ((0 : ℚ) - 1 / 8) 0 = ExtFloat.negInf := by
    norm_num [ExtFloat.div]
  have hx2 : ExtFloat.div ((1 : ℚ) - 1 / 8) 0 = ExtFloat.posInf := by
    norm_num [ExtFloat.div]
  have hz1 : ExtFloat.div ((-1 : ℚ) - 5) (-1) = ExtFloat.fin 6 := by
    norm_num [ExtFloat.div]
  have hz2 : ExtFloat.div ((1 : ℚ) - 5) (-1) = ExtFloat.fin 4 := by
    norm_num [ExtFloat.div]
  simp only [SlabTest_TriangleMesh, twoTriangleMesh, rayAlongMinusZ, hx1, hx2, hz1, hz2]
  norm_num [ExtFloat.stdMin, ExtFloat.stdMax, ExtFloat.lt, ExtFloat.le]

/-- Witness of C23: `twoTriangleMesh` has 6 valid indices and passes the slab test for
`rayAlongMinusZ`, a ray with two zero direction components, which hits its first
triangle at `t = 6 > 0`; the closest-hit form returns true. -/
theorem HitTest_TriangleMesh_closest_first_min_witness :
    (HitTest_TriangleMesh twoTriangleMesh rayAlongMinusZ HitRecord.fresh false).1
      = true := by
  have hhit : (HitTest_Triangle (meshTriangle twoTriangleMesh (3 * 0))
      rayAlongMinusZ HitRecord.fresh false).1 = true := by
    simp [HitTest_Triangle, HitTest_Triangle_inside, meshTriangle, twoTriangleMesh,
      rayAlongMinusZ, triA, triEdge1, triEdge2, triH, triF, triS, triU, triQ, triV,
      triT, Vector3.Cross, Vector3.Dot, FLT_EPSILON]
    norm_num
  have ht : (HitTest_Triangle (meshTriangle twoTriangleMesh (3 * 0))
      rayAlongMinusZ HitRecord.fresh false).2.t = ((6 : ℚ) : WithTop ℚ) := by
    simp [HitTest_Triangle, HitTest_Triangle_inside, meshTriangle, twoTriangleMesh,
      rayAlongMinusZ, triA, triEdge1, triEdge2, triH, triF, triS, triU, triQ, triV,
      triT, Vector3.Cross, Vector3.Dot, FLT_EPSILON]
    norm_num
  have hvalid : ∀ j i : Nat, twoTriangleMesh.indices[j]? = some i →
      i < twoTriangleMesh.transformedPositions.length := by
    intro j i h
    have hm := List.getElem?_mem h
    simp only [twoTriangleMesh, List.mem_cons, List.mem_singleton, List.not_mem_nil,
      or_false] at hm
    simp only [twoTriangleMesh, List.length_cons, List.length_nil]
    omega
  exact (HitTest_TriangleMesh_closest_first_min twoTriangleMesh rayAlongMinusZ
    SlabTest_twoTriangleMesh_rayAlongMinusZ (by decide) hvalid).1.mpr
    ⟨0, by decide, hhit, by rw [ht]; exact_mod_cast (by norm_num : (0 : ℚ) < 6)⟩

end GeometryUtils

end dae
